import Mathlib

/-! # Interrupt / workqueue demonstration module (`tutorial-05/irq_demo.c`)

A shallow embedding of the character-device and procfs entry points of
`irq_demo.c` together with the top half (`button_irq_handler`) and the
bottom half (`demo_work_handler`) they drive.

Conventions of the embedding

* C `char` values are Lean `Char`s; the terminating NUL is `Char.ofNat 0`.
* `int` / `atomic_t` values are `Int`s reduced with `wrap32` after every
  arithmetic step, `ktime_t` / `s64` values are `Int`s reduced with `wrap64`.
* Each entry point is one atomic step on `State`; `spin_lock_irqsave`,
  `mutex_lock` and `pr_info` have no effect on `State` and are left out.
* The monotonic clock reading that `ktime_get()` would return is passed to
  the step as the argument `now`.
* A store outside a fixed-size array yields `none`.

The embeddings of `tutorial-02/simple_char.c` (namespace `SimpleChar`) and of
`tutorial-04/sync_demo.c` (namespace `SyncDemo`) follow the definitions of
`irq_demo.c` and use the same conventions.
-/

namespace IrqDemo

/-! ## Machine integers -/

/-- Two's-complement reduction of an integer to a signed 32-bit `int`. -/
def wrap32 (x : Int) : Int := (x + 2147483648) % 4294967296 - 2147483648

/-- Two's-complement reduction of an integer to a signed 64-bit `s64`. -/
def wrap64 (x : Int) : Int :=
  (x + 9223372036854775808) % 18446744073709551616 - 9223372036854775808

/-- Largest value of a C `int`. -/
def INT_MAX : Int := 2147483647

/-- Kernel `atomic_inc` on the value held by an `atomic_t`. -/
def atomic_inc (v : Int) : Int := wrap32 (v + 1)

/-- Kernel `ktime_sub` on two `ktime_t` values. -/
def ktime_sub (a b : Int) : Int := wrap64 (a - b)

/-! ## Constants of the module -/

/-- Source: `#define BUFFER_SIZE 1024`. -/
def BUFFER_SIZE : Nat := 1024

/-- Source: `#define BUTTON_GPIO 17`. -/
def BUTTON_GPIO : Int := 17

/-- Source: `#define TIMER_PERIOD_NS 1000000000`. -/
def TIMER_PERIOD_NS : Int := 1000000000

/-- Source: `static bool using_gpio = false;` (never assigned afterwards). -/
def using_gpio : Bool := false

/-- Source: `static bool using_timer = true;` (never assigned afterwards). -/
def using_timer : Bool := true

/-- Errno value behind `-EFAULT`. -/
def EFAULT : Int := 14

/-- The string terminator. -/
def NUL : Char := Char.ofNat 0

/-- A string literal as the C compiler lays it out: its characters and a NUL. -/
def cstr (s : String) : List Char := s.toList ++ [NUL]

/-! ## Module state -/

/-- The file-scope variables of `irq_demo.c` that the entry points touch. -/
structure State where
  /-- Source: `static atomic_t irq_count`. -/
  irq_count : Int
  /-- Source: `static atomic_t bottom_half_count`. -/
  bottom_half_count : Int
  /-- Source: `static atomic_t delayed_work_count`. -/
  delayed_work_count : Int
  /-- Source: `static ktime_t last_irq_time`. -/
  last_irq_time : Int
  /-- Source: `static ktime_t last_bh_time`. -/
  last_bh_time : Int
  /-- The pending bit of `static struct work_struct regular_work`. -/
  regular_work_pending : Bool
  /-- Source: `static char device_buffer[BUFFER_SIZE]`. -/
  device_buffer : List Char
  /-- Source: `static struct delayed_work delayed_work`: `some d` when the item
  is pending, queued with a delay of `d` jiffies; `none` when it is idle. -/
  delayed_work : Option Nat
  /-- The expiry time of `static struct hrtimer demo_timer`. -/
  demo_timer_expires : Int
  /-- Whether `demo_timer` is enqueued. -/
  demo_timer_active : Bool
deriving DecidableEq

/-- The state right after the static initialisers have run. -/
def State.init : State :=
  { irq_count := 0, bottom_half_count := 0, delayed_work_count := 0,
    last_irq_time := 0, last_bh_time := 0, regular_work_pending := false,
    device_buffer := List.replicate BUFFER_SIZE NUL,
    delayed_work := none, demo_timer_expires := 0, demo_timer_active := false }

/-- A state in the middle of a run: seven interrupts taken, six drained, two
maintenance runs, both timestamps recorded, a drain pending. -/
def State.sample : State :=
  { State.init with
    irq_count := 7, bottom_half_count := 6, delayed_work_count := 2,
    last_irq_time := 100, last_bh_time := 150, regular_work_pending := true }

/-- A state late in a long run: `irq_count` and `bottom_half_count` have
reached the largest `int`, every interrupt has been drained. -/
def State.saturated : State :=
  { State.init with
    irq_count := 2147483647, bottom_half_count := 2147483647, delayed_work_count := 1000,
    last_irq_time := 5000000000000, last_bh_time := 5000000000100 }

/-- A timestamp that is either still zero or a reading of `CLOCK_MONOTONIC`. -/
def ktime_ok (t : Int) : Prop := 0 ≤ t ∧ t < 9223372036854775808

instance (t : Int) : Decidable (ktime_ok t) := by
  unfold ktime_ok; exact inferInstance

/-! ## Libc-style helpers -/

/-- C `strncmp`: compares at most `n` characters and stops at a NUL.
A list that has run out reads as NUL. -/
def strncmp : List Char → List Char → Nat → Int
  | _, _, 0 => 0
  | s1, s2, n + 1 =>
    let c1 := s1.headD NUL
    let c2 := s2.headD NUL
    if c1 ≠ c2 then (c1.toNat : Int) - (c2.toNat : Int)
    else if c1 = NUL then 0
    else strncmp s1.tail s2.tail n

/-- Store one character into a fixed-size array, `none` outside of it. -/
def store (a : List Char) (i : Nat) (c : Char) : Option (List Char) :=
  if i < a.length then some (a.set i c) else none

/-- Kernel `copy_from_user(dst, src, n)`. The list `src` holds the bytes that
are readable at the user pointer. The result is the kernel array after the copy
and the number of bytes that could not be copied (the uncopied tail is
zero-filled), or `none` when `n` exceeds the kernel array. -/
def copy_from_user (dst src : List Char) (n : Nat) : Option (List Char × Nat) :=
  if n ≤ dst.length then
    let got := src.take n
    some (got ++ List.replicate (n - got.length) NUL ++ dst.drop n, n - got.length)
  else none

/-! ## Work queue -/

/-- Kernel `queue_work(demo_wq, &regular_work)`: a work item whose pending
bit is already set is left alone, otherwise the bit is set and the item is
queued. The boolean tells whether the item was queued by this call. -/
def queue_work (s : State) : State × Bool :=
  if s.regular_work_pending then (s, false)
  else ({ s with regular_work_pending := true }, true)

/-- Source: `demo_work_handler`, the bottom half. -/
def demo_work_handler (s : State) (now : Int) : State :=
  let s1 := { s with bottom_half_count := atomic_inc s.bottom_half_count }
  { s1 with last_bh_time := now }

/-- One turn of the worker on `regular_work`: a pending item has its pending
bit cleared and its handler run; nothing happens when the item is idle. -/
def process_one_work (s : State) (now : Int) : State :=
  if s.regular_work_pending then
    demo_work_handler { s with regular_work_pending := false } now
  else s

/-- Source: `button_irq_handler`, the top half. -/
def button_irq_handler (s : State) (now : Int) : State :=
  let s1 := { s with irq_count := atomic_inc s.irq_count }
  let s2 := { s1 with last_irq_time := now }
  (queue_work s2).1

/-! ## Character device: write -/

/-- Source: `irq_demo_write`. `stack` is the uninitialised content of
`char buffer[16]`, `user_buffer` the bytes readable at the user pointer and
`count` the requested length. The result is the new state and the return
value, or `none` if a store left the local array. -/
def irq_demo_write (s : State) (now : Int) (stack user_buffer : List Char) (count : Nat) :
    Option (State × Int) :=
  let bytes_to_copy := min count (16 - 1) -- min(count, sizeof(buffer) - 1)
  match copy_from_user stack user_buffer bytes_to_copy with
  | none => none
  | some (buffer, not_copied) =>
    if not_copied ≠ 0 then some (s, -EFAULT)
    else
      match store buffer bytes_to_copy NUL with
      | none => none
      | some buffer =>
        if strncmp buffer (cstr "trigger") 7 = 0 then
          some (button_irq_handler s now, (bytes_to_copy : Int))
        else if strncmp buffer (cstr "reset") 5 = 0 then
          let s1 := { s with irq_count := 0 }
          let s2 := { s1 with bottom_half_count := 0 }
          let s3 := { s2 with delayed_work_count := 0 }
          some (s3, (bytes_to_copy : Int))
        else some (s, (bytes_to_copy : Int))

/-! ## Formatted output -/

/-- The `%d` and `%lld` conversions of the kernel's `vsnprintf`. -/
def fmt_d (v : Int) : List Char :=
  if v < 0 then '-' :: Nat.toDigits 10 v.natAbs else Nat.toDigits 10 v.natAbs

/-- The kernel's `vsnprintf` formatting, for the conversions this module
uses (`%d` and `%lld`); every other character is copied. -/
def vformat : List Char → List Int → List Char
  | '%' :: 'l' :: 'l' :: 'd' :: rest, a :: args => fmt_d a ++ vformat rest args
  | '%' :: 'd' :: rest, a :: args => fmt_d a ++ vformat rest args
  | c :: rest, args => c :: vformat rest args
  | [], _ => []

/-- Kernel `snprintf(buf, size, fmt, ...)`: at most `size - 1` characters and
a NUL are stored in `buf`; the length of the full text is returned. -/
def snprintf (buf : List Char) (size : Nat) (fmt : String) (args : List Int) :
    List Char × Int :=
  let text := vformat fmt.toList args
  if size = 0 then (buf, (text.length : Int))
  else
    let out := text.take (size - 1)
    (out ++ NUL :: buf.drop (out.length + 1), (text.length : Int))

/-- Kernel `copy_to_user(dst, src, n)`. `room` is the number of writable bytes
at the user pointer, `src` the kernel memory from the source pointer to the end
of its array. The result is the bytes delivered and the number of bytes that
could not be copied, or `none` when `n` bytes are not available in `src`. -/
def copy_to_user (room : Nat) (src : List Char) (n : Nat) : Option (List Char × Nat) :=
  if n ≤ src.length then some ((src.take n).take room, n - min n room) else none

/-! ## Character device: read -/

/-- What one `read` call leaves behind. -/
structure ReadResult where
  /-- The module state after the call. -/
  state : State
  /-- The bytes stored at the user pointer. -/
  data : List Char
  /-- The file position `*offset` after the call. -/
  offset : Int
  /-- The return value. -/
  ret : Int

/-- Source: `irq_demo_read`. `room` is the number of writable bytes at
`user_buffer`. The result is `none` when the source pointer
`device_buffer + *offset` or the copy leaves `device_buffer`. -/
def irq_demo_read (s : State) (room : Nat) (count : Nat) (offset : Int) : Option ReadResult :=
  let r := snprintf s.device_buffer BUFFER_SIZE
    "IRQ count: %d\nBottom-half count: %d\nDelayed work count: %d\n"
    [s.irq_count, s.bottom_half_count, s.delayed_work_count]
  let s1 := { s with device_buffer := r.1 }
  let len := r.2
  if offset ≥ len then some { state := s1, data := [], offset := offset, ret := 0 }
  else if offset < 0 then none
  else
    -- (int) min((size_t)(len - *offset), count), with 0 ≤ *offset < len here
    let bytes_to_read : Int := wrap32 ((min (len - offset).toNat count : Nat) : Int)
    (copy_to_user room (r.1.drop offset.toNat) bytes_to_read.toNat).bind fun copied =>
      let bytes_not_copied : Int := wrap32 (copied.2 : Int)
      some { state := s1, data := copied.1,
             offset := wrap64 (offset + wrap32 (bytes_to_read - bytes_not_copied)),
             ret := wrap32 (bytes_to_read - bytes_not_copied) }

/-! ## Procfs report -/

/-- One call that appends to a `seq_file`. -/
inductive SeqItem where
  /-- Source: `seq_puts(m, s)`. -/
  | puts (s : String)
  /-- Source: `seq_printf(m, fmt, args...)`. -/
  | printf (fmt : String) (args : List Int)
deriving DecidableEq

/-- The text a `seq_file` call contributes. -/
def SeqItem.text : SeqItem → List Char
  | .puts s => s.toList
  | .printf fmt args => vformat fmt.toList args

/-- The text a reader of the `seq_file` receives. -/
def seq_text (m : List SeqItem) : List Char := (m.map SeqItem.text).flatten

/-- Kernel `ktime_to_ns`. -/
def ktime_to_ns (t : Int) : Int := t

/-- Source: `irq_proc_show`. The `seq_file` is the list of calls made on it,
in order; `single_open` starts it empty. -/
def irq_proc_show (s : State) (m : List SeqItem) : List SeqItem × Int :=
  let irq_time := s.last_irq_time
  let bh_time := s.last_bh_time
  let m := m ++ [.puts "Interrupt Handling Demo Statistics\n"]
  let m := m ++ [.puts "==================================\n\n"]
  let m := m ++ [.printf "Top-half (IRQ) count: %d\n" [s.irq_count]]
  let m := m ++ [.printf "Bottom-half (work) count: %d\n" [s.bottom_half_count]]
  let m := m ++ [.printf "Delayed work count: %d\n" [s.delayed_work_count]]
  let m := if using_gpio then
      m ++ [.printf "Using GPIO %d for hardware interrupts\n" [ BUTTON_GPIO]]
    else m
  let m := if using_timer then
      m ++ [.printf "Using timer to simulate interrupts (period: %lld ns)\n" [TIMER_PERIOD_NS]]
    else m
  let m := if irq_time ≠ 0 then
      m ++ [.printf "Last IRQ time: %lld ns\n" [ktime_to_ns irq_time]]
    else m
  let m := if bh_time ≠ 0 then
      let m := m ++ [.printf "Last bottom-half time: %lld ns\n" [ktime_to_ns bh_time]]
      if irq_time ≠ 0 then
        let latency_ns := ktime_to_ns (ktime_sub bh_time irq_time)
        m ++ [.printf "IRQ to bottom-half latency: %lld ns\n" [latency_ns]]
      else m
    else m
  (m, 0)

/-- The latency figures a report shows: the arguments of its
`"IRQ to bottom-half latency: %lld ns\n"` lines, in order. -/
def latency_figures (m : List SeqItem) : List Int :=
  m.filterMap fun item =>
    match item with
    | .printf fmt [v] => if fmt = "IRQ to bottom-half latency: %lld ns\n" then some v else none
    | _ => none

/-! ## Auxiliary notions used in the statements -/

/-- A value that fits a C `int`. -/
def int_ok (v : Int) : Prop := -2147483648 ≤ v ∧ v < 2147483648

instance (v : Int) : Decidable (int_ok v) := by
  unfold int_ok; exact inferInstance

/-- The local array of `irq_demo_write` once the copy succeeded and the
terminator has been stored at index `k`. -/
def cmd_buffer (stack user_buffer : List Char) (k : Nat) : List Char :=
  (user_buffer.take k ++ stack.drop k).set k NUL

/-- The state after the three `atomic_set` calls of the `reset` branch of
`irq_demo_write`. -/
def counters_cleared (s : State) : State :=
  { s with irq_count := 0, bottom_half_count := 0, delayed_work_count := 0 }

/-- The text `irq_demo_read` formats: the counters under their labels. -/
def snapshot (s : State) : List Char :=
  vformat "IRQ count: %d\nBottom-half count: %d\nDelayed work count: %d\n".toList
    [s.irq_count, s.bottom_half_count, s.delayed_work_count]

/-- The state `irq_demo_read` leaves: the snapshot and its terminator are at
the start of `device_buffer`. -/
def with_snapshot (s : State) : State :=
  { s with
    device_buffer := snapshot s ++ NUL :: s.device_buffer.drop ((snapshot s).length + 1) }

/-- Number of bytes a `read` at file position `offset` delivers. -/
def read_amount (s : State) (room count : Nat) (offset : Int) : Nat :=
  min (min ((snapshot s).length - offset.toNat) count) room

/-- A reader that calls `read` with the same `count` until it returns 0 (or
`fuel` calls were made) and concatenates what it received. -/
def read_all : Nat → State → Nat → Nat → Int → List Char
  | 0, _, _, _, _ => []
  | fuel + 1, s, room, count, offset =>
    match irq_demo_read s room count offset with
    | none => []
    | some r => if r.ret = 0 then [] else r.data ++ read_all fuel r.state room count r.offset

/-- The snapshot text as the specification words it:
`event=<EventCounter>`, `drain=<DrainCounter>`, `maintenance=<MaintenanceCounter>`,
one per line, in decimal. -/
def spec_snapshot (s : State) : List Char :=
  "event=".toList ++ fmt_d s.irq_count ++ "\ndrain=".toList ++ fmt_d s.bottom_half_count ++
    "\nmaintenance=".toList ++ fmt_d s.delayed_work_count ++ "\n".toList

/-! ## Periodic task -/

/-- Kernel `queue_delayed_work(demo_wq, &delayed_work, delay)`: an item that is
already pending is left alone, otherwise it becomes pending with a timer of
`delay` jiffies. The boolean tells whether the item was queued by this call. -/
def queue_delayed_work (s : State) (delay : Nat) : State × Bool :=
  match s.delayed_work with
  | some _ => (s, false)
  | none => ({ s with delayed_work := some delay }, true)

/-- Source: `demo_delayed_work_handler`. `msecs_to_jiffies` is the kernel's
conversion for the tick rate it was built with. -/
def demo_delayed_work_handler (msecs_to_jiffies : Nat → Nat) (s : State) : State :=
  let s1 := { s with delayed_work_count := atomic_inc s.delayed_work_count }
  (queue_delayed_work s1 (msecs_to_jiffies 5000)).1

/-- One turn of the worker on `delayed_work` after its timer ran out: the
pending bit is cleared and the handler run; nothing happens when the item is
idle. -/
def process_delayed_work (msecs_to_jiffies : Nat → Nat) (s : State) : State :=
  match s.delayed_work with
  | some _ => demo_delayed_work_handler msecs_to_jiffies { s with delayed_work := none }
  | none => s

/-- Kernel `cancel_delayed_work_sync(&delayed_work)`. -/
def cancel_delayed_work_sync (s : State) : State := { s with delayed_work := none }

/-- Kernel `flush_workqueue(demo_wq)`: a queued `regular_work` is run before
the call returns; `now` is the clock value its handler reads. -/
def flush_workqueue (s : State) (now : Int) : State := process_one_work s now

/-! ## Timer -/

/-- Kernel `KTIME_MAX`. -/
def KTIME_MAX : Int := 9223372036854775807

/-- Kernel `ns_to_ktime`. -/
def ns_to_ktime (ns : Int) : Int := ns

/-- Kernel `ktime_add_safe`: the sum, or `KTIME_MAX` when it overflows. -/
def ktime_add_safe (lhs rhs : Int) : Int :=
  let res := wrap64 (lhs + rhs)
  if res < 0 ∨ res < lhs ∨ res < rhs then KTIME_MAX else res

/-- Kernel `enum hrtimer_restart`. -/
inductive hrtimer_restart where
  | HRTIMER_NORESTART
  | HRTIMER_RESTART
deriving DecidableEq

/-- Kernel `hrtimer_start(&demo_timer, tim, HRTIMER_MODE_REL)` called at clock
value `now`: the expiry is `tim` after `now` and the timer is enqueued. -/
def hrtimer_start (s : State) (tim now : Int) : State :=
  { s with demo_timer_expires := ktime_add_safe tim now, demo_timer_active := true }

/-- Kernel `hrtimer_cancel(&demo_timer)`. -/
def hrtimer_cancel (s : State) : State := { s with demo_timer_active := false }

/-- Kernel `hrtimer_forward(&demo_timer, now, interval)`; `resolution` is the
kernel's `hrtimer_resolution`. The result is the state with the expiry moved
and the number of overruns. -/
def hrtimer_forward (resolution : Int) (s : State) (now interval : Int) : State × Int :=
  let delta := ktime_sub now s.demo_timer_expires
  if delta < 0 then (s, 0)
  else if s.demo_timer_active then (s, 0)
  else
    let interval := if interval < resolution then resolution else interval
    if delta ≥ interval then
      let incr := ktime_to_ns interval
      let orun := delta / incr
      let s1 := { s with demo_timer_expires := wrap64 (s.demo_timer_expires + incr * orun) }
      if s1.demo_timer_expires > now then (s1, orun)
      else
        ({ s1 with demo_timer_expires := ktime_add_safe s1.demo_timer_expires interval },
          orun + 1)
    else ({ s with demo_timer_expires := ktime_add_safe s.demo_timer_expires interval }, 1)

/-- Source: `demo_timer_callback`. `now` is the clock value the handler reads,
`fwd_now` the one `hrtimer_forward_now` reads afterwards. -/
def demo_timer_callback (resolution : Int) (s : State) (now fwd_now : Int) :
    State × hrtimer_restart :=
  let s1 := button_irq_handler s now
  let s2 := (hrtimer_forward resolution s1 fwd_now (ns_to_ktime TIMER_PERIOD_NS)).1
  (s2, .HRTIMER_RESTART)

/-- One expiry of `demo_timer` as the hrtimer core handles it: the timer is
dequeued, the callback runs, and the timer is enqueued again when the callback
returns `HRTIMER_RESTART`. -/
def run_hrtimer (resolution : Int) (s : State) (now fwd_now : Int) : State :=
  if s.demo_timer_active then
    let r := demo_timer_callback resolution { s with demo_timer_active := false } now fwd_now
    if r.2 = .HRTIMER_RESTART then { r.1 with demo_timer_active := true } else r.1
  else s

/-! ## Module load and unload -/

/-- Errno value behind `-ENOMEM`. -/
def ENOMEM : Int := 12

/-- Kernel `IS_ERR`, on a pointer read as a signed `long`. -/
def IS_ERR (p : Int) : Prop := -4095 ≤ p ∧ p ≤ -1

instance (p : Int) : Decidable (IS_ERR p) := by
  unfold IS_ERR; exact inferInstance

/-- Kernel `PTR_ERR`. -/
def PTR_ERR (p : Int) : Int := p

/-- What the kernel answers to the calls `irq_demo_init` makes. -/
structure InitEnv where
  /-- Whether `create_workqueue` returned a queue (not `NULL`). -/
  create_workqueue : Bool
  /-- Kernel `msecs_to_jiffies` for the tick rate in use. -/
  msecs_to_jiffies : Nat → Nat
  /-- The clock value when `hrtimer_start` is called. -/
  start_now : Int
  /-- Return value of `gpio_request`. -/
  gpio_request : Int
  /-- Return value of `gpio_direction_input`. -/
  gpio_direction_input : Int
  /-- Return value of `gpio_to_irq`. -/
  gpio_to_irq : Int
  /-- Return value of `request_irq`. -/
  request_irq : Int
  /-- Return value of `register_chrdev`. -/
  register_chrdev : Int
  /-- Pointer returned by `class_create`, read as a signed `long`. -/
  class_create : Int
  /-- Pointer returned by `device_create`, read as a signed `long`. -/
  device_create : Int
  /-- Return value of `cdev_add`. -/
  cdev_add : Int
  /-- Whether `proc_create` returned an entry (not `NULL`). -/
  proc_create : Bool
  /-- The clock value a bottom half run by `flush_workqueue` reads. -/
  flush_now : Int

/-- The kernel calls `irq_demo_init` and `irq_demo_exit` make; a call that can
fail carries whether it succeeded. -/
inductive Call where
  | create_workqueue (ok : Bool)
  | queue_delayed_work (delay : Nat)
  | hrtimer_init
  | hrtimer_start
  | gpio_request (ok : Bool)
  | gpio_direction_input (ok : Bool)
  | gpio_to_irq (ok : Bool)
  | request_irq (ok : Bool)
  | register_chrdev (ok : Bool)
  | class_create (ok : Bool)
  | device_create (ok : Bool)
  | cdev_init
  | cdev_add (ok : Bool)
  | proc_create (ok : Bool)
  | cdev_del
  | device_destroy
  | class_destroy
  | unregister_chrdev
  | free_irq
  | gpio_free
  | hrtimer_cancel
  | cancel_delayed_work_sync
  | flush_workqueue
  | destroy_workqueue
  | remove_proc_entry
deriving DecidableEq

/-- What `irq_demo_init` leaves behind. -/
structure InitResult where
  /-- The module state after the call. -/
  state : State
  /-- The kernel calls made, in order. -/
  trace : List Call
  /-- The return value. -/
  ret : Int

/-- Source: `irq_demo_init` from the label `fail_gpio` to `return ret`. -/
def fail_gpio (timer : Bool) (env : InitEnv) (s : State) (t : List Call) (ret : Int) :
    InitResult :=
  let s1 := if timer then hrtimer_cancel s else s
  let t1 := if timer then t ++ [Call.hrtimer_cancel] else t
  let s2 := cancel_delayed_work_sync s1
  let s3 := flush_workqueue s2 env.flush_now
  { state := s3,
    trace := t1 ++ [Call.cancel_delayed_work_sync, Call.flush_workqueue, Call.destroy_workqueue],
    ret := ret }

/-- Source: `irq_demo_init` from the labels `fail_request_irq`,
`fail_gpio_to_irq` and `fail_gpio_direction` on. -/
def fail_gpio_direction (gpio timer : Bool) (env : InitEnv) (s : State) (t : List Call)
    (ret : Int) : InitResult :=
  fail_gpio timer env s (if gpio then t ++ [Call.gpio_free] else t) ret

/-- Source: `irq_demo_init` from the label `fail_register_chrdev` on. -/
def fail_register_chrdev (gpio timer : Bool) (env : InitEnv) (s : State) (t : List Call)
    (ret : Int) : InitResult :=
  fail_gpio_direction gpio timer env s (if gpio then t ++ [Call.free_irq] else t) ret

/-- Source: `irq_demo_init` from the label `fail_class_create` on. -/
def fail_class_create (gpio timer : Bool) (env : InitEnv) (s : State) (t : List Call)
    (ret : Int) : InitResult :=
  fail_register_chrdev gpio timer env s (t ++ [Call.unregister_chrdev]) ret

/-- Source: `irq_demo_init` from the label `fail_device_create` on. -/
def fail_device_create (gpio timer : Bool) (env : InitEnv) (s : State) (t : List Call)
    (ret : Int) : InitResult :=
  fail_class_create gpio timer env s (t ++ [Call.class_destroy]) ret

/-- Source: `irq_demo_init` from the label `fail_cdev_add` on. -/
def fail_cdev_add (gpio timer : Bool) (env : InitEnv) (s : State) (t : List Call)
    (ret : Int) : InitResult :=
  fail_device_create gpio timer env s (t ++ [Call.device_destroy]) ret

/-- Source: `irq_demo_init` from the label `fail_proc_create` on. -/
def fail_proc_create (gpio timer : Bool) (env : InitEnv) (s : State) (t : List Call)
    (ret : Int) : InitResult :=
  fail_cdev_add gpio timer env s (t ++ [Call.cdev_del]) ret

/-- Source: `irq_demo_init` from `register_chrdev` to the end. -/
def init_chrdev (gpio timer : Bool) (env : InitEnv) (s : State) (t : List Call) : InitResult :=
  let t1 := t ++ [Call.register_chrdev (decide (¬ env.register_chrdev < 0))]
  if env.register_chrdev < 0 then
    fail_register_chrdev gpio timer env s t1 env.register_chrdev
  else
    let t2 := t1 ++ [Call.class_create (decide (¬ IS_ERR env.class_create))]
    if IS_ERR env.class_create then
      fail_class_create gpio timer env s t2 (wrap32 (PTR_ERR env.class_create))
    else
      let t3 := t2 ++ [Call.device_create (decide (¬ IS_ERR env.device_create))]
      if IS_ERR env.device_create then
        fail_device_create gpio timer env s t3 (wrap32 (PTR_ERR env.device_create))
      else
        let t4 := t3 ++ [Call.cdev_init, Call.cdev_add (decide (¬ env.cdev_add < 0))]
        if env.cdev_add < 0 then fail_cdev_add gpio timer env s t4 env.cdev_add
        else
          let t5 := t4 ++ [Call.proc_create env.proc_create]
          if ¬ env.proc_create then fail_proc_create gpio timer env s t5 (-ENOMEM)
          else { state := s, trace := t5, ret := 0 }

/-- Source: the `if (using_gpio)` block of `irq_demo_init` and what follows. -/
def init_gpio (gpio timer : Bool) (env : InitEnv) (s : State) (t : List Call) : InitResult :=
  if gpio then
    let t1 := t ++ [Call.gpio_request (decide (env.gpio_request = 0))]
    if env.gpio_request ≠ 0 then fail_gpio timer env s t1 env.gpio_request
    else
      let t2 := t1 ++ [Call.gpio_direction_input (decide (env.gpio_direction_input = 0))]
      if env.gpio_direction_input ≠ 0 then
        fail_gpio_direction gpio timer env s t2 env.gpio_direction_input
      else
        let t3 := t2 ++ [Call.gpio_to_irq (decide (¬ env.gpio_to_irq < 0))]
        if env.gpio_to_irq < 0 then fail_gpio_direction gpio timer env s t3 env.gpio_to_irq
        else
          let t4 := t3 ++ [Call.request_irq (decide (env.request_irq = 0))]
          if env.request_irq ≠ 0 then fail_gpio_direction gpio timer env s t4 env.request_irq
          else init_chrdev gpio timer env s t4
  else init_chrdev gpio timer env s t

/-- Source: `irq_demo_init`, with the values of `using_gpio` and `using_timer`
as arguments. `spin_lock_init`, `mutex_init`, `INIT_WORK` and
`INIT_DELAYED_WORK` cannot fail and leave `State` as it is. -/
def irq_demo_init (gpio timer : Bool) (env : InitEnv) : InitResult :=
  let s := State.init
  let t := [Call.create_workqueue env.create_workqueue]
  if ¬ env.create_workqueue then { state := s, trace := t, ret := -ENOMEM }
  else
    let s1 := (queue_delayed_work s (env.msecs_to_jiffies 5000)).1
    let t1 := t ++ [Call.queue_delayed_work (env.msecs_to_jiffies 5000)]
    let s2 := if timer then hrtimer_start s1 (ns_to_ktime TIMER_PERIOD_NS) env.start_now else s1
    let t2 := if timer then t1 ++ [Call.hrtimer_init, Call.hrtimer_start] else t1
    init_gpio gpio timer env s2 t2

/-- Source: `irq_demo_exit`, with the values of `using_gpio` and `using_timer`
as arguments; `now` is the clock value a bottom half run by `flush_workqueue`
reads. -/
def irq_demo_exit (gpio timer : Bool) (s : State) (now : Int) : State × List Call :=
  let s1 := if timer then hrtimer_cancel s else s
  let t1 := if timer then [Call.hrtimer_cancel] else []
  let s2 := cancel_delayed_work_sync s1
  let s3 := flush_workqueue s2 now
  let t2 := t1 ++ [Call.cancel_delayed_work_sync, Call.flush_workqueue, Call.destroy_workqueue]
  let t3 := if gpio then t2 ++ [Call.free_irq, Call.gpio_free] else t2
  (s3, t3 ++ [Call.remove_proc_entry, Call.cdev_del, Call.device_destroy, Call.class_destroy,
    Call.unregister_chrdev])

/-- The variables of the module that stand for something to give back. -/
inductive Resource where
  | demo_wq
  | delayed_work
  | demo_timer
  | button_gpio
  | button_irq
  | major_number
  | irq_class
  | irq_device
  | irq_cdev
  | proc_file
deriving DecidableEq

/-- The resource a call hands to the module, if any. -/
def Call.acquires : Call → Option Resource
  | .create_workqueue true => some .demo_wq
  | .queue_delayed_work _ => some .delayed_work
  | .hrtimer_start => some .demo_timer
  | .gpio_request true => some .button_gpio
  | .request_irq true => some .button_irq
  | .register_chrdev true => some .major_number
  | .class_create true => some .irq_class
  | .device_create true => some .irq_device
  | .cdev_add true => some .irq_cdev
  | .proc_create true => some .proc_file
  | _ => none

/-- The resource a call gives back, if any. -/
def Call.releases : Call → Option Resource
  | .destroy_workqueue => some .demo_wq
  | .cancel_delayed_work_sync => some .delayed_work
  | .hrtimer_cancel => some .demo_timer
  | .gpio_free => some .button_gpio
  | .free_irq => some .button_irq
  | .unregister_chrdev => some .major_number
  | .class_destroy => some .irq_class
  | .device_destroy => some .irq_device
  | .cdev_del => some .irq_cdev
  | .remove_proc_entry => some .proc_file
  | _ => none

/-- The resources acquired along a trace, in order. -/
def acquired (t : List Call) : List Resource := t.filterMap Call.acquires

/-- The resources released along a trace, in order. -/
def released (t : List Call) : List Resource := t.filterMap Call.releases

/-- Every step of `irq_demo_init` that is taken succeeds. -/
def all_steps_ok (gpio : Bool) (env : InitEnv) : Prop :=
  env.create_workqueue = true ∧
  (gpio = true → env.gpio_request = 0 ∧ env.gpio_direction_input = 0 ∧
    0 ≤ env.gpio_to_irq ∧ env.request_irq = 0) ∧
  0 ≤ env.register_chrdev ∧ ¬ IS_ERR env.class_create ∧ ¬ IS_ERR env.device_create ∧
  0 ≤ env.cdev_add ∧ env.proc_create = true

instance (gpio : Bool) (env : InitEnv) : Decidable (all_steps_ok gpio env) := by
  unfold all_steps_ok; exact inferInstance

/-- The kernel's contract for the calls whose result `irq_demo_init` only
tests against zero: they return 0 or a negative errno. -/
def api_contract (env : InitEnv) : Prop :=
  env.gpio_request ≤ 0 ∧ env.gpio_direction_input ≤ 0 ∧ env.request_irq ≤ 0

instance (env : InitEnv) : Decidable (api_contract env) := by
  unfold api_contract; exact inferInstance

/-- The four teardown calls occur once each and in the order timer,
periodic task, flush, destroy. -/
def teardown_ordered (t : List Call) : Prop :=
  t.count Call.hrtimer_cancel = 1 ∧ t.count Call.cancel_delayed_work_sync = 1 ∧
  t.count Call.flush_workqueue = 1 ∧ t.count Call.destroy_workqueue = 1 ∧
  t.indexOf Call.hrtimer_cancel < t.indexOf Call.cancel_delayed_work_sync ∧
  t.indexOf Call.cancel_delayed_work_sync < t.indexOf Call.flush_workqueue ∧
  t.indexOf Call.flush_workqueue < t.indexOf Call.destroy_workqueue

instance (t : List Call) : Decidable (teardown_ordered t) := by
  unfold teardown_ordered; exact inferInstance

/-- An answer sheet on which every call succeeds. -/
def InitEnv.all_ok : InitEnv :=
  { create_workqueue := true, msecs_to_jiffies := fun m => (m + 3) / 4, start_now := 2000000000,
    gpio_request := 0, gpio_direction_input := 0, gpio_to_irq := 60, request_irq := 0,
    register_chrdev := 240, class_create := 18446612682070000000,
    device_create := 18446612682070001000, cdev_add := 0, proc_create := true,
    flush_now := 2100000000 }

/-- An answer sheet on which `class_create` fails with `-ENOMEM`. -/
def InitEnv.class_fails : InitEnv := { InitEnv.all_ok with class_create := -12 }

/-- An answer sheet on which `request_irq` fails with `-EBUSY`. -/
def InitEnv.irq_fails : InitEnv := { InitEnv.all_ok with request_irq := -16 }

/-! ## Runs of the module -/

/-- What can happen to a loaded module, one atomic step each. -/
inductive Op where
  /-- The hrtimer core runs an expiry of `demo_timer`. -/
  | timer_fire (resolution now fwd_now : Int)
  /-- A `write` on the character device. -/
  | write (now : Int) (stack user_buffer : List Char) (count : Nat)
  /-- The worker takes `regular_work`. -/
  | drain (now : Int)
  /-- The worker takes `delayed_work`. -/
  | periodic (msecs_to_jiffies : Nat → Nat)
  /-- A `read` on the character device. -/
  | read (room count : Nat) (offset : Int)
  /-- A read of the procfs report. -/
  | report

/-- The state after one operation. A `write` or `read` that would leave its
array (result `none`) is taken to change nothing. -/
def step (s : State) : Op → State
  | .timer_fire resolution now fwd_now => run_hrtimer resolution s now fwd_now
  | .write now stack user_buffer count =>
    ((irq_demo_write s now stack user_buffer count).map fun r => r.1).getD s
  | .drain now => process_one_work s now
  | .periodic msecs_to_jiffies => process_delayed_work msecs_to_jiffies s
  | .read room count offset =>
    ((irq_demo_read s room count offset).map fun r => r.state).getD s
  | .report => s

/-- The states a sequence of operations passes through, the first one
included. -/
def trajectory : State → List Op → List State
  | s, [] => [s]
  | s, op :: ops => s :: trajectory (step s op) ops

/-- The state a sequence of operations ends in. -/
def run (s : State) (ops : List Op) : State := ops.foldl step s

/-- A `write` that starts with the `reset` command. -/
def Op.is_reset : Op → Prop
  | .write _ _ user_buffer count => "reset".toList <+: user_buffer.take count
  | _ => False

/-- The local array of a `write` has its declared size. -/
def Op.well_formed : Op → Prop
  | .write _ stack _ _ => stack.length = 16
  | _ => True

/-- No counter is smaller in `b` than in `a`. -/
def counters_le (a b : State) : Prop :=
  a.irq_count ≤ b.irq_count ∧ a.bottom_half_count ≤ b.bottom_half_count ∧
  a.delayed_work_count ≤ b.delayed_work_count

/-- The two ends of the interrupt pipeline: the top half runs, or the worker
takes the bottom half. -/
inductive Ev where
  /-- `button_irq_handler` runs (from the timer or from a `trigger` write). -/
  | on_event (now : Int)
  /-- The worker takes `regular_work`. -/
  | drain (now : Int)
deriving DecidableEq

/-- The state after one pipeline event. -/
def Ev.apply (s : State) : Ev → State
  | .on_event now => button_irq_handler s now
  | .drain now => process_one_work s now

/-- The state after a schedule of pipeline events. -/
def run_events (s : State) (evs : List Ev) : State := evs.foldl Ev.apply s

/-- Number of top-half runs in a schedule. -/
def triggers (evs : List Ev) : Nat :=
  (evs.filter fun e => match e with | .on_event _ => true | .drain _ => false).length

/-- 1 for a pending work item, 0 for an idle one. -/
def pending_count (s : State) : Nat := if s.regular_work_pending then 1 else 0

/-- One well-separated round: the top half at `p.1`, then its bottom half at
`p.2`. -/
def round (s : State) (p : Int × Int) : State :=
  process_one_work (button_irq_handler s p.1) p.2

/-- The states after each round of a sequence of well-separated rounds. -/
def rounds : State → List (Int × Int) → List State
  | _, [] => []
  | s, p :: ps => round s p :: rounds (round s p) ps

/-- An operation that runs the top half when it goes through: an expiry of
the timer or a `write` that starts with the `trigger` command. -/
def Op.fires : Op → Bool
  | .timer_fire _ _ _ => true
  | .write _ _ user_buffer count => decide ("trigger".toList <+: user_buffer.take count)
  | _ => false

/-- Number of operations of a sequence that can run the top half. -/
def on_events (ops : List Op) : Nat := ops.countP Op.fires

/-- A `write` of the seven bytes `trigger`. -/
def trigger_write (now : Int) : Op :=
  Op.write now (List.replicate 16 'x') "trigger".toList 7

/-- A trigger at `t1`, the completion of its drain at `t2`, and a second
trigger at `t3` whose drain has not run yet. -/
def trigger_drain_trigger (t1 t2 t3 : Int) : List Op :=
  [trigger_write t1, Op.drain t2, trigger_write t3]

/-- The operation increments no counter that is at `INT_MAX`: a counter that
holds `INT_MAX` before the operation holds it afterwards. -/
def no_increment_at_max (s : State) (op : Op) : Prop :=
  (s.irq_count = INT_MAX → (step s op).irq_count = INT_MAX) ∧
  (s.bottom_half_count = INT_MAX → (step s op).bottom_half_count = INT_MAX) ∧
  (s.delayed_work_count = INT_MAX → (step s op).delayed_work_count = INT_MAX)

instance (s : State) (op : Op) : Decidable (no_increment_at_max s op) := by
  unfold no_increment_at_max; exact inferInstance

end IrqDemo

/-! # Character device over a memory buffer (`tutorial-02/simple_char.c`)

The entry points `simple_read`, `simple_write` and `simple_llseek`. The file
position `*offset` / `file->f_pos` is passed in and returned; `size_t` is 64
bits wide. An access outside `device_buffer` yields `none`.
-/

namespace SimpleChar

open IrqDemo (wrap32 wrap64 copy_to_user copy_from_user NUL)

/-- Source: `#define BUFFER_SIZE 1024`. -/
def BUFFER_SIZE : Int := 1024

/-- Errno value behind `-ENOSPC`. -/
def ENOSPC : Int := 28

/-- Errno value behind `-EINVAL`. -/
def EINVAL : Int := 22

/-- Kernel `SEEK_SET`. -/
def SEEK_SET : Int := 0

/-- Kernel `SEEK_CUR`. -/
def SEEK_CUR : Int := 1

/-- Kernel `SEEK_END`. -/
def SEEK_END : Int := 2

/-- The cast `(size_t)x` of a signed value. -/
def size_t (x : Int) : Nat := (x % 18446744073709551616).toNat

/-- Source: `static char device_buffer[BUFFER_SIZE]` after the `memset` of
`simple_char_init`. -/
def device_buffer_init : List Char := List.replicate 1024 NUL

/-- What one `read` call leaves behind. -/
structure ReadResult where
  /-- The bytes stored at the user pointer. -/
  data : List Char
  /-- The file position `*offset` after the call. -/
  offset : Int
  /-- The return value. -/
  ret : Int
deriving DecidableEq

/-- What one `write` call leaves behind. -/
structure WriteResult where
  /-- The array `device_buffer` after the call. -/
  device_buffer : List Char
  /-- The file position `*offset` after the call. -/
  offset : Int
  /-- The return value. -/
  ret : Int
deriving DecidableEq

/-- What one `llseek` call leaves behind. -/
structure SeekResult where
  /-- The file position `file->f_pos` after the call. -/
  f_pos : Int
  /-- The return value. -/
  ret : Int
deriving DecidableEq

/-- Source: the local `bytes_to_read` of `simple_read` and `bytes_to_write` of
`simple_write`: `min((size_t)(BUFFER_SIZE - *offset), count)` stored in an
`int`. -/
def bytes_to_copy (count : Nat) (offset : Int) : Int :=
  wrap32 ((min (size_t (wrap64 (BUFFER_SIZE - offset))) count : Nat) : Int)

/-- Source: `simple_read`. `room` is the number of writable bytes at
`user_buffer`. The result is `none` when the source range
`device_buffer + *offset .. + bytes_to_read` leaves `device_buffer`. -/
def simple_read (device_buffer : List Char) (room count : Nat) (offset : Int) :
    Option ReadResult :=
  let bytes_to_read : Int := bytes_to_copy count offset
  if bytes_to_read ≤ 0 then some { data := [], offset := offset, ret := 0 }
  else if offset < 0 then none
  else
    (copy_to_user room (device_buffer.drop offset.toNat) bytes_to_read.toNat).bind fun copied =>
      let bytes_not_copied : Int := wrap32 (copied.2 : Int)
      some { data := copied.1,
             offset := wrap64 (offset + wrap32 (bytes_to_read - bytes_not_copied)),
             ret := wrap32 (bytes_to_read - bytes_not_copied) }

/-- Source: `simple_write`. `user_buffer` holds the bytes readable at the user
pointer. The result is `none` when the destination range
`device_buffer + *offset .. + bytes_to_write` leaves `device_buffer`. -/
def simple_write (device_buffer user_buffer : List Char) (count : Nat) (offset : Int) :
    Option WriteResult :=
  let bytes_to_write : Int := bytes_to_copy count offset
  if bytes_to_write ≤ 0 then
    some { device_buffer := device_buffer, offset := offset, ret := -ENOSPC }
  else if offset < 0 then none
  else
    (copy_from_user (device_buffer.drop offset.toNat) user_buffer bytes_to_write.toNat).bind
      fun copied =>
        let bytes_not_copied : Int := wrap32 (copied.2 : Int)
        some { device_buffer := device_buffer.take offset.toNat ++ copied.1,
               offset := wrap64 (offset + wrap32 (bytes_to_write - bytes_not_copied)),
               ret := wrap32 (bytes_to_write - bytes_not_copied) }

/-- Source: `simple_llseek`, from the range check on `new_pos` to the end. -/
def seek_to (f_pos new_pos : Int) : SeekResult :=
  if new_pos < 0 ∨ new_pos > BUFFER_SIZE then { f_pos := f_pos, ret := -EINVAL }
  else { f_pos := new_pos, ret := new_pos }

/-- Source: `simple_llseek`. `f_pos` is `file->f_pos` before the call. -/
def simple_llseek (f_pos offset whence : Int) : SeekResult :=
  if whence = SEEK_SET then seek_to f_pos offset
  else if whence = SEEK_CUR then seek_to f_pos (wrap64 (f_pos + offset))
  else if whence = SEEK_END then seek_to f_pos (wrap64 (BUFFER_SIZE + offset))
  else { f_pos := f_pos, ret := -EINVAL }

/-- The position a seek asks for, as an unbounded integer; `none` for a
`whence` that `simple_llseek` does not know. -/
def seek_target (f_pos offset whence : Int) : Option Int :=
  if whence = SEEK_SET then some offset
  else if whence = SEEK_CUR then some (f_pos + offset)
  else if whence = SEEK_END then some (1024 + offset)
  else none

/-- A value that fits a `loff_t`. -/
def loff_ok (v : Int) : Prop := -9223372036854775808 ≤ v ∧ v < 9223372036854775808

instance (v : Int) : Decidable (loff_ok v) := by
  unfold loff_ok; exact inferInstance

end SimpleChar

/-! # Synchronisation primitives (`tutorial-04/sync_demo.c`)

The loop body of the background thread and the `write` entry point. Each is
one atomic step; the locks have no effect on the state and are left out.
Plain `int` arithmetic wraps, as the kernel is built with
`-fno-strict-overflow`.
-/

namespace SyncDemo

open IrqDemo (wrap32 atomic_inc copy_from_user store strncmp cstr NUL EFAULT)

/-- Source: `#define NUM_COUNTERS 4`. -/
def NUM_COUNTERS : Nat := 4

/-- The file-scope variables of `sync_demo.c` that the steps touch. -/
structure State where
  /-- Source: `static atomic_t atomic_counter`. -/
  atomic_counter : Int
  /-- Source: `static int counter_values[NUM_COUNTERS]`. -/
  counter_values : List Int
deriving DecidableEq

/-- The state after the static initialisers and the `memset` of
`sync_demo_init`. -/
def State.init : State :=
  { atomic_counter := 0, counter_values := List.replicate NUM_COUNTERS 0 }

/-- C `a[i]++` on an `int` array. -/
def post_inc (a : List Int) (i : Nat) : List Int := a.set i (wrap32 (a.getD i 0 + 1))

/-- Source: one pass through the body of the `while` loop of `demo_thread_fn`. -/
def loop_body (s : State) : State :=
  let s1 := { s with atomic_counter := atomic_inc s.atomic_counter }
  let s2 := { s1 with counter_values := post_inc s1.counter_values 1 }
  let s3 := { s2 with counter_values := post_inc s2.counter_values 2 }
  let s4 := { s3 with counter_values := post_inc s3.counter_values 3 }
  { s4 with counter_values := s4.counter_values.set 0 s4.atomic_counter }

/-- Source: `demo_thread_fn`, for a thread that is told to stop after `passes`
passes through its loop. -/
def demo_thread_fn : Nat → State → State
  | 0, s => s
  | passes + 1, s => demo_thread_fn passes (loop_body s)

/-- Source: the `reset` branch of `sync_demo_write`. -/
def reset_counters (s : State) : State :=
  let s1 := { s with atomic_counter := 0 }
  let s2 := { s1 with counter_values := s1.counter_values.set 1 0 }
  let s3 := { s2 with counter_values := s2.counter_values.set 2 0 }
  let s4 := { s3 with counter_values := s3.counter_values.set 3 0 }
  { s4 with counter_values := s4.counter_values.set 0 0 }

/-- Source: `sync_demo_write`. `stack` is the uninitialised content of
`char buffer[16]`, `user_buffer` the bytes readable at the user pointer. The
result is the new state and the return value, or `none` if a store left the
local array. -/
def sync_demo_write (s : State) (stack user_buffer : List Char) (count : Nat) :
    Option (State × Int) :=
  let bytes_to_copy := min count (16 - 1) -- min(count, sizeof(buffer) - 1)
  match copy_from_user stack user_buffer bytes_to_copy with
  | none => none
  | some (buffer, not_copied) =>
    if not_copied ≠ 0 then some (s, -EFAULT)
    else
      match store buffer bytes_to_copy NUL with
      | none => none
      | some buffer =>
        if strncmp buffer (cstr "reset") 5 = 0 then
          some (reset_counters s, (bytes_to_copy : Int))
        else some (s, (bytes_to_copy : Int))

/-- What can happen to the counters of a loaded module, one atomic step each. -/
inductive Step where
  /-- A complete pass of the background thread through its loop body. -/
  | iteration
  /-- A `write` on the character device. -/
  | write (stack user_buffer : List Char) (count : Nat)
deriving DecidableEq

/-- The state after one step. A `write` that would leave its array (result
`none`) is taken to change nothing. -/
def step (s : State) : Step → State
  | .iteration => loop_body s
  | .write stack user_buffer count =>
    ((sync_demo_write s stack user_buffer count).map fun r => r.1).getD s

/-- The state a sequence of steps ends in. -/
def run (s : State) (steps : List Step) : State := steps.foldl step s

/-- The local array of a `write` has its declared size. -/
def Step.well_formed : Step → Prop
  | .write stack _ _ => stack.length = 16
  | .iteration => True

/-- The five counters hold the same value: `counter_values` is the array of
four copies of `atomic_counter`. -/
def counters_agree (s : State) : Prop :=
  s.counter_values =
    [s.atomic_counter, s.atomic_counter, s.atomic_counter, s.atomic_counter]

instance (s : State) : Decidable (counters_agree s) := by
  unfold counters_agree; exact inferInstance

end SyncDemo

namespace IrqDemo

/-! ## Facts about the helpers -/

theorem char_diff_eq_zero_iff (c1 c2 : Char) :
    ((c1.toNat : Int) - (c2.toNat : Int) = 0) ↔ c1 = c2 := by
  constructor
  · intro h
    have h1 : c1.toNat = c2.toNat := by omega
    have h2 := congrArg Char.ofNat h1
    simpa [Char.ofNat_toNat] using h2
  · intro h
    subst h
    omega

/-- On a pattern without NUL, `strncmp` over the pattern's length is zero
exactly when the compared string starts with the pattern. -/
theorem strncmp_eq_zero_iff (p : List Char) (hp : NUL ∉ p) (b : List Char) :
    strncmp b (p ++ [NUL]) p.length = 0 ↔ b.take p.length = p := by
  induction p generalizing b with
  | nil => simp [strncmp]
  | cons c p ih =>
    have hc : c ≠ NUL := fun h => hp (by simp [h])
    have hp2 : NUL ∉ p := fun h => hp (by simp [h])
    cases b with
    | nil =>
      simp [strncmp, char_diff_eq_zero_iff, Ne.symm hc]
    | cons x xs =>
      by_cases hx : x = c
      · subst hx
        simp [strncmp, hc, ih hp2 xs]
      · simp [strncmp, hx, char_diff_eq_zero_iff]

theorem copy_from_user_ok (stack user_buffer : List Char) (k : Nat)
    (hk : k ≤ stack.length) (hcopy : k ≤ user_buffer.length) :
    copy_from_user stack user_buffer k = some (user_buffer.take k ++ stack.drop k, 0) := by
  simp [copy_from_user, hk, Nat.min_eq_left hcopy]

theorem copy_from_user_fault (stack user_buffer : List Char) (k : Nat)
    (hk : k ≤ stack.length) (hfault : user_buffer.length < k) :
    ∃ b n, copy_from_user stack user_buffer k = some (b, n) ∧ n ≠ 0 := by
  refine ⟨user_buffer.take k ++ List.replicate (k - (user_buffer.take k).length) NUL
    ++ stack.drop k, k - (user_buffer.take k).length, ?_, ?_⟩
  · simp [copy_from_user, hk]
  · simp only [List.length_take]
    omega

theorem set_at_append_length (A B : List Char) (x c : Char) :
    (A ++ x :: B).set A.length c = A ++ c :: B := by
  induction A with
  | nil => rfl
  | cons a A ih => simp [ih]

theorem mem_take_past_append (A B : List Char) (c : Char) (n : Nat) (hn : A.length < n) :
    c ∈ (A ++ c :: B).take n := by
  obtain ⟨m, hm⟩ : ∃ m, n - A.length = m + 1 := ⟨n - A.length - 1, by omega⟩
  rw [List.take_append_eq_append_take, hm, List.take_succ_cons]
  simp

theorem cmd_buffer_eq (stack user_buffer : List Char) (k : Nat)
    (hk : k < stack.length) (hcopy : k ≤ user_buffer.length) :
    cmd_buffer stack user_buffer k = user_buffer.take k ++ NUL :: stack.drop (k + 1) := by
  unfold cmd_buffer
  have hA : (user_buffer.take k).length = k := by
    simp only [List.length_take]; omega
  rw [List.drop_eq_getElem_cons hk]
  have h := set_at_append_length (user_buffer.take k) (stack.drop (k + 1)) stack[k] NUL
  rw [hA] at h
  exact h

theorem store_terminator (stack user_buffer : List Char) (k : Nat)
    (hk : k < stack.length) (hcopy : k ≤ user_buffer.length) :
    store (user_buffer.take k ++ stack.drop k) k NUL = some (cmd_buffer stack user_buffer k) := by
  have hlen : k < (user_buffer.take k ++ stack.drop k).length := by
    simp only [List.length_append, List.length_take, List.length_drop]
    omega
  unfold store cmd_buffer
  rw [if_pos hlen]

/-- The terminated local array starts with a NUL-free pattern exactly when
the write of `count` bytes does. -/
theorem cmd_buffer_take_iff (stack user_buffer p : List Char) (count : Nat)
    (hp : NUL ∉ p) (hplen : p.length ≤ 15) (hstack : stack.length = 16)
    (hcopy : min count 15 ≤ user_buffer.length) :
    (cmd_buffer stack user_buffer (min count 15)).take p.length = p ↔
      p <+: user_buffer.take count := by
  have hk : min count 15 < stack.length := by omega
  have hA : (user_buffer.take (min count 15)).length = min count 15 := by
    simp only [List.length_take]; omega
  rw [List.prefix_iff_eq_take, cmd_buffer_eq stack user_buffer _ hk hcopy]
  by_cases hn : p.length ≤ min count 15
  · rw [List.take_append_of_le_length (by omega), List.take_take, List.take_take]
    have e1 : min p.length (min count 15) = p.length := by omega
    have e2 : min p.length count = p.length := by omega
    rw [e1, e2]
    exact eq_comm
  · constructor
    · intro h
      exfalso
      apply hp
      rw [← h]
      exact mem_take_past_append _ _ _ _ (by omega)
    · intro h
      exfalso
      have hl := congrArg List.length h
      simp only [List.length_take] at hl
      omega

/-- A write cannot start with both commands. -/
theorem reset_excludes_trigger (l : List Char) (h : "reset".toList <+: l) :
    ¬ "trigger".toList <+: l := by
  intro ht
  have h1 := List.prefix_iff_eq_take.mp ht
  have h2 := List.prefix_iff_eq_take.mp h
  cases l with
  | nil => exact absurd h2 (by decide)
  | cons c cs =>
    have h5 : some 't' = some c := congrArg List.head? h1
    have h6 : some 'r' = some c := congrArg List.head? h2
    rw [← h5] at h6
    exact absurd h6 (by decide)

/-- Whether a write starts with a command of at most 15 bytes is decided by
its first `min count 15` bytes. -/
theorem prefix_take_cap (p l : List Char) (c : Nat) (hp : p.length ≤ 15) :
    p <+: l.take c ↔ p <+: l.take (min c 15) := by
  rw [List.prefix_iff_eq_take, List.prefix_iff_eq_take, List.take_take, List.take_take]
  have e : min p.length (min c 15) = min p.length c := by omega
  rw [e]

/-- The comparison `strncmp(buffer, cmd, n) == 0` made by `irq_demo_write`
succeeds exactly when the write starts with `cmd`. -/
theorem strncmp_cmd_buffer (cmd : String) (n : Nat) (stack user_buffer : List Char)
    (count : Nat) (hn : cmd.toList.length = n) (hnul : NUL ∉ cmd.toList) (hlen : n ≤ 15)
    (hstack : stack.length = 16) (hcopy : min count 15 ≤ user_buffer.length) :
    strncmp (cmd_buffer stack user_buffer (min count 15)) (cstr cmd) n = 0 ↔
      cmd.toList <+: user_buffer.take count := by
  subst hn
  unfold cstr
  rw [strncmp_eq_zero_iff _ hnul]
  exact cmd_buffer_take_iff stack user_buffer cmd.toList count hnul hlen hstack hcopy

/-- Closed form of `irq_demo_write` when the bytes it copies are readable. -/
theorem irq_demo_write_ok (s : State) (now : Int) (stack user_buffer : List Char)
    (count : Nat) (hstack : stack.length = 16) (hcopy : min count 15 ≤ user_buffer.length) :
    irq_demo_write s now stack user_buffer count =
      some (if "trigger".toList <+: user_buffer.take count then button_irq_handler s now
            else if "reset".toList <+: user_buffer.take count then counters_cleared s
            else s, ((min count 15 : Nat) : Int)) := by
  have hk : min count 15 < stack.length := by omega
  have ht := strncmp_cmd_buffer "trigger" 7 stack user_buffer count (by decide) (by decide)
    (by decide) hstack hcopy
  have hr := strncmp_cmd_buffer "reset" 5 stack user_buffer count (by decide) (by decide)
    (by decide) hstack hcopy
  unfold irq_demo_write counters_cleared
  simp only [Nat.add_one_sub_one, copy_from_user_ok stack user_buffer _ (Nat.le_of_lt hk) hcopy,
    store_terminator stack user_buffer _ hk hcopy, ne_eq, not_true_eq_false, if_false]
  by_cases h1 : "trigger".toList <+: user_buffer.take count
  · rw [if_pos (ht.mpr h1), if_pos h1]
  · rw [if_neg (fun h => h1 (ht.mp h)), if_neg h1]
    by_cases h2 : "reset".toList <+: user_buffer.take count
    · rw [if_pos (hr.mpr h2), if_pos h2]
    · rw [if_neg (fun h => h2 (hr.mp h)), if_neg h2]

/-- Closed form of `irq_demo_write` when the copy from the caller faults. -/
theorem irq_demo_write_fault (s : State) (now : Int) (stack user_buffer : List Char)
    (count : Nat) (hstack : stack.length = 16) (hfault : user_buffer.length < min count 15) :
    irq_demo_write s now stack user_buffer count = some (s, -EFAULT) := by
  have hk : min count 15 ≤ stack.length := by omega
  obtain ⟨b, n, hb, hn⟩ := copy_from_user_fault stack user_buffer _ hk hfault
  unfold irq_demo_write
  simp only [Nat.add_one_sub_one, hb, ne_eq, hn, not_false_eq_true, if_true]

/-! ## Facts about the handlers -/

theorem wrap32_of_int (v : Int) (hlo : -2147483648 ≤ v) (hhi : v < 2147483648) :
    wrap32 v = v := by
  unfold wrap32
  omega

theorem wrap64_of_s64 (v : Int) (hlo : -9223372036854775808 ≤ v)
    (hhi : v < 9223372036854775808) : wrap64 v = v := by
  unfold wrap64
  omega

theorem button_irq_handler_fields (s : State) (now : Int) :
    (button_irq_handler s now).irq_count = wrap32 (s.irq_count + 1) ∧
    (button_irq_handler s now).last_irq_time = now ∧
    (button_irq_handler s now).regular_work_pending = true ∧
    (button_irq_handler s now).bottom_half_count = s.bottom_half_count ∧
    (button_irq_handler s now).delayed_work_count = s.delayed_work_count ∧
    (button_irq_handler s now).last_bh_time = s.last_bh_time ∧
    (button_irq_handler s now).device_buffer = s.device_buffer := by
  unfold button_irq_handler queue_work atomic_inc
  cases h : s.regular_work_pending <;> simp [h]

/-- The latency figures of the report: one figure when both timestamps are
non-zero, none otherwise. -/
theorem latency_figures_show (s : State) :
    latency_figures (irq_proc_show s []).1 =
      if s.last_irq_time ≠ 0 ∧ s.last_bh_time ≠ 0 then
        [ktime_sub s.last_bh_time s.last_irq_time]
      else [] := by
  unfold irq_proc_show
  by_cases h1 : s.last_irq_time = 0 <;> by_cases h2 : s.last_bh_time = 0 <;>
    simp [h1, h2, latency_figures, using_gpio, using_timer, ktime_to_ns]

/-! ## Facts about the read path -/

theorem snapshot_eq (s : State) :
    snapshot s = "IRQ count: ".toList ++ fmt_d s.irq_count ++ "\nBottom-half count: ".toList ++
      fmt_d s.bottom_half_count ++ "\nDelayed work count: ".toList ++
      fmt_d s.delayed_work_count ++ "\n".toList := by
  simp [snapshot, vformat]

theorem fmt_d_length_le (v : Int) (hv : int_ok v) : (fmt_d v).length ≤ 11 := by
  have hn : v.natAbs < 10 ^ 10 := by
    unfold int_ok at hv
    omega
  have hd : (Nat.toDigits 10 v.natAbs).length ≤ 10 :=
    Nat.toDigitsCore_length 10 (by decide) _ _ 10 hn (by decide)
  unfold fmt_d
  split
  · simp only [List.length_cons]
    omega
  · omega

theorem snapshot_length_le (s : State) (h1 : int_ok s.irq_count)
    (h2 : int_ok s.bottom_half_count) (h3 : int_ok s.delayed_work_count) :
    (snapshot s).length ≤ 86 := by
  have a := fmt_d_length_le _ h1
  have b := fmt_d_length_le _ h2
  have c := fmt_d_length_le _ h3
  rw [snapshot_eq]
  simp only [List.length_append]
  have e1 : "IRQ count: ".toList.length = 11 := by decide
  have e2 : "\nBottom-half count: ".toList.length = 20 := by decide
  have e3 : "\nDelayed work count: ".toList.length = 21 := by decide
  have e4 : "\n".toList.length = 1 := by decide
  omega

theorem snprintf_fits (buf : List Char) (size : Nat) (fmt : String) (args : List Int)
    (hfit : (vformat fmt.toList args).length < size) :
    snprintf buf size fmt args =
      (vformat fmt.toList args ++ NUL :: buf.drop ((vformat fmt.toList args).length + 1),
        ((vformat fmt.toList args).length : Int)) := by
  unfold snprintf
  have hs : size ≠ 0 := by omega
  have htake : (vformat fmt.toList args).take (size - 1) = vformat fmt.toList args :=
    List.take_of_length_le (by omega)
  simp only [hs, if_false, htake]

/-- Closed form of `irq_demo_read` at a non-negative file position. -/
theorem irq_demo_read_ok (s : State) (room count : Nat) (offset : Int)
    (h1 : int_ok s.irq_count) (h2 : int_ok s.bottom_half_count)
    (h3 : int_ok s.delayed_work_count) (h0 : 0 ≤ offset) :
    irq_demo_read s room count offset =
      some { state := with_snapshot s,
             data := ((snapshot s).drop offset.toNat).take (read_amount s room count offset),
             offset := offset + (read_amount s room count offset : Nat),
             ret := (read_amount s room count offset : Nat) } := by
  have hL := snapshot_length_le s h1 h2 h3
  have hfit : (vformat "IRQ count: %d\nBottom-half count: %d\nDelayed work count: %d\n".toList
      [s.irq_count, s.bottom_half_count, s.delayed_work_count]).length < BUFFER_SIZE := by
    unfold snapshot at hL
    unfold BUFFER_SIZE
    omega
  have hsn := snprintf_fits s.device_buffer BUFFER_SIZE
      "IRQ count: %d\nBottom-half count: %d\nDelayed work count: %d\n"
      [s.irq_count, s.bottom_half_count, s.delayed_work_count] hfit
  have hT : vformat "IRQ count: %d\nBottom-half count: %d\nDelayed work count: %d\n".toList
      [s.irq_count, s.bottom_half_count, s.delayed_work_count] = snapshot s := rfl
  rw [hT] at hsn
  unfold irq_demo_read
  rw [hsn]
  unfold read_amount with_snapshot
  generalize snapshot s = T at *
  clear hfit hsn hT
  simp only []
  by_cases hge : offset ≥ (T.length : Int)
  · rw [if_pos hge]
    have hz : T.length - offset.toNat = 0 := by omega
    simp only [hz, Nat.zero_min, List.take_zero, Nat.cast_zero, add_zero]
  · have hneg : ¬ offset < 0 := by omega
    rw [if_neg hge, if_neg hneg]
    have hk : ((T.length : Int) - offset).toNat = T.length - offset.toNat := by omega
    rw [hk]
    generalize hK : min (T.length - offset.toNat) count = K
    have hKle : K ≤ T.length - offset.toNat := by omega
    have hw : wrap32 (K : Int) = (K : Int) := wrap32_of_int _ (by omega) (by omega)
    rw [hw, Int.toNat_ofNat]
    have hsrc : K ≤ ((T ++ NUL :: List.drop (T.length + 1) s.device_buffer).drop
        offset.toNat).length := by
      simp only [List.length_drop, List.length_append, List.length_cons]
      omega
    unfold copy_to_user
    rw [if_pos hsrc]
    simp only [Option.some_bind]
    have hw2 : wrap32 ((K - min K room : Nat) : Int) = ((K - min K room : Nat) : Int) :=
      wrap32_of_int _ (by omega) (by omega)
    rw [hw2]
    have hret : wrap32 ((K : Int) - ((K - min K room : Nat) : Int))
        = ((min K room : Nat) : Int) := by
      rw [wrap32_of_int _ (by omega) (by omega)]
      omega
    rw [hret]
    have hoff : wrap64 (offset + ((min K room : Nat) : Int)) = offset + ((min K room : Nat) : Int) :=
      wrap64_of_s64 _ (by omega) (by omega)
    rw [hoff]
    have hdata : List.take room (List.take K (List.drop offset.toNat
        (T ++ NUL :: List.drop (T.length + 1) s.device_buffer))) =
        List.take (min K room) (List.drop offset.toNat T) := by
      rw [List.take_take, List.drop_append_of_le_length (by omega),
        List.take_append_of_le_length (by
          simp only [List.length_drop]
          omega), Nat.min_comm]
    rw [hdata]

/-- Successive reads from file position `offset` deliver the rest of the
snapshot, provided there is fuel for one call per remaining byte. -/
theorem read_all_from (fuel : Nat) (s : State) (room count : Nat) (offset : Int)
    (h1 : int_ok s.irq_count) (h2 : int_ok s.bottom_half_count)
    (h3 : int_ok s.delayed_work_count) (h0 : 0 ≤ offset) (hcount : 1 ≤ count)
    (hroom : count ≤ room) (hfuel : (snapshot s).length - offset.toNat < fuel) :
    read_all fuel s room count offset = (snapshot s).drop offset.toNat := by
  induction fuel generalizing s offset with
  | zero => omega
  | succ fuel ih =>
    unfold read_all
    rw [irq_demo_read_ok s room count offset h1 h2 h3 h0]
    simp only []
    by_cases hend : (snapshot s).length ≤ offset.toNat
    · have hz : read_amount s room count offset = 0 := by
        unfold read_amount
        omega
      rw [hz]
      simp only [Nat.cast_zero, if_true]
      exact (List.drop_eq_nil_of_le hend).symm
    · have hpos : 0 < read_amount s room count offset := by
        unfold read_amount
        omega
      have hle : read_amount s room count offset ≤ (snapshot s).length - offset.toNat := by
        unfold read_amount
        omega
      have hne : ¬ ((read_amount s room count offset : Nat) : Int) = 0 := by omega
      rw [if_neg hne]
      have hsnap : snapshot (with_snapshot s) = snapshot s := rfl
      have hnext := ih (with_snapshot s)
        (offset + (read_amount s room count offset : Nat)) h1 h2 h3 (by omega)
        (by rw [hsnap]; omega)
      rw [hnext, hsnap]
      have htn : (offset + (read_amount s room count offset : Nat)).toNat
          = offset.toNat + read_amount s room count offset := by omega
      rw [htn, ← List.drop_drop]
      exact List.take_append_drop _ _

/-- The three counter lines are part of every report. -/
theorem irq_proc_show_counters (s : State) :
    SeqItem.printf "Top-half (IRQ) count: %d\n" [s.irq_count] ∈ (irq_proc_show s []).1 ∧
    SeqItem.printf "Bottom-half (work) count: %d\n" [s.bottom_half_count]
      ∈ (irq_proc_show s []).1 ∧
    SeqItem.printf "Delayed work count: %d\n" [s.delayed_work_count]
      ∈ (irq_proc_show s []).1 := by
  unfold irq_proc_show
  by_cases h1 : s.last_irq_time = 0 <;> by_cases h2 : s.last_bh_time = 0 <;>
    simp [h1, h2, using_gpio, using_timer]

theorem ktime_sub_of_ok (a b : Int) (ha : ktime_ok a) (hb : ktime_ok b) :
    ktime_sub a b = a - b := by
  unfold ktime_ok at ha hb
  unfold ktime_sub
  exact wrap64_of_s64 _ (by omega) (by omega)

theorem process_after_handler_fields (s : State) (t1 t2 : Int) :
    (process_one_work (button_irq_handler s t1) t2).last_irq_time = t1 ∧
    (process_one_work (button_irq_handler s t1) t2).last_bh_time = t2 ∧
    (process_one_work (button_irq_handler s t1) t2).regular_work_pending = false ∧
    (process_one_work (button_irq_handler s t1) t2).irq_count = wrap32 (s.irq_count + 1) ∧
    (process_one_work (button_irq_handler s t1) t2).bottom_half_count
      = wrap32 (s.bottom_half_count + 1) := by
  unfold process_one_work demo_work_handler button_irq_handler queue_work atomic_inc
  cases h : s.regular_work_pending <;> simp [h]

/-! ## Facts about the bottom half, the periodic task and the timer -/

theorem wrap32_succ_of_lt (v : Int) (hlo : -2147483648 ≤ v) (hhi : v < 2147483647) :
    wrap32 (v + 1) = v + 1 :=
  wrap32_of_int _ (by omega) (by omega)

theorem demo_work_handler_fields (s : State) (now : Int) :
    (demo_work_handler s now).bottom_half_count = wrap32 (s.bottom_half_count + 1) ∧
    (demo_work_handler s now).last_bh_time = now ∧
    (demo_work_handler s now).irq_count = s.irq_count ∧
    (demo_work_handler s now).delayed_work_count = s.delayed_work_count ∧
    (demo_work_handler s now).last_irq_time = s.last_irq_time ∧
    (demo_work_handler s now).regular_work_pending = s.regular_work_pending ∧
    (demo_work_handler s now).delayed_work = s.delayed_work ∧
    (demo_work_handler s now).demo_timer_expires = s.demo_timer_expires ∧
    (demo_work_handler s now).demo_timer_active = s.demo_timer_active :=
  ⟨rfl, rfl, rfl, rfl, rfl, rfl, rfl, rfl, rfl⟩

theorem demo_delayed_work_handler_fields (m : Nat → Nat) (s : State) :
    (demo_delayed_work_handler m s).delayed_work_count = wrap32 (s.delayed_work_count + 1) ∧
    (demo_delayed_work_handler m s).irq_count = s.irq_count ∧
    (demo_delayed_work_handler m s).bottom_half_count = s.bottom_half_count ∧
    (demo_delayed_work_handler m s).last_irq_time = s.last_irq_time ∧
    (demo_delayed_work_handler m s).last_bh_time = s.last_bh_time ∧
    (demo_delayed_work_handler m s).regular_work_pending = s.regular_work_pending ∧
    (demo_delayed_work_handler m s).delayed_work
      = (match s.delayed_work with
         | some d => some d
         | none => some (m 5000)) := by
  unfold demo_delayed_work_handler queue_delayed_work atomic_inc
  cases h : s.delayed_work <;> simp [h]

theorem process_delayed_work_fields (m : Nat → Nat) (s : State) (d : Nat)
    (hd : s.delayed_work = some d) :
    (process_delayed_work m s).delayed_work_count = wrap32 (s.delayed_work_count + 1) ∧
    (process_delayed_work m s).irq_count = s.irq_count ∧
    (process_delayed_work m s).bottom_half_count = s.bottom_half_count ∧
    (process_delayed_work m s).last_irq_time = s.last_irq_time ∧
    (process_delayed_work m s).last_bh_time = s.last_bh_time ∧
    (process_delayed_work m s).regular_work_pending = s.regular_work_pending ∧
    (process_delayed_work m s).delayed_work = some (m 5000) := by
  unfold process_delayed_work
  rw [hd]
  exact demo_delayed_work_handler_fields m { s with delayed_work := none }

theorem process_delayed_work_idle (m : Nat → Nat) (s : State) (hd : s.delayed_work = none) :
    process_delayed_work m s = s := by
  unfold process_delayed_work
  rw [hd]

theorem process_one_work_fields (s : State) (now : Int) (hp : s.regular_work_pending = true) :
    (process_one_work s now).bottom_half_count = wrap32 (s.bottom_half_count + 1) ∧
    (process_one_work s now).last_bh_time = now ∧
    (process_one_work s now).irq_count = s.irq_count ∧
    (process_one_work s now).delayed_work_count = s.delayed_work_count ∧
    (process_one_work s now).last_irq_time = s.last_irq_time ∧
    (process_one_work s now).regular_work_pending = false := by
  unfold process_one_work
  rw [if_pos hp]
  exact ⟨rfl, rfl, rfl, rfl, rfl, rfl⟩

theorem process_one_work_idle (s : State) (now : Int) (hp : s.regular_work_pending = false) :
    process_one_work s now = s := by
  unfold process_one_work
  simp [hp]

theorem button_irq_handler_keeps_timer (s : State) (now : Int) :
    (button_irq_handler s now).demo_timer_expires = s.demo_timer_expires ∧
    (button_irq_handler s now).demo_timer_active = s.demo_timer_active ∧
    (button_irq_handler s now).delayed_work = s.delayed_work := by
  unfold button_irq_handler queue_work
  cases h : s.regular_work_pending <;> simp [h]

theorem ktime_add_safe_of_fits (a b : Int) (ha : 0 ≤ a) (hb : 0 ≤ b)
    (hfit : a + b ≤ KTIME_MAX) : ktime_add_safe a b = a + b := by
  unfold KTIME_MAX at hfit
  have hw : wrap64 (a + b) = a + b := wrap64_of_s64 _ (by omega) (by omega)
  unfold ktime_add_safe
  simp only [hw]
  rw [if_neg (by omega)]

/-- `hrtimer_forward` touches nothing but the expiry. -/
theorem hrtimer_forward_keeps_stats (resolution : Int) (s : State) (now interval : Int) :
    (hrtimer_forward resolution s now interval).1.irq_count = s.irq_count ∧
    (hrtimer_forward resolution s now interval).1.bottom_half_count = s.bottom_half_count ∧
    (hrtimer_forward resolution s now interval).1.delayed_work_count = s.delayed_work_count ∧
    (hrtimer_forward resolution s now interval).1.last_irq_time = s.last_irq_time ∧
    (hrtimer_forward resolution s now interval).1.last_bh_time = s.last_bh_time ∧
    (hrtimer_forward resolution s now interval).1.regular_work_pending
      = s.regular_work_pending ∧
    (hrtimer_forward resolution s now interval).1.delayed_work = s.delayed_work ∧
    (hrtimer_forward resolution s now interval).1.demo_timer_active = s.demo_timer_active ∧
    (hrtimer_forward resolution s now interval).1.device_buffer = s.device_buffer := by
  unfold hrtimer_forward
  simp only []
  split_ifs <;> exact ⟨rfl, rfl, rfl, rfl, rfl, rfl, rfl, rfl, rfl⟩

/-- A forward that comes less than one interval after the expiry moves the
expiry by exactly one interval. -/
theorem hrtimer_forward_within_interval (resolution : Int) (s : State) (now interval : Int)
    (hidle : s.demo_timer_active = false) (he : 0 ≤ s.demo_timer_expires)
    (hn : ktime_ok now) (h0 : s.demo_timer_expires ≤ now)
    (hlat : now - s.demo_timer_expires < interval) (hres : resolution ≤ interval)
    (hfit : s.demo_timer_expires + interval ≤ KTIME_MAX) :
    hrtimer_forward resolution s now interval
      = ({ s with demo_timer_expires := s.demo_timer_expires + interval }, 1) := by
  have hd : ktime_sub now s.demo_timer_expires = now - s.demo_timer_expires := by
    unfold ktime_ok at hn
    unfold ktime_sub
    exact wrap64_of_s64 _ (by omega) (by omega)
  have hadd := ktime_add_safe_of_fits s.demo_timer_expires interval he (by omega) hfit
  unfold hrtimer_forward
  simp only [hd, hidle]
  rw [if_neg (by omega), if_neg (by decide), if_neg (by omega), if_neg (by omega), hadd]

/-! ## Facts about module load and unload -/

/-- The state a successful `irq_demo_init` leaves: the periodic task queued,
the timer started when it is used. -/
theorem init_success (gpio timer : Bool) (env : InitEnv) (h : all_steps_ok gpio env) :
    (irq_demo_init gpio timer env).ret = 0 ∧
    (irq_demo_init gpio timer env).state.delayed_work = some (env.msecs_to_jiffies 5000) ∧
    (timer = true →
      (irq_demo_init gpio timer env).state.demo_timer_expires
        = ktime_add_safe (ns_to_ktime TIMER_PERIOD_NS) env.start_now ∧
      (irq_demo_init gpio timer env).state.demo_timer_active = true) := by
  obtain ⟨hwq, hg, hreg, hcls, hdev, hcdev, hproc⟩ := h
  have hreg2 : ¬ env.register_chrdev < 0 := by omega
  have hcdev2 : ¬ env.cdev_add < 0 := by omega
  cases gpio
  · cases timer <;>
      simp [irq_demo_init, init_gpio, init_chrdev, hwq, hreg2, hcls, hdev, hcdev2, hproc,
        queue_delayed_work, State.init, hrtimer_start]
  · obtain ⟨g1, g2, g3, g4⟩ := hg rfl
    have g3b : ¬ env.gpio_to_irq < 0 := by omega
    cases timer <;>
      simp [irq_demo_init, init_gpio, init_chrdev, hwq, hreg2, hcls, hdev, hcdev2, hproc,
        queue_delayed_work, State.init, hrtimer_start, g1, g2, g3b, g4]

theorem wrap32_PTR_ERR (p : Int) (h : IS_ERR p) :
    wrap32 (PTR_ERR p) ≠ 0 ∧ wrap32 (PTR_ERR p) < 0 := by
  unfold IS_ERR at h
  unfold PTR_ERR
  rw [wrap32_of_int _ (by omega) (by omega)]
  omega

set_option maxHeartbeats 4000000 in
/-- A failed `irq_demo_init` returns a non-zero code, negative under the
kernel's contract, gives back what it had acquired in reverse order and
nothing else, and leaves neither the timer nor the periodic task armed. -/
theorem init_failure (gpio timer : Bool) (env : InitEnv) (h : ¬ all_steps_ok gpio env) :
    (irq_demo_init gpio timer env).ret ≠ 0 ∧
    (api_contract env → (irq_demo_init gpio timer env).ret < 0) ∧
    released (irq_demo_init gpio timer env).trace
      = (acquired (irq_demo_init gpio timer env).trace).reverse ∧
    (acquired (irq_demo_init gpio timer env).trace).Nodup ∧
    (irq_demo_init gpio timer env).state.demo_timer_active = false ∧
    (irq_demo_init gpio timer env).state.delayed_work = none ∧
    (env.create_workqueue = true → timer = true →
      teardown_ordered (irq_demo_init gpio timer env).trace) := by
  by_cases hwq : env.create_workqueue = true
  swap
  · -- `create_workqueue` fails
    cases timer <;>
      simp [irq_demo_init, init_gpio, init_chrdev, fail_proc_create, fail_cdev_add,
        fail_device_create, fail_class_create, fail_register_chrdev, fail_gpio_direction,
        fail_gpio, acquired, released, Call.acquires, Call.releases, hrtimer_cancel,
        cancel_delayed_work_sync, flush_workqueue, process_one_work, queue_delayed_work,
        hrtimer_start, State.init, teardown_ordered, ENOMEM,
        hwq]
  cases gpio
  · -- `using_gpio` is false
    by_cases hreg : env.register_chrdev < 0
    · -- `register_chrdev` fails
      cases timer <;>
        simp [irq_demo_init, init_gpio, init_chrdev, fail_proc_create, fail_cdev_add,
          fail_device_create, fail_class_create, fail_register_chrdev, fail_gpio_direction,
          fail_gpio, acquired, released, Call.acquires, Call.releases, hrtimer_cancel,
          cancel_delayed_work_sync, flush_workqueue, process_one_work, queue_delayed_work,
          hrtimer_start, State.init, teardown_ordered, ENOMEM,
          hwq, hreg] <;>
        omega
    by_cases hcls : IS_ERR env.class_create
    · -- `class_create` fails
      cases timer <;>
        simp [irq_demo_init, init_gpio, init_chrdev, fail_proc_create, fail_cdev_add,
          fail_device_create, fail_class_create, fail_register_chrdev, fail_gpio_direction,
          fail_gpio, acquired, released, Call.acquires, Call.releases, hrtimer_cancel,
          cancel_delayed_work_sync, flush_workqueue, process_one_work, queue_delayed_work,
          hrtimer_start, State.init, teardown_ordered, ENOMEM,
          hwq, hreg, hcls] <;>
        exact ⟨(wrap32_PTR_ERR _ hcls).1, fun _ => (wrap32_PTR_ERR _ hcls).2⟩
    by_cases hdev : IS_ERR env.device_create
    · -- `device_create` fails
      cases timer <;>
        simp [irq_demo_init, init_gpio, init_chrdev, fail_proc_create, fail_cdev_add,
          fail_device_create, fail_class_create, fail_register_chrdev, fail_gpio_direction,
          fail_gpio, acquired, released, Call.acquires, Call.releases, hrtimer_cancel,
          cancel_delayed_work_sync, flush_workqueue, process_one_work, queue_delayed_work,
          hrtimer_start, State.init, teardown_ordered, ENOMEM,
          hwq, hreg, hcls, hdev] <;>
        exact ⟨(wrap32_PTR_ERR _ hdev).1, fun _ => (wrap32_PTR_ERR _ hdev).2⟩
    by_cases hcdev : env.cdev_add < 0
    · -- `cdev_add` fails
      cases timer <;>
        simp [irq_demo_init, init_gpio, init_chrdev, fail_proc_create, fail_cdev_add,
          fail_device_create, fail_class_create, fail_register_chrdev, fail_gpio_direction,
          fail_gpio, acquired, released, Call.acquires, Call.releases, hrtimer_cancel,
          cancel_delayed_work_sync, flush_workqueue, process_one_work, queue_delayed_work,
          hrtimer_start, State.init, teardown_ordered, ENOMEM,
          hwq, hreg, hcls, hdev, hcdev] <;>
        omega
    by_cases hproc : env.proc_create = true
    · -- nothing fails
      exact absurd ⟨hwq, (fun hg => absurd hg (by decide)), by omega, hcls, hdev, by omega, hproc⟩ h
    · -- `proc_create` fails
      cases timer <;>
        simp [irq_demo_init, init_gpio, init_chrdev, fail_proc_create, fail_cdev_add,
          fail_device_create, fail_class_create, fail_register_chrdev, fail_gpio_direction,
          fail_gpio, acquired, released, Call.acquires, Call.releases, hrtimer_cancel,
          cancel_delayed_work_sync, flush_workqueue, process_one_work, queue_delayed_work,
          hrtimer_start, State.init, teardown_ordered, ENOMEM,
          hwq, hreg, hcls, hdev, hcdev, hproc]
  · -- `using_gpio` is true
    by_cases g1 : env.gpio_request = 0
    swap
    · -- `gpio_request` fails
      cases timer <;>
        simp [irq_demo_init, init_gpio, init_chrdev, fail_proc_create, fail_cdev_add,
          fail_device_create, fail_class_create, fail_register_chrdev, fail_gpio_direction,
          fail_gpio, acquired, released, Call.acquires, Call.releases, hrtimer_cancel,
          cancel_delayed_work_sync, flush_workqueue, process_one_work, queue_delayed_work,
          hrtimer_start, State.init, teardown_ordered, ENOMEM,
          hwq, g1] <;>
        (unfold api_contract; omega)
    by_cases g2 : env.gpio_direction_input = 0
    swap
    · -- `gpio_direction_input` fails
      cases timer <;>
        simp [irq_demo_init, init_gpio, init_chrdev, fail_proc_create, fail_cdev_add,
          fail_device_create, fail_class_create, fail_register_chrdev, fail_gpio_direction,
          fail_gpio, acquired, released, Call.acquires, Call.releases, hrtimer_cancel,
          cancel_delayed_work_sync, flush_workqueue, process_one_work, queue_delayed_work,
          hrtimer_start, State.init, teardown_ordered, ENOMEM,
          hwq, g1, g2] <;>
        (unfold api_contract; omega)
    by_cases g3 : env.gpio_to_irq < 0
    · -- `gpio_to_irq` fails
      cases timer <;>
        simp [irq_demo_init, init_gpio, init_chrdev, fail_proc_create, fail_cdev_add,
          fail_device_create, fail_class_create, fail_register_chrdev, fail_gpio_direction,
          fail_gpio, acquired, released, Call.acquires, Call.releases, hrtimer_cancel,
          cancel_delayed_work_sync, flush_workqueue, process_one_work, queue_delayed_work,
          hrtimer_start, State.init, teardown_ordered, ENOMEM,
          hwq, g1, g2, g3] <;>
        omega
    by_cases g4 : env.request_irq = 0
    swap
    · -- `request_irq` fails
      cases timer <;>
        simp [irq_demo_init, init_gpio, init_chrdev, fail_proc_create, fail_cdev_add,
          fail_device_create, fail_class_create, fail_register_chrdev, fail_gpio_direction,
          fail_gpio, acquired, released, Call.acquires, Call.releases, hrtimer_cancel,
          cancel_delayed_work_sync, flush_workqueue, process_one_work, queue_delayed_work,
          hrtimer_start, State.init, teardown_ordered, ENOMEM,
          hwq, g1, g2, g3, g4] <;>
        (unfold api_contract; omega)
    by_cases hreg : env.register_chrdev < 0
    · -- `register_chrdev` fails
      cases timer <;>
        simp [irq_demo_init, init_gpio, init_chrdev, fail_proc_create, fail_cdev_add,
          fail_device_create, fail_class_create, fail_register_chrdev, fail_gpio_direction,
          fail_gpio, acquired, released, Call.acquires, Call.releases, hrtimer_cancel,
          cancel_delayed_work_sync, flush_workqueue, process_one_work, queue_delayed_work,
          hrtimer_start, State.init, teardown_ordered, ENOMEM,
          hwq, g1, g2, g3, g4, hreg] <;>
        omega
    by_cases hcls : IS_ERR env.class_create
    · -- `class_create` fails
      cases timer <;>
        simp [irq_demo_init, init_gpio, init_chrdev, fail_proc_create, fail_cdev_add,
          fail_device_create, fail_class_create, fail_register_chrdev, fail_gpio_direction,
          fail_gpio, acquired, released, Call.acquires, Call.releases, hrtimer_cancel,
          cancel_delayed_work_sync, flush_workqueue, process_one_work, queue_delayed_work,
          hrtimer_start, State.init, teardown_ordered, ENOMEM,
          hwq, g1, g2, g3, g4, hreg, hcls] <;>
        exact ⟨(wrap32_PTR_ERR _ hcls).1, fun _ => (wrap32_PTR_ERR _ hcls).2⟩
    by_cases hdev : IS_ERR env.device_create
    · -- `device_create` fails
      cases timer <;>
        simp [irq_demo_init, init_gpio, init_chrdev, fail_proc_create, fail_cdev_add,
          fail_device_create, fail_class_create, fail_register_chrdev, fail_gpio_direction,
          fail_gpio, acquired, released, Call.acquires, Call.releases, hrtimer_cancel,
          cancel_delayed_work_sync, flush_workqueue, process_one_work, queue_delayed_work,
          hrtimer_start, State.init, teardown_ordered, ENOMEM,
          hwq, g1, g2, g3, g4, hreg, hcls, hdev] <;>
        exact ⟨(wrap32_PTR_ERR _ hdev).1, fun _ => (wrap32_PTR_ERR _ hdev).2⟩
    by_cases hcdev : env.cdev_add < 0
    · -- `cdev_add` fails
      cases timer <;>
        simp [irq_demo_init, init_gpio, init_chrdev, fail_proc_create, fail_cdev_add,
          fail_device_create, fail_class_create, fail_register_chrdev, fail_gpio_direction,
          fail_gpio, acquired, released, Call.acquires, Call.releases, hrtimer_cancel,
          cancel_delayed_work_sync, flush_workqueue, process_one_work, queue_delayed_work,
          hrtimer_start, State.init, teardown_ordered, ENOMEM,
          hwq, g1, g2, g3, g4, hreg, hcls, hdev, hcdev] <;>
        omega
    by_cases hproc : env.proc_create = true
    · -- nothing fails
      exact absurd ⟨hwq, (fun _ => ⟨g1, g2, by omega, g4⟩), by omega, hcls, hdev, by omega, hproc⟩ h
    · -- `proc_create` fails
      cases timer <;>
        simp [irq_demo_init, init_gpio, init_chrdev, fail_proc_create, fail_cdev_add,
          fail_device_create, fail_class_create, fail_register_chrdev, fail_gpio_direction,
          fail_gpio, acquired, released, Call.acquires, Call.releases, hrtimer_cancel,
          cancel_delayed_work_sync, flush_workqueue, process_one_work, queue_delayed_work,
          hrtimer_start, State.init, teardown_ordered, ENOMEM,
          hwq, g1, g2, g3, g4, hreg, hcls, hdev, hcdev, hproc]

theorem init_ret_zero_iff (gpio timer : Bool) (env : InitEnv) :
    (irq_demo_init gpio timer env).ret = 0 ↔ all_steps_ok gpio env := by
  constructor
  · intro h
    by_contra hn
    exact (init_failure gpio timer env hn).1 h
  · intro h
    exact (init_success gpio timer env h).1

theorem exit_trace (gpio : Bool) (s : State) (now : Int) :
    (irq_demo_exit gpio true s now).2 =
      [Call.hrtimer_cancel, Call.cancel_delayed_work_sync, Call.flush_workqueue,
        Call.destroy_workqueue] ++
      (if gpio then [Call.free_irq, Call.gpio_free] else []) ++
      [Call.remove_proc_entry, Call.cdev_del, Call.device_destroy, Call.class_destroy,
        Call.unregister_chrdev] := by
  cases gpio <;> rfl

theorem exit_teardown_ordered (gpio : Bool) (s : State) (now : Int) :
    teardown_ordered (irq_demo_exit gpio true s now).2 := by
  rw [exit_trace]
  cases gpio <;> decide

/-! ## Facts about runs -/

theorem wrap32_int_ok (x : Int) : int_ok (wrap32 x) := by
  unfold int_ok wrap32
  omega

theorem wrap32_wrap32_add (a b : Int) : wrap32 (wrap32 a + b) = wrap32 (a + b) := by
  unfold wrap32
  omega

/-- A `read` leaves the counters alone, whatever its arguments. -/
theorem irq_demo_read_keeps_counters (s : State) (room count : Nat) (offset : Int)
    (r : ReadResult) (h : irq_demo_read s room count offset = some r) :
    r.state.irq_count = s.irq_count ∧ r.state.bottom_half_count = s.bottom_half_count ∧
    r.state.delayed_work_count = s.delayed_work_count := by
  unfold irq_demo_read at h
  simp only [] at h
  split_ifs at h with c1 c2
  · injection h with h
    subst h
    exact ⟨rfl, rfl, rfl⟩
  · obtain ⟨c, _, hr⟩ := Option.bind_eq_some.mp h
    injection hr with hr
    subst hr
    exact ⟨rfl, rfl, rfl⟩

/-- One expiry of the timer: `irq_count` stays or is incremented, the other
counters stay. -/
theorem run_hrtimer_counters (resolution : Int) (s : State) (now fwd_now : Int) :
    ((run_hrtimer resolution s now fwd_now).irq_count = s.irq_count ∨
      (run_hrtimer resolution s now fwd_now).irq_count = wrap32 (s.irq_count + 1)) ∧
    (run_hrtimer resolution s now fwd_now).bottom_half_count = s.bottom_half_count ∧
    (run_hrtimer resolution s now fwd_now).delayed_work_count = s.delayed_work_count := by
  unfold run_hrtimer
  by_cases ha : s.demo_timer_active = true
  · rw [if_pos ha]
    obtain ⟨f1, f2, f3, _⟩ := hrtimer_forward_keeps_stats resolution
      (button_irq_handler { s with demo_timer_active := false } now) fwd_now
      (ns_to_ktime TIMER_PERIOD_NS)
    obtain ⟨b1, _, _, b4, b5, _⟩ :=
      button_irq_handler_fields { s with demo_timer_active := false } now
    refine ⟨Or.inr ?_, ?_, ?_⟩
    · exact f1.trans b1
    · exact f2.trans b4
    · exact f3.trans b5
  · rw [if_neg ha]
    exact ⟨Or.inl rfl, rfl, rfl⟩

/-- The state a `write` leaves when its local array has the declared size. -/
theorem step_write (s : State) (now : Int) (stack user_buffer : List Char) (count : Nat)
    (hstack : stack.length = 16) :
    step s (Op.write now stack user_buffer count) =
      if min count 15 ≤ user_buffer.length then
        (if "trigger".toList <+: user_buffer.take count then button_irq_handler s now
         else if "reset".toList <+: user_buffer.take count then counters_cleared s
         else s)
      else s := by
  show ((irq_demo_write s now stack user_buffer count).map fun r => r.1).getD s = _
  by_cases hcopy : min count 15 ≤ user_buffer.length
  · rw [irq_demo_write_ok s now stack user_buffer count hstack hcopy, if_pos hcopy]
    rfl
  · rw [irq_demo_write_fault s now stack user_buffer count hstack (by omega), if_neg hcopy]
    rfl

/-- One operation other than a reset: every counter stays or is incremented. -/
theorem step_counters (s : State) (op : Op) (hwf : op.well_formed) (hnr : ¬ op.is_reset) :
    ((step s op).irq_count = s.irq_count ∨
      (step s op).irq_count = wrap32 (s.irq_count + 1)) ∧
    ((step s op).bottom_half_count = s.bottom_half_count ∨
      (step s op).bottom_half_count = wrap32 (s.bottom_half_count + 1)) ∧
    ((step s op).delayed_work_count = s.delayed_work_count ∨
      (step s op).delayed_work_count = wrap32 (s.delayed_work_count + 1)) := by
  cases op with
  | timer_fire resolution now fwd_now =>
    obtain ⟨h1, h2, h3⟩ := run_hrtimer_counters resolution s now fwd_now
    exact ⟨h1, Or.inl h2, Or.inl h3⟩
  | write now stack user_buffer count =>
    rw [step_write s now stack user_buffer count hwf]
    have hnr2 : ¬ "reset".toList <+: user_buffer.take count := hnr
    by_cases hcopy : min count 15 ≤ user_buffer.length
    · rw [if_pos hcopy, if_neg hnr2]
      by_cases ht : "trigger".toList <+: user_buffer.take count
      · rw [if_pos ht]
        obtain ⟨b1, _, _, b4, b5, _⟩ := button_irq_handler_fields s now
        exact ⟨Or.inr b1, Or.inl b4, Or.inl b5⟩
      · rw [if_neg ht]
        exact ⟨Or.inl rfl, Or.inl rfl, Or.inl rfl⟩
    · rw [if_neg hcopy]
      exact ⟨Or.inl rfl, Or.inl rfl, Or.inl rfl⟩
  | drain now =>
    rw [show step s (Op.drain now) = process_one_work s now from rfl]
    by_cases hp : s.regular_work_pending = true
    · obtain ⟨p1, _, p3, p4, _⟩ := process_one_work_fields s now hp
      exact ⟨Or.inl p3, Or.inr p1, Or.inl p4⟩
    · rw [process_one_work_idle s now (by simpa using hp)]
      exact ⟨Or.inl rfl, Or.inl rfl, Or.inl rfl⟩
  | periodic m =>
    rw [show step s (Op.periodic m) = process_delayed_work m s from rfl]
    cases hd : s.delayed_work with
    | none =>
      rw [process_delayed_work_idle m s hd]
      exact ⟨Or.inl rfl, Or.inl rfl, Or.inl rfl⟩
    | some d =>
      obtain ⟨p1, p2, p3, _⟩ := process_delayed_work_fields m s d hd
      exact ⟨Or.inl p2, Or.inl p3, Or.inr p1⟩
  | read room count offset =>
    rw [show step s (Op.read room count offset)
      = ((irq_demo_read s room count offset).map fun r => r.state).getD s from rfl]
    cases hr : irq_demo_read s room count offset with
    | none => exact ⟨Or.inl rfl, Or.inl rfl, Or.inl rfl⟩
    | some r =>
      obtain ⟨r1, r2, r3⟩ := irq_demo_read_keeps_counters s room count offset r hr
      exact ⟨Or.inl r1, Or.inl r2, Or.inl r3⟩
  | report => exact ⟨Or.inl rfl, Or.inl rfl, Or.inl rfl⟩

theorem trajectory_head (s : State) (ops : List Op) :
    ∃ l, trajectory s ops = s :: l := by
  cases ops with
  | nil => exact ⟨[], rfl⟩
  | cons op ops => exact ⟨trajectory (step s op) ops, rfl⟩

/-- Along a run without reset that has room below `INT_MAX` for one
increment per operation, no counter ever goes down. -/
theorem trajectory_monotone (ops : List Op) :
    ∀ s : State, (∀ op ∈ ops, Op.well_formed op) → (∀ op ∈ ops, ¬ Op.is_reset op) →
      -2147483648 ≤ s.irq_count → s.irq_count + ops.length ≤ INT_MAX →
      -2147483648 ≤ s.bottom_half_count → s.bottom_half_count + ops.length ≤ INT_MAX →
      -2147483648 ≤ s.delayed_work_count → s.delayed_work_count + ops.length ≤ INT_MAX →
      List.Chain' counters_le (trajectory s ops) := by
  unfold INT_MAX
  induction ops with
  | nil =>
    intro s _ _ _ _ _ _ _ _
    exact List.chain'_singleton s
  | cons op ops ih =>
    intro s hwf hnr a1 a2 b1 b2 c1 c2
    simp only [List.length_cons, Nat.cast_add, Nat.cast_one] at a2 b2 c2
    obtain ⟨k1, k2, k3⟩ := step_counters s op (hwf op (List.mem_cons_self _ _))
      (hnr op (List.mem_cons_self _ _))
    have w1 := wrap32_succ_of_lt s.irq_count a1 (by omega)
    have w2 := wrap32_succ_of_lt s.bottom_half_count b1 (by omega)
    have w3 := wrap32_succ_of_lt s.delayed_work_count c1 (by omega)
    rw [w1] at k1
    rw [w2] at k2
    rw [w3] at k3
    have hrest := ih (step s op) (fun o ho => hwf o (List.mem_cons_of_mem _ ho))
      (fun o ho => hnr o (List.mem_cons_of_mem _ ho))
      (by omega) (by omega) (by omega) (by omega) (by omega) (by omega)
    obtain ⟨l, hl⟩ := trajectory_head (step s op) ops
    show List.Chain' counters_le (s :: trajectory (step s op) ops)
    rw [hl] at hrest ⊢
    refine List.chain'_cons.mpr ⟨?_, hrest⟩
    unfold counters_le
    omega

theorem step_trigger_write (s : State) (now : Int) :
    step s (Op.write now (List.replicate 16 'x') "trigger".toList 7)
      = button_irq_handler s now := by
  rw [step_write s now _ _ 7 (by decide), if_pos (by decide), if_pos (by decide)]

/-- The state after `n` writes of `trigger`: `irq_count` has been incremented
`n` times with 32-bit wrap-around. -/
theorem run_trigger_writes (n : Nat) (now : Int) :
    ∀ s : State, int_ok s.irq_count →
      (run s (List.replicate n
        (Op.write now (List.replicate 16 'x') "trigger".toList 7))).irq_count
        = wrap32 (s.irq_count + n) := by
  induction n with
  | zero =>
    intro s hs
    unfold int_ok at hs
    show s.irq_count = wrap32 (s.irq_count + ((0 : Nat) : Int))
    rw [Nat.cast_zero, add_zero, wrap32_of_int _ hs.1 hs.2]
  | succ n ih =>
    intro s _
    show (run (step s (Op.write now (List.replicate 16 'x') "trigger".toList 7))
      (List.replicate n (Op.write now (List.replicate 16 'x') "trigger".toList 7))).irq_count
      = _
    rw [step_trigger_write]
    obtain ⟨b1, _⟩ := button_irq_handler_fields s now
    rw [ih (button_irq_handler s now) (by rw [b1]; exact wrap32_int_ok _), b1,
      wrap32_wrap32_add]
    congr 1
    push_cast
    omega

/-- In a run that never lets a counter go down, the last operation does not
either. -/
theorem chain_last_step (ops : List Op) (op : Op) :
    ∀ s : State, List.Chain' counters_le (trajectory s (ops ++ [op])) →
      counters_le (run s ops) (step (run s ops) op) := by
  induction ops with
  | nil =>
    intro s h
    have h2 : List.Chain' counters_le [s, step s op] := h
    exact (List.chain'_cons.mp h2).1
  | cons o ops ih =>
    intro s h
    have h2 : List.Chain' counters_le (s :: trajectory (step s o) (ops ++ [op])) := h
    exact ih (step s o) h2.tail

/-- Bookkeeping of a schedule of top halves and drains: `irq_count` moves by
the number of top halves, `bottom_half_count` by some number `k` of drains,
and `k` plus a still pending drain is bounded by the top halves plus a drain
that was pending at the start; it is at least 1 once there is anything to
drain. -/
theorem run_events_bookkeeping (evs : List Ev) :
    ∀ s : State, int_ok s.irq_count → int_ok s.bottom_half_count →
      ∃ k : Nat,
        (run_events s evs).bottom_half_count = wrap32 (s.bottom_half_count + k) ∧
        (run_events s evs).irq_count = wrap32 (s.irq_count + triggers evs) ∧
        k + pending_count (run_events s evs) ≤ triggers evs + pending_count s ∧
        (1 ≤ triggers evs + pending_count s → 1 ≤ k + pending_count (run_events s evs)) := by
  induction evs with
  | nil =>
    intro s h1 h2
    unfold int_ok at h1 h2
    refine ⟨0, ?_, ?_, ?_, ?_⟩
    · show s.bottom_half_count = wrap32 (s.bottom_half_count + ((0 : Nat) : Int))
      rw [Nat.cast_zero, add_zero, wrap32_of_int _ h2.1 h2.2]
    · show s.irq_count = wrap32 (s.irq_count + ((0 : Nat) : Int))
      rw [Nat.cast_zero, add_zero, wrap32_of_int _ h1.1 h1.2]
    · exact le_refl _
    · intro h
      exact h
  | cons e evs ih =>
    intro s h1 h2
    cases e with
    | on_event now =>
      obtain ⟨b1, _, b3, b4, _⟩ := button_irq_handler_fields s now
      obtain ⟨k, k1, k2, k3, k4⟩ := ih (button_irq_handler s now)
        (by rw [b1]; exact wrap32_int_ok _) (by rw [b4]; exact h2)
      have hp : pending_count (button_irq_handler s now) = 1 := by
        unfold pending_count
        rw [b3]
        rfl
      have ht : triggers (Ev.on_event now :: evs) = triggers evs + 1 := rfl
      refine ⟨k, ?_, ?_, ?_, ?_⟩
      · show (run_events (button_irq_handler s now) evs).bottom_half_count = _
        rw [k1, b4]
      · show (run_events (button_irq_handler s now) evs).irq_count = _
        rw [k2, b1, wrap32_wrap32_add, ht]
        congr 1
        push_cast
        omega
      · show k + pending_count (run_events (button_irq_handler s now) evs) ≤ _
        rw [ht]
        omega
      · intro _
        show 1 ≤ k + pending_count (run_events (button_irq_handler s now) evs)
        exact k4 (by omega)
    | drain now =>
      have ht : triggers (Ev.drain now :: evs) = triggers evs := rfl
      by_cases hpend : s.regular_work_pending = true
      · obtain ⟨p1, _, p3, _, _, p6⟩ := process_one_work_fields s now hpend
        obtain ⟨k, k1, k2, k3, k4⟩ := ih (process_one_work s now)
          (by rw [p3]; exact h1) (by rw [p1]; exact wrap32_int_ok _)
        have hp0 : pending_count (process_one_work s now) = 0 := by
          unfold pending_count
          rw [p6]
          rfl
        have hp1 : pending_count s = 1 := by
          unfold pending_count
          rw [hpend]
          rfl
        refine ⟨k + 1, ?_, ?_, ?_, ?_⟩
        · show (run_events (process_one_work s now) evs).bottom_half_count = _
          rw [k1, p1, wrap32_wrap32_add]
          congr 1
          push_cast
          omega
        · show (run_events (process_one_work s now) evs).irq_count = _
          rw [k2, p3, ht]
        · show k + 1 + pending_count (run_events (process_one_work s now) evs) ≤ _
          rw [ht]
          omega
        · intro _
          omega
      · have hidle : process_one_work s now = s :=
          process_one_work_idle s now (by simpa using hpend)
        obtain ⟨k, k1, k2, k3, k4⟩ := ih s h1 h2
        refine ⟨k, ?_, ?_, ?_, ?_⟩
        · show (run_events (process_one_work s now) evs).bottom_half_count = _
          rw [hidle, k1]
        · show (run_events (process_one_work s now) evs).irq_count = _
          rw [hidle, k2, ht]
        · show k + pending_count (run_events (process_one_work s now) evs) ≤ _
          rw [hidle, ht]
          exact k3
        · intro h
          show 1 ≤ k + pending_count (run_events (process_one_work s now) evs)
          rw [hidle]
          rw [ht] at h
          exact k4 h

/-- After every well-separated round the two counters agree and the work item
is idle. -/
theorem rounds_balanced (ps : List (Int × Int)) :
    ∀ s : State, s.irq_count = s.bottom_half_count →
      ∀ st ∈ rounds s ps,
        st.irq_count = st.bottom_half_count ∧ st.regular_work_pending = false := by
  induction ps with
  | nil =>
    intro s _ st hst
    exact absurd hst (List.not_mem_nil st)
  | cons p ps ih =>
    intro s heq st hst
    obtain ⟨_, _, f3, f4, f5⟩ := process_after_handler_fields s p.1 p.2
    have hbal : (round s p).irq_count = (round s p).bottom_half_count := by
      unfold round
      rw [f4, f5, heq]
    have hmem : st = round s p ∨ st ∈ rounds (round s p) ps := List.mem_cons.mp hst
    rcases hmem with h | h
    · subst h
      exact ⟨hbal, f3⟩
    · exact ih (round s p) hbal st h

theorem rounds_length (ps : List (Int × Int)) :
    ∀ s : State, (rounds s ps).length = ps.length := by
  induction ps with
  | nil =>
    intro s
    rfl
  | cons p ps ih =>
    intro s
    show (rounds (round s p) ps).length + 1 = ps.length + 1
    rw [ih]

/-! ## Facts about the pipeline invariant -/

/-- The report of a state with both timestamps set, as built (timer in use,
no GPIO). -/
theorem irq_proc_show_both_set (s : State) (h1 : s.last_irq_time ≠ 0)
    (h2 : s.last_bh_time ≠ 0) :
    (irq_proc_show s []).1 =
      [SeqItem.puts "Interrupt Handling Demo Statistics\n",
        SeqItem.puts "==================================\n\n",
        SeqItem.printf "Top-half (IRQ) count: %d\n" [s.irq_count],
        SeqItem.printf "Bottom-half (work) count: %d\n" [s.bottom_half_count],
        SeqItem.printf "Delayed work count: %d\n" [s.delayed_work_count],
        SeqItem.printf "Using timer to simulate interrupts (period: %lld ns)\n"
          [TIMER_PERIOD_NS],
        SeqItem.printf "Last IRQ time: %lld ns\n" [s.last_irq_time],
        SeqItem.printf "Last bottom-half time: %lld ns\n" [s.last_bh_time],
        SeqItem.printf "IRQ to bottom-half latency: %lld ns\n"
          [ktime_sub s.last_bh_time s.last_irq_time]] := by
  unfold irq_proc_show
  simp only [using_gpio, using_timer, ktime_to_ns, ne_eq, h1, h2, not_false_eq_true,
    if_true, if_false, Bool.false_eq_true, List.nil_append, List.append_assoc,
    List.cons_append, List.singleton_append]

/-- A `read` leaves the work item alone, whatever its arguments. -/
theorem irq_demo_read_keeps_pending (s : State) (room count : Nat) (offset : Int)
    (r : ReadResult) (h : irq_demo_read s room count offset = some r) :
    r.state.regular_work_pending = s.regular_work_pending := by
  unfold irq_demo_read at h
  simp only [] at h
  split_ifs at h with c1 c2
  · injection h with h
    subst h
    rfl
  · obtain ⟨c, _, hr⟩ := Option.bind_eq_some.mp h
    have hs := congrArg (fun x => x.state.regular_work_pending) (Option.some.inj hr)
    exact hs.symm

/-- One expiry of the timer, seen from the pipeline. -/
theorem run_hrtimer_pipeline (resolution : Int) (s : State) (now fwd_now : Int) :
    run_hrtimer resolution s now fwd_now = s ∨
    ((run_hrtimer resolution s now fwd_now).irq_count = wrap32 (s.irq_count + 1) ∧
      (run_hrtimer resolution s now fwd_now).bottom_half_count = s.bottom_half_count ∧
      (run_hrtimer resolution s now fwd_now).regular_work_pending = true) := by
  unfold run_hrtimer
  by_cases ha : s.demo_timer_active = true
  · rw [if_pos ha]
    obtain ⟨f1, f2, _, _, _, f6, _⟩ := hrtimer_forward_keeps_stats resolution
      (button_irq_handler { s with demo_timer_active := false } now) fwd_now
      (ns_to_ktime TIMER_PERIOD_NS)
    obtain ⟨b1, _, b3, b4, _⟩ :=
      button_irq_handler_fields { s with demo_timer_active := false } now
    exact Or.inr ⟨f1.trans b1, f2.trans b4, f6.trans b3⟩
  · rw [if_neg ha]
    exact Or.inl rfl

/-- One operation other than a reset, seen from the pipeline: an operation
that fires changes nothing or runs the top half; any other operation changes
nothing or runs a pending bottom half. -/
theorem step_pipeline (s : State) (op : Op) (hwf : op.well_formed) (hnr : ¬ op.is_reset) :
    ((step s op).irq_count = s.irq_count ∧
      (step s op).bottom_half_count = s.bottom_half_count ∧
      (step s op).regular_work_pending = s.regular_work_pending) ∨
    (op.fires = true ∧ (step s op).irq_count = wrap32 (s.irq_count + 1) ∧
      (step s op).bottom_half_count = s.bottom_half_count ∧
      (step s op).regular_work_pending = true) ∨
    (op.fires = false ∧ s.regular_work_pending = true ∧
      (step s op).irq_count = s.irq_count ∧
      (step s op).bottom_half_count = wrap32 (s.bottom_half_count + 1) ∧
      (step s op).regular_work_pending = false) := by
  cases op with
  | timer_fire resolution now fwd_now =>
    rcases run_hrtimer_pipeline resolution s now fwd_now with h | h
    · left
      rw [show step s (Op.timer_fire resolution now fwd_now)
        = run_hrtimer resolution s now fwd_now from rfl, h]
      exact ⟨rfl, rfl, rfl⟩
    · exact Or.inr (Or.inl ⟨rfl, h⟩)
  | write now stack user_buffer count =>
    rw [step_write s now stack user_buffer count hwf]
    have hnr2 : ¬ "reset".toList <+: user_buffer.take count := hnr
    by_cases hcopy : min count 15 ≤ user_buffer.length
    · rw [if_pos hcopy, if_neg hnr2]
      by_cases ht : "trigger".toList <+: user_buffer.take count
      · rw [if_pos ht]
        obtain ⟨b1, _, b3, b4, _⟩ := button_irq_handler_fields s now
        exact Or.inr (Or.inl ⟨decide_eq_true ht, b1, b4, b3⟩)
      · rw [if_neg ht]
        exact Or.inl ⟨rfl, rfl, rfl⟩
    · rw [if_neg hcopy]
      exact Or.inl ⟨rfl, rfl, rfl⟩
  | drain now =>
    rw [show step s (Op.drain now) = process_one_work s now from rfl]
    by_cases hp : s.regular_work_pending = true
    · obtain ⟨p1, _, p3, _, _, p6⟩ := process_one_work_fields s now hp
      exact Or.inr (Or.inr ⟨rfl, hp, p3, p1, p6⟩)
    · rw [process_one_work_idle s now (by simpa using hp)]
      exact Or.inl ⟨rfl, rfl, rfl⟩
  | periodic m =>
    rw [show step s (Op.periodic m) = process_delayed_work m s from rfl]
    cases hd : s.delayed_work with
    | none =>
      rw [process_delayed_work_idle m s hd]
      exact Or.inl ⟨rfl, rfl, rfl⟩
    | some d =>
      obtain ⟨_, p2, p3, _, _, p6, _⟩ := process_delayed_work_fields m s d hd
      exact Or.inl ⟨p2, p3, p6⟩
  | read room count offset =>
    rw [show step s (Op.read room count offset)
      = ((irq_demo_read s room count offset).map fun r => r.state).getD s from rfl]
    cases hr : irq_demo_read s room count offset with
    | none => exact Or.inl ⟨rfl, rfl, rfl⟩
    | some r =>
      obtain ⟨r1, r2, _⟩ := irq_demo_read_keeps_counters s room count offset r hr
      exact Or.inl ⟨r1, r2, irq_demo_read_keeps_pending s room count offset r hr⟩
  | report => exact Or.inl ⟨rfl, rfl, rfl⟩

theorem on_events_cons (op : Op) (ops : List Op) :
    on_events (op :: ops) = on_events ops + if op.fires = true then 1 else 0 := by
  unfold on_events
  rw [List.countP_cons]

/-- Along a run without reset in which the top half runs at most up to
`INT_MAX`, the bottom half has never run more often than the top half. -/
theorem run_pipeline_invariant (ops : List Op) :
    ∀ s : State, (∀ op ∈ ops, Op.well_formed op) → (∀ op ∈ ops, ¬ Op.is_reset op) →
      0 ≤ s.bottom_half_count →
      s.bottom_half_count + pending_count s ≤ s.irq_count →
      s.irq_count + on_events ops ≤ INT_MAX →
      0 ≤ (run s ops).bottom_half_count ∧
      (run s ops).bottom_half_count + pending_count (run s ops) ≤ (run s ops).irq_count ∧
      (run s ops).irq_count ≤ s.irq_count + on_events ops := by
  induction ops with
  | nil =>
    intro s _ _ h0 h1 _
    exact ⟨h0, h1, by simp [run, on_events]⟩
  | cons op ops ih =>
    intro s hwf hnr h0 h1 h2
    have hwf1 := hwf op (List.mem_cons_self _ _)
    have hnr1 := hnr op (List.mem_cons_self _ _)
    have hwf2 : ∀ o ∈ ops, Op.well_formed o := fun o ho => hwf o (List.mem_cons_of_mem _ ho)
    have hnr2 : ∀ o ∈ ops, ¬ Op.is_reset o := fun o ho => hnr o (List.mem_cons_of_mem _ ho)
    rw [on_events_cons] at h2 ⊢
    unfold INT_MAX at h2 ih
    have hp : pending_count s ≤ 1 := by
      unfold pending_count
      split <;> omega
    show 0 ≤ (run (step s op) ops).bottom_half_count ∧
      (run (step s op) ops).bottom_half_count + pending_count (run (step s op) ops)
        ≤ (run (step s op) ops).irq_count ∧
      (run (step s op) ops).irq_count ≤ _
    rcases step_pipeline s op hwf1 hnr1 with ⟨e1, e2, e3⟩ | ⟨ef, e1, e2, e3⟩ | ⟨ef, ep, e1, e2, e3⟩
    · have hpc : pending_count (step s op) = pending_count s := by
        unfold pending_count
        rw [e3]
      obtain ⟨i1, i2, i3⟩ := ih (step s op) hwf2 hnr2 (by rw [e2]; exact h0)
        (by rw [e2, hpc, e1]; exact h1)
        (by rw [e1]; split at h2 <;> omega)
      refine ⟨i1, i2, ?_⟩
      rw [e1] at i3
      split <;> omega
    · rw [if_pos ef] at h2 ⊢
      have hw : wrap32 (s.irq_count + 1) = s.irq_count + 1 :=
        wrap32_of_int _ (by omega) (by omega)
      rw [hw] at e1
      have hpc : pending_count (step s op) = 1 := by
        unfold pending_count
        rw [e3]
        rfl
      obtain ⟨i1, i2, i3⟩ := ih (step s op) hwf2 hnr2 (by rw [e2]; exact h0)
        (by rw [e2, hpc, e1]; push_cast; omega)
        (by rw [e1]; push_cast at h2 ⊢; omega)
      refine ⟨i1, i2, ?_⟩
      rw [e1] at i3
      push_cast at i3 ⊢
      omega
    · have hp1 : pending_count s = 1 := by
        unfold pending_count
        rw [ep]
        rfl
      rw [hp1] at h1
      have hw : wrap32 (s.bottom_half_count + 1) = s.bottom_half_count + 1 :=
        wrap32_of_int _ (by omega) (by push_cast at h1 h2; split at h2 <;> omega)
      rw [hw] at e2
      have hpc : pending_count (step s op) = 0 := by
        unfold pending_count
        rw [e3]
        rfl
      obtain ⟨i1, i2, i3⟩ := ih (step s op) hwf2 hnr2 (by rw [e2]; omega)
        (by rw [e2, hpc, e1]; push_cast at h1 ⊢; omega)
        (by rw [e1]; split at h2 <;> omega)
      refine ⟨i1, i2, ?_⟩
      rw [e1] at i3
      split <;> omega

/-- The state after `n` writes of `trigger`: the bottom half has not run, and
the work item is pending once a write was made. -/
theorem run_trigger_writes_rest (n : Nat) (now : Int) :
    ∀ s : State,
      (run s (List.replicate n
        (Op.write now (List.replicate 16 'x') "trigger".toList 7))).bottom_half_count
        = s.bottom_half_count ∧
      (1 ≤ n → (run s (List.replicate n
        (Op.write now (List.replicate 16 'x') "trigger".toList 7))).regular_work_pending
        = true) ∧
      (s.regular_work_pending = true → (run s (List.replicate n
        (Op.write now (List.replicate 16 'x') "trigger".toList 7))).regular_work_pending
        = true) := by
  induction n with
  | zero =>
    intro s
    exact ⟨rfl, fun h => absurd h (by decide), fun h => h⟩
  | succ n ih =>
    intro s
    obtain ⟨_, _, b3, b4, _⟩ := button_irq_handler_fields s now
    obtain ⟨i1, _, i3⟩ := ih (button_irq_handler s now)
    have hrun : run s (List.replicate (n + 1)
        (Op.write now (List.replicate 16 'x') "trigger".toList 7))
        = run (button_irq_handler s now) (List.replicate n
          (Op.write now (List.replicate 16 'x') "trigger".toList 7)) := by
      show run (step s (Op.write now (List.replicate 16 'x') "trigger".toList 7)) _ = _
      rw [step_trigger_write]
    rw [hrun]
    exact ⟨i1.trans b4, fun _ => i3 b3, fun _ => i3 b3⟩

/-- Along a run without reset in which no counter is incremented at
`INT_MAX`, no counter ever goes down. -/
theorem trajectory_monotone_below_max (ops : List Op) :
    ∀ s : State, (∀ op ∈ ops, Op.well_formed op) → (∀ op ∈ ops, ¬ Op.is_reset op) →
      int_ok s.irq_count → int_ok s.bottom_half_count → int_ok s.delayed_work_count →
      (∀ p ∈ (trajectory s ops).zip ops, no_increment_at_max p.1 p.2) →
      List.Chain' counters_le (trajectory s ops) := by
  induction ops with
  | nil =>
    intro s _ _ _ _ _ _
    exact List.chain'_singleton s
  | cons op ops ih =>
    intro s hwf hnr a b c hno
    have hzip : (trajectory s (op :: ops)).zip (op :: ops)
        = (s, op) :: (trajectory (step s op) ops).zip ops := rfl
    rw [hzip] at hno
    obtain ⟨n1, n2, n3⟩ := hno (s, op) (List.mem_cons_self _ _)
    obtain ⟨k1, k2, k3⟩ := step_counters s op (hwf op (List.mem_cons_self _ _))
      (hnr op (List.mem_cons_self _ _))
    have hstep : ∀ v v2 : Int, int_ok v → (v = INT_MAX → v2 = INT_MAX) →
        (v2 = v ∨ v2 = wrap32 (v + 1)) → v ≤ v2 ∧ int_ok v2 := by
      intro v v2 hv hmax hor
      unfold int_ok at hv
      unfold INT_MAX at hmax
      rcases hor with h | h
      · rw [h]
        exact ⟨le_refl v, hv⟩
      · by_cases hlt : v < 2147483647
        · rw [h, wrap32_succ_of_lt v hv.1 hlt]
          unfold int_ok
          omega
        · have hv2 := hmax (by omega)
          rw [hv2]
          unfold int_ok
          omega
    obtain ⟨l1, i1⟩ := hstep _ _ a n1 k1
    obtain ⟨l2, i2⟩ := hstep _ _ b n2 k2
    obtain ⟨l3, i3⟩ := hstep _ _ c n3 k3
    have hrest := ih (step s op) (fun o ho => hwf o (List.mem_cons_of_mem _ ho))
      (fun o ho => hnr o (List.mem_cons_of_mem _ ho)) i1 i2 i3
      (fun p hp => hno p (List.mem_cons_of_mem _ hp))
    obtain ⟨l, hl⟩ := trajectory_head (step s op) ops
    show List.Chain' counters_le (s :: trajectory (step s op) ops)
    rw [hl] at hrest ⊢
    exact List.chain'_cons.mpr ⟨⟨l1, l2, l3⟩, hrest⟩

/-- The timer is idle after `irq_demo_exit`, and an expiry handled after it
runs nothing. -/
theorem exit_timer_idle (gpio : Bool) (s : State) (now : Int) :
    (irq_demo_exit gpio true s now).1.demo_timer_active = false ∧
    ∀ resolution t fwd_now : Int,
      run_hrtimer resolution (irq_demo_exit gpio true s now).1 t fwd_now
        = (irq_demo_exit gpio true s now).1 := by
  have hidle : (irq_demo_exit gpio true s now).1.demo_timer_active = false := by
    show (flush_workqueue (cancel_delayed_work_sync (hrtimer_cancel s)) now).demo_timer_active
      = false
    unfold flush_workqueue process_one_work
    split
    · rw [(demo_work_handler_fields _ now).2.2.2.2.2.2.2.2]
      rfl
    · rfl
  refine ⟨hidle, ?_⟩
  intro resolution t fwd_now
  unfold run_hrtimer
  rw [if_neg (by rw [hidle]; decide)]

end IrqDemo

namespace SimpleChar

open IrqDemo (wrap32 wrap64 copy_to_user copy_from_user NUL wrap32_of_int wrap64_of_s64
  copy_from_user_ok)

/-! ## Facts about `simple_char` -/

theorem size_t_of_nonneg (x : Int) (h0 : 0 ≤ x) (h1 : x < 18446744073709551616) :
    size_t x = x.toNat := by
  unfold size_t
  rw [Int.emod_eq_of_lt h0 h1]

theorem bytes_to_copy_in_range (count : Nat) (offset : Int) (h0 : 0 ≤ offset)
    (h1 : offset ≤ 1024) :
    bytes_to_copy count offset = ((min (1024 - offset).toNat count : Nat) : Int) := by
  unfold bytes_to_copy BUFFER_SIZE
  rw [wrap64_of_s64 _ (by omega) (by omega), size_t_of_nonneg _ (by omega) (by omega)]
  exact wrap32_of_int _ (by omega) (by omega)

theorem bytes_to_copy_past_end (count : Nat) (offset : Int) (h0 : 1024 < offset)
    (h1 : offset < 9223372036854775808) (hc : count < 2147483648) :
    bytes_to_copy count offset = (count : Int) := by
  unfold bytes_to_copy BUFFER_SIZE size_t
  rw [wrap64_of_s64 _ (by omega) (by omega)]
  have hm : (1024 - offset) % 18446744073709551616 = 18446744073709551616 + (1024 - offset) := by
    rw [← Int.add_mul_emod_self_left (1024 - offset) 18446744073709551616 1]
    rw [Int.emod_eq_of_lt (by omega) (by omega)]
    ring
  rw [hm]
  have hmin : min (18446744073709551616 + (1024 - offset)).toNat count = count := by omega
  rw [hmin]
  exact wrap32_of_int _ (by omega) (by omega)

theorem simple_write_ok (device_buffer user_buffer : List Char) (count : Nat) (offset : Int)
    (hlen : device_buffer.length = 1024) (h0 : 0 ≤ offset) (h1 : offset < 1024)
    (hcount : 1 ≤ count)
    (hcopy : min (1024 - offset).toNat count ≤ user_buffer.length) :
    simple_write device_buffer user_buffer count offset =
      some { device_buffer :=
               device_buffer.take offset.toNat ++
                 user_buffer.take (min (1024 - offset).toNat count) ++
                 device_buffer.drop (offset.toNat + min (1024 - offset).toNat count),
             offset := offset + (min (1024 - offset).toNat count : Nat),
             ret := (min (1024 - offset).toNat count : Nat) } := by
  unfold simple_write
  rw [bytes_to_copy_in_range count offset h0 (by omega)]
  generalize hk : min (1024 - offset).toNat count = k at hcopy ⊢
  have hk1 : 1 ≤ k := by omega
  have hk2 : (k : Int) + offset ≤ 1024 := by omega
  simp only [Int.toNat_ofNat]
  rw [if_neg (by omega), if_neg (by omega),
    copy_from_user_ok _ _ k (by rw [List.length_drop]; omega) hcopy]
  simp only [Option.some_bind, Nat.cast_zero]
  rw [wrap32_of_int 0 (by omega) (by omega), sub_zero, wrap32_of_int _ (by omega) (by omega),
    wrap64_of_s64 _ (by omega) (by omega), List.drop_drop, List.append_assoc]

theorem simple_read_ok (device_buffer : List Char) (room count : Nat) (offset : Int)
    (hlen : device_buffer.length = 1024) (h0 : 0 ≤ offset) (h1 : offset < 1024)
    (hcount : 1 ≤ count) (hroom : min (1024 - offset).toNat count ≤ room) :
    simple_read device_buffer room count offset =
      some { data := (device_buffer.drop offset.toNat).take (min (1024 - offset).toNat count),
             offset := offset + (min (1024 - offset).toNat count : Nat),
             ret := (min (1024 - offset).toNat count : Nat) } := by
  unfold simple_read
  rw [bytes_to_copy_in_range count offset h0 (by omega)]
  generalize hk : min (1024 - offset).toNat count = k at hroom ⊢
  have hk1 : 1 ≤ k := by omega
  have hk2 : (k : Int) + offset ≤ 1024 := by omega
  simp only [Int.toNat_ofNat]
  rw [if_neg (by omega), if_neg (by omega)]
  unfold copy_to_user
  rw [if_pos (by rw [List.length_drop]; omega)]
  simp only [Option.some_bind]
  have hmin : k - min k room = 0 := by omega
  rw [hmin, Nat.cast_zero, wrap32_of_int 0 (by omega) (by omega), sub_zero,
    wrap32_of_int _ (by omega) (by omega), wrap64_of_s64 _ (by omega) (by omega)]
  have htake : List.take room (List.take k (List.drop offset.toNat device_buffer))
      = List.take k (List.drop offset.toNat device_buffer) := by
    rw [List.take_take]
    congr 1
    omega
  rw [htake]

theorem simple_read_eof (device_buffer : List Char) (room count : Nat) (offset : Int)
    (hb : bytes_to_copy count offset ≤ 0) :
    simple_read device_buffer room count offset = some { data := [], offset := offset, ret := 0 } := by
  unfold simple_read
  rw [if_pos hb]

theorem simple_read_past_end (device_buffer : List Char) (room count : Nat) (offset : Int)
    (hlen : device_buffer.length = 1024) (h0 : 1024 < offset)
    (h1 : offset < 9223372036854775808) (hc1 : 1 ≤ count) (hc : count < 2147483648) :
    simple_read device_buffer room count offset = none := by
  unfold simple_read
  rw [bytes_to_copy_past_end count offset h0 h1 hc]
  simp only [Int.toNat_ofNat]
  rw [if_neg (by omega), if_neg (by omega)]
  unfold copy_to_user
  rw [if_neg (by rw [List.length_drop]; omega)]
  rfl

theorem simple_write_past_end (device_buffer user_buffer : List Char) (count : Nat)
    (offset : Int) (hlen : device_buffer.length = 1024) (h0 : 1024 < offset)
    (h1 : offset < 9223372036854775808) (hc1 : 1 ≤ count) (hc : count < 2147483648) :
    simple_write device_buffer user_buffer count offset = none := by
  unfold simple_write
  rw [bytes_to_copy_past_end count offset h0 h1 hc]
  simp only [Int.toNat_ofNat]
  rw [if_neg (by omega), if_neg (by omega)]
  unfold copy_from_user
  rw [if_neg (by rw [List.length_drop]; omega)]
  rfl

theorem seek_to_in_range (f_pos new_pos : Int) (h0 : 0 ≤ new_pos) (h1 : new_pos ≤ 1024) :
    seek_to f_pos new_pos = { f_pos := new_pos, ret := new_pos } := by
  unfold seek_to BUFFER_SIZE
  rw [if_neg (by omega)]

theorem seek_to_out_of_range (f_pos new_pos : Int) (h : new_pos < 0 ∨ 1024 < new_pos) :
    seek_to f_pos new_pos = { f_pos := f_pos, ret := -22 } := by
  unfold seek_to BUFFER_SIZE EINVAL
  rw [if_pos (by omega)]

theorem wrap64_range (x : Int) :
    -9223372036854775808 ≤ wrap64 x ∧ wrap64 x < 9223372036854775808 := by
  unfold wrap64
  omega

theorem wrap64_in_buffer_iff (x : Int) (hlo : -9223372036854775808 ≤ x)
    (hhi : x < 9223372036854775808 + 1025) :
    (0 ≤ wrap64 x ∧ wrap64 x ≤ 1024) ↔ (0 ≤ x ∧ x ≤ 1024) := by
  by_cases hx : x < 9223372036854775808
  · rw [wrap64_of_s64 x hlo hx]
  · have hw : wrap64 x = x - 18446744073709551616 := by
      unfold wrap64
      omega
    rw [hw]
    omega

theorem simple_write_nospace (device_buffer user_buffer : List Char) (count : Nat)
    (offset : Int) (hb : bytes_to_copy count offset ≤ 0) :
    simple_write device_buffer user_buffer count offset =
      some { device_buffer := device_buffer, offset := offset, ret := -28 } := by
  unfold simple_write
  rw [if_pos hb]
  rfl

end SimpleChar

namespace SyncDemo

open IrqDemo (wrap32 atomic_inc copy_from_user store strncmp cstr NUL EFAULT int_ok INT_MAX
  strncmp_cmd_buffer copy_from_user_ok copy_from_user_fault store_terminator wrap32_of_int
  wrap32_int_ok wrap32_wrap32_add)

/-! ## Facts about `sync_demo` -/

/-- Closed form of `sync_demo_write` when the copy from the caller succeeds. -/
theorem sync_demo_write_ok (s : State) (stack user_buffer : List Char) (count : Nat)
    (hstack : stack.length = 16) (hcopy : min count 15 ≤ user_buffer.length) :
    sync_demo_write s stack user_buffer count =
      some (if "reset".toList <+: user_buffer.take count then reset_counters s else s,
        ((min count 15 : Nat) : Int)) := by
  have hk : min count 15 < stack.length := by omega
  have hr := strncmp_cmd_buffer "reset" 5 stack user_buffer count (by decide) (by decide)
    (by decide) hstack hcopy
  unfold sync_demo_write
  simp only [Nat.add_one_sub_one, copy_from_user_ok stack user_buffer _ (Nat.le_of_lt hk) hcopy,
    store_terminator stack user_buffer _ hk hcopy, ne_eq, not_true_eq_false, if_false]
  by_cases h2 : "reset".toList <+: user_buffer.take count
  · rw [if_pos (hr.mpr h2), if_pos h2]
  · rw [if_neg (fun h => h2 (hr.mp h)), if_neg h2]

/-- Closed form of `sync_demo_write` when the copy from the caller faults. -/
theorem sync_demo_write_fault (s : State) (stack user_buffer : List Char) (count : Nat)
    (hstack : stack.length = 16) (hfault : user_buffer.length < min count 15) :
    sync_demo_write s stack user_buffer count = some (s, -EFAULT) := by
  have hk : min count 15 ≤ stack.length := by omega
  obtain ⟨b, n, hb, hn⟩ := copy_from_user_fault stack user_buffer _ hk hfault
  unfold sync_demo_write
  simp only [Nat.add_one_sub_one, hb, ne_eq, hn, not_false_eq_true, if_true]

/-- One pass of the thread on counters that agree. -/
theorem loop_body_of_agree (s : State) (h : counters_agree s) :
    loop_body s =
      { atomic_counter := wrap32 (s.atomic_counter + 1),
        counter_values := [wrap32 (s.atomic_counter + 1), wrap32 (s.atomic_counter + 1),
          wrap32 (s.atomic_counter + 1), wrap32 (s.atomic_counter + 1)] } := by
  unfold counters_agree at h
  unfold loop_body post_inc atomic_inc
  simp [h]

/-- The `reset` branch on counters that agree. -/
theorem reset_counters_of_agree (s : State) (h : counters_agree s) :
    reset_counters s = { atomic_counter := 0, counter_values := [0, 0, 0, 0] } := by
  unfold counters_agree at h
  unfold reset_counters
  simp [h]

/-- The state a `write` leaves when its local array has the declared size. -/
theorem sync_step_write (s : State) (stack user_buffer : List Char) (count : Nat)
    (hstack : stack.length = 16) :
    step s (Step.write stack user_buffer count) =
      if min count 15 ≤ user_buffer.length ∧ "reset".toList <+: user_buffer.take count then
        reset_counters s
      else s := by
  show ((sync_demo_write s stack user_buffer count).map fun r => r.1).getD s = _
  by_cases hcopy : min count 15 ≤ user_buffer.length
  · rw [sync_demo_write_ok s stack user_buffer count hstack hcopy]
    by_cases hr : "reset".toList <+: user_buffer.take count
    · rw [if_pos hr, if_pos ⟨hcopy, hr⟩]
      rfl
    · rw [if_neg hr, if_neg (fun h => hr h.2)]
      rfl
  · rw [sync_demo_write_fault s stack user_buffer count hstack (by omega),
      if_neg (fun h => hcopy h.1)]
    rfl

/-- Every step keeps the five counters equal and within `int`. -/
theorem step_agree (s : State) (st : Step) (hwf : st.well_formed) (h : counters_agree s)
    (hi : int_ok s.atomic_counter) :
    counters_agree (step s st) ∧ int_ok (step s st).atomic_counter := by
  cases st with
  | iteration =>
    rw [show step s Step.iteration = loop_body s from rfl, loop_body_of_agree s h]
    exact ⟨rfl, wrap32_int_ok _⟩
  | write stack user_buffer count =>
    rw [sync_step_write s stack user_buffer count hwf]
    split
    · rw [reset_counters_of_agree s h]
      exact ⟨rfl, by decide⟩
    · exact ⟨h, hi⟩

/-- Every run from counters that agree ends in counters that agree. -/
theorem run_agree (steps : List Step) :
    ∀ s : State, (∀ st ∈ steps, Step.well_formed st) → counters_agree s →
      int_ok s.atomic_counter →
      counters_agree (run s steps) ∧ int_ok (run s steps).atomic_counter := by
  induction steps with
  | nil =>
    intro s _ h hi
    exact ⟨h, hi⟩
  | cons st steps ih =>
    intro s hwf h hi
    obtain ⟨a1, a2⟩ := step_agree s st (hwf st (List.mem_cons_self _ _)) h hi
    exact ih (step s st) (fun x hx => hwf x (List.mem_cons_of_mem _ hx)) a1 a2

/-- The state after `n` passes of the thread with no write in between. -/
theorem demo_thread_fn_closed (n : Nat) :
    ∀ s : State, counters_agree s → int_ok s.atomic_counter →
      demo_thread_fn n s =
        { atomic_counter := wrap32 (s.atomic_counter + n),
          counter_values := [wrap32 (s.atomic_counter + n), wrap32 (s.atomic_counter + n),
            wrap32 (s.atomic_counter + n), wrap32 (s.atomic_counter + n)] } := by
  induction n with
  | zero =>
    intro s h hi
    unfold int_ok at hi
    unfold counters_agree at h
    show s = _
    rw [Nat.cast_zero, add_zero, wrap32_of_int _ hi.1 hi.2, ← h]
  | succ n ih =>
    intro s h hi
    show demo_thread_fn n (loop_body s) = _
    have hb := loop_body_of_agree s h
    have he : wrap32 (wrap32 (s.atomic_counter + 1) + (n : Int))
        = wrap32 (s.atomic_counter + ((n + 1 : Nat) : Int)) := by
      rw [wrap32_wrap32_add]
      congr 1
      push_cast
      omega
    rw [ih (loop_body s) (by rw [hb]; rfl) (by rw [hb]; exact wrap32_int_ok _), hb]
    simp only [he]

end SyncDemo

open IrqDemo

/-! ## Claims -/

/-- C1 (amended): for every state and every readable write whose first seven
bytes are `trigger`, whatever follows, `irq_demo_write` runs
`button_irq_handler` once: `irq_count` becomes the 32-bit wrap of
`irq_count + 1`, which is `irq_count + 1` for every `int` value below
`INT_MAX`; `last_irq_time` is the clock value; `regular_work` is pending;
`bottom_half_count`, `delayed_work_count` and `last_bh_time` are unchanged. -/
theorem C1_trigger_runs_handler_once (s : State) (now : Int) (stack user_buffer : List Char)
    (count : Nat) (hstack : stack.length = 16) (hcopy : min count 15 ≤ user_buffer.length)
    (hcmd : "trigger".toList <+: user_buffer.take count) :
    ∃ s2, irq_demo_write s now stack user_buffer count = some (s2, ((min count 15 : Nat) : Int)) ∧
      s2 = button_irq_handler s now ∧
      s2.irq_count = wrap32 (s.irq_count + 1) ∧
      (-2147483648 ≤ s.irq_count → s.irq_count < INT_MAX → s2.irq_count = s.irq_count + 1) ∧
      s2.last_irq_time = now ∧
      s2.regular_work_pending = true ∧
      s2.bottom_half_count = s.bottom_half_count ∧
      s2.delayed_work_count = s.delayed_work_count ∧
      s2.last_bh_time = s.last_bh_time := by
  obtain ⟨h1, h2, h3, h4, h5, h6, _⟩ := button_irq_handler_fields s now
  refine ⟨button_irq_handler s now, ?_, rfl, h1, ?_, h2, h3, h4, h5, h6⟩
  · rw [irq_demo_write_ok s now stack user_buffer count hstack hcopy, if_pos hcmd]
  · intro hlo hhi
    rw [h1]
    unfold INT_MAX at hhi
    exact wrap32_of_int _ (by omega) (by omega)

/-- Witness of C1: the seven bytes `trigger` written in the load state. -/
theorem C1_trigger_runs_handler_once_witness :
    ∃ s2, irq_demo_write State.init 5 (List.replicate 16 'x') "trigger".toList 7
        = some (s2, ((min 7 15 : Nat) : Int)) ∧
      s2 = button_irq_handler State.init 5 ∧
      s2.irq_count = wrap32 (State.init.irq_count + 1) ∧
      (-2147483648 ≤ State.init.irq_count → State.init.irq_count < INT_MAX →
        s2.irq_count = State.init.irq_count + 1) ∧
      s2.last_irq_time = 5 ∧
      s2.regular_work_pending = true ∧
      s2.bottom_half_count = State.init.bottom_half_count ∧
      s2.delayed_work_count = State.init.delayed_work_count ∧
      s2.last_bh_time = State.init.last_bh_time :=
  C1_trigger_runs_handler_once State.init 5 (List.replicate 16 'x') "trigger".toList 7
    (by decide) (by decide) (by decide)

/-- Counterexample to C1 as stated: with `irq_count` at `INT_MAX` a write of
`trigger` leaves `irq_count` at `-2147483648`, not at `INT_MAX + 1`. -/
theorem C1_counterexample :
    "trigger".toList <+: "trigger".toList.take 7 ∧
    State.saturated.irq_count = 2147483647 ∧
    (irq_demo_write State.saturated 5000000000200 (List.replicate 16 'x')
        "trigger".toList 7).map (fun r => r.1.irq_count) = some (-2147483648) ∧
    (-2147483648 : Int) ≠ 2147483647 + 1 := by
  decide

/-- C2: for every prior state, a readable write that begins with `reset`
leaves all three counters at 0, and a read from position 0 into a buffer that
holds the whole text returns the snapshot with all three counters shown as 0. -/
theorem C2_reset_then_read_shows_zero (s : State) (now : Int) (stack user_buffer : List Char)
    (count room n : Nat) (hstack : stack.length = 16)
    (hcopy : min count 15 ≤ user_buffer.length)
    (hcmd : "reset".toList <+: user_buffer.take count) (hroom : 56 ≤ room) (hn : 56 ≤ n) :
    ∃ s2, irq_demo_write s now stack user_buffer count = some (s2, ((min count 15 : Nat) : Int)) ∧
      s2.irq_count = 0 ∧ s2.bottom_half_count = 0 ∧ s2.delayed_work_count = 0 ∧
      (irq_demo_read s2 room n 0).map (fun r => r.data) =
        some "IRQ count: 0\nBottom-half count: 0\nDelayed work count: 0\n".toList := by
  have hnt := reset_excludes_trigger _ hcmd
  refine ⟨counters_cleared s, ?_, rfl, rfl, rfl, ?_⟩
  · rw [irq_demo_write_ok s now stack user_buffer count hstack hcopy, if_neg hnt, if_pos hcmd]
  · have hz : int_ok 0 := by unfold int_ok; omega
    rw [irq_demo_read_ok _ room n 0 hz hz hz (le_refl 0)]
    have hsnap : snapshot (counters_cleared s)
        = "IRQ count: 0\nBottom-half count: 0\nDelayed work count: 0\n".toList := by
      rw [snapshot_eq]
      have e1 : (counters_cleared s).irq_count = 0 := rfl
      have e2 : (counters_cleared s).bottom_half_count = 0 := rfl
      have e3 : (counters_cleared s).delayed_work_count = 0 := rfl
      rw [e1, e2, e3]
      decide
    have hlen : "IRQ count: 0\nBottom-half count: 0\nDelayed work count: 0\n".toList.length
        = 56 := by decide
    have hamt : read_amount (counters_cleared s) room n 0 = 56 := by
      unfold read_amount
      rw [hsnap, hlen]
      have : (0 : Int).toNat = 0 := rfl
      omega
    simp only [Option.map_some', hamt, hsnap]
    rw [← hlen]
    simp only [Int.toNat_zero, List.drop_zero, List.take_length]

/-- Witness of C2: `reset` written in a state with non-zero counters. -/
theorem C2_reset_then_read_shows_zero_witness :
    ∃ s2, irq_demo_write State.sample 5 (List.replicate 16 'x') "reset".toList 5
        = some (s2, ((min 5 15 : Nat) : Int)) ∧
      s2.irq_count = 0 ∧ s2.bottom_half_count = 0 ∧ s2.delayed_work_count = 0 ∧
      (irq_demo_read s2 1024 1023 0).map (fun r => r.data) =
        some "IRQ count: 0\nBottom-half count: 0\nDelayed work count: 0\n".toList :=
  C2_reset_then_read_shows_zero State.sample 5 (List.replicate 16 'x') "reset".toList 5 1024 1023
    (by decide) (by decide) (by decide) (by decide) (by decide)

/-- C3 (amended): for every prior state, a readable write that begins with
`reset` leaves `last_irq_time` and `last_bh_time` as they were, so the report
of `irq_proc_show` afterwards shows the same latency figure as before, and
shows none exactly when one of the two timestamps was unset (zero) before. -/
theorem C3_reset_keeps_timestamps (s : State) (now : Int) (stack user_buffer : List Char)
    (count : Nat) (hstack : stack.length = 16) (hcopy : min count 15 ≤ user_buffer.length)
    (hcmd : "reset".toList <+: user_buffer.take count) :
    ∃ s2, irq_demo_write s now stack user_buffer count = some (s2, ((min count 15 : Nat) : Int)) ∧
      s2.last_irq_time = s.last_irq_time ∧
      s2.last_bh_time = s.last_bh_time ∧
      latency_figures (irq_proc_show s2 []).1 = latency_figures (irq_proc_show s []).1 ∧
      (latency_figures (irq_proc_show s2 []).1 = [] ↔
        (s.last_irq_time = 0 ∨ s.last_bh_time = 0)) := by
  have hnt := reset_excludes_trigger _ hcmd
  refine ⟨counters_cleared s, ?_, rfl, rfl, ?_, ?_⟩
  · rw [irq_demo_write_ok s now stack user_buffer count hstack hcopy, if_neg hnt, if_pos hcmd]
  · rw [latency_figures_show, latency_figures_show]
    rfl
  · rw [latency_figures_show]
    have e1 : (counters_cleared s).last_irq_time = s.last_irq_time := rfl
    have e2 : (counters_cleared s).last_bh_time = s.last_bh_time := rfl
    rw [e1, e2]
    by_cases h1 : s.last_irq_time = 0 <;> by_cases h2 : s.last_bh_time = 0 <;> simp [h1, h2]

/-- Witness of C3: `reset` written while both timestamps are recorded. -/
theorem C3_reset_keeps_timestamps_witness :
    ∃ s2, irq_demo_write State.sample 5 (List.replicate 16 'x') "reset".toList 5
        = some (s2, ((min 5 15 : Nat) : Int)) ∧
      s2.last_irq_time = State.sample.last_irq_time ∧
      s2.last_bh_time = State.sample.last_bh_time ∧
      latency_figures (irq_proc_show s2 []).1
        = latency_figures (irq_proc_show State.sample []).1 ∧
      (latency_figures (irq_proc_show s2 []).1 = [] ↔
        (State.sample.last_irq_time = 0 ∨ State.sample.last_bh_time = 0)) :=
  C3_reset_keeps_timestamps State.sample 5 (List.replicate 16 'x') "reset".toList 5
    (by decide) (by decide) (by decide)

/-- Counterexample to C3 as stated: after `reset` in a state with
`last_irq_time = 100` and `last_bh_time = 150` both timestamps are still
there and the report shows the latency figure 50. -/
theorem C3_counterexample :
    "reset".toList <+: "reset".toList.take 5 ∧
    (irq_demo_write State.sample 5 (List.replicate 16 'x') "reset".toList 5).map
      (fun r => (r.1.last_irq_time, r.1.last_bh_time, latency_figures (irq_proc_show r.1 []).1))
      = some (100, 150, [50]) := by
  decide

/-- C4: for every readable input of at most 15 bytes that begins with neither
`trigger` nor `reset`, `irq_demo_write` leaves the whole state (counters,
timestamps, work item) as it was and returns the number of bytes received. -/
theorem C4_unknown_command_is_noop (s : State) (now : Int) (stack user_buffer : List Char)
    (count : Nat) (hstack : stack.length = 16) (hlen : count ≤ 15)
    (hread : count ≤ user_buffer.length)
    (ht : ¬ "trigger".toList <+: user_buffer.take count)
    (hr : ¬ "reset".toList <+: user_buffer.take count) :
    irq_demo_write s now stack user_buffer count = some (s, (count : Int)) := by
  have hk : min count 15 = count := by omega
  rw [irq_demo_write_ok s now stack user_buffer count hstack (by omega), if_neg ht, if_neg hr, hk]

/-- Witness of C4: the four bytes `ping` return 4 and change nothing. -/
theorem C4_unknown_command_is_noop_witness :
    irq_demo_write State.sample 5 (List.replicate 16 'x') "ping".toList 4
      = some (State.sample, ((4 : Nat) : Int)) :=
  C4_unknown_command_is_noop State.sample 5 (List.replicate 16 'x') "ping".toList 4
    (by decide) (by decide) (by decide) (by decide) (by decide)

/-- C5: for every write whose first `min count 15` bytes can be copied,
`irq_demo_write` returns exactly `min count 15`, which is at most 15; no store
leaves the 16-byte array (the result is not `none`); and the outcome depends
only on those first `min count 15` bytes, not on later bytes of the caller or
on what the array held before. -/
theorem C5_write_consumes_at_most_cap (s : State) (now : Int) (stack user_buffer : List Char)
    (count : Nat) (hstack : stack.length = 16) (hcopy : min count 15 ≤ user_buffer.length) :
    (∃ s2, irq_demo_write s now stack user_buffer count
        = some (s2, ((min count 15 : Nat) : Int))) ∧
    min count 15 ≤ 15 ∧ min count 15 < stack.length ∧
    (∀ stack2 user2 : List Char, stack2.length = 16 →
      user2.take (min count 15) = user_buffer.take (min count 15) →
      irq_demo_write s now stack2 user2 count = irq_demo_write s now stack user_buffer count) := by
  refine ⟨⟨_, irq_demo_write_ok s now stack user_buffer count hstack hcopy⟩, by omega, by omega, ?_⟩
  intro stack2 user2 hstack2 htake
  have hcopy2 : min count 15 ≤ user2.length := by
    have h := congrArg List.length htake
    simp only [List.length_take] at h
    omega
  have ht : "trigger".toList <+: user2.take count ↔ "trigger".toList <+: user_buffer.take count := by
    rw [prefix_take_cap "trigger".toList user2 count (by decide),
      prefix_take_cap "trigger".toList user_buffer count (by decide), htake]
  have hr : "reset".toList <+: user2.take count ↔ "reset".toList <+: user_buffer.take count := by
    rw [prefix_take_cap "reset".toList user2 count (by decide),
      prefix_take_cap "reset".toList user_buffer count (by decide), htake]
  rw [irq_demo_write_ok s now stack user_buffer count hstack hcopy,
    irq_demo_write_ok s now stack2 user2 count hstack2 hcopy2]
  simp only [ht, hr]

/-- Witness of C5: a 20-byte write of which 15 bytes are taken. -/
theorem C5_write_consumes_at_most_cap_witness :
    (∃ s2, irq_demo_write State.sample 5 (List.replicate 16 'x') "trigger-and-more-bytes".toList 20
        = some (s2, ((min 20 15 : Nat) : Int))) ∧
    min 20 15 ≤ 15 ∧ min 20 15 < (List.replicate 16 'x').length ∧
    (∀ stack2 user2 : List Char, stack2.length = 16 →
      user2.take (min 20 15) = "trigger-and-more-bytes".toList.take (min 20 15) →
      irq_demo_write State.sample 5 stack2 user2 20
        = irq_demo_write State.sample 5 (List.replicate 16 'x')
            "trigger-and-more-bytes".toList 20) :=
  C5_write_consumes_at_most_cap State.sample 5 (List.replicate 16 'x')
    "trigger-and-more-bytes".toList 20 (by decide) (by decide)

/-- C6 (amended): `irq_demo_write` returns on every input; the result is the
non-negative byte count `min count 15` when the first `min count 15` bytes can
be copied from the caller, and the error code `-EFAULT`, with the state
unchanged, when they cannot. -/
theorem C6_write_total_with_efault (s : State) (now : Int) (stack user_buffer : List Char)
    (count : Nat) (hstack : stack.length = 16) :
    ∃ s2 ret, irq_demo_write s now stack user_buffer count = some (s2, ret) ∧
      ((min count 15 ≤ user_buffer.length ∧ ret = ((min count 15 : Nat) : Int) ∧ 0 ≤ ret) ∨
       (user_buffer.length < min count 15 ∧ ret = -EFAULT ∧ ret < 0 ∧ s2 = s)) := by
  by_cases hcopy : min count 15 ≤ user_buffer.length
  · exact ⟨_, _, irq_demo_write_ok s now stack user_buffer count hstack hcopy,
      Or.inl ⟨hcopy, rfl, by omega⟩⟩
  · have hfault : user_buffer.length < min count 15 := by omega
    exact ⟨_, _, irq_demo_write_fault s now stack user_buffer count hstack hfault,
      Or.inr ⟨hfault, rfl, by decide, rfl⟩⟩

/-- Witness of C6: a one-byte write from an unreadable address. -/
theorem C6_write_total_with_efault_witness :
    ∃ s2 ret, irq_demo_write State.sample 5 (List.replicate 16 'x') [] 1 = some (s2, ret) ∧
      ((min 1 15 ≤ ([] : List Char).length ∧ ret = ((min 1 15 : Nat) : Int) ∧ 0 ≤ ret) ∨
       (([] : List Char).length < min 1 15 ∧ ret = -EFAULT ∧ ret < 0 ∧ s2 = State.sample)) :=
  C6_write_total_with_efault State.sample 5 (List.replicate 16 'x') [] 1 (by decide)

/-- Counterexample to C6 as stated: a one-byte write whose byte cannot be
read returns the error code -14 (`-EFAULT`), not a byte count. -/
theorem C6_counterexample :
    (irq_demo_write State.init 5 (List.replicate 16 'x') [] 1).map (fun r => r.2)
      = some (-14) ∧ (-14 : Int) < 0 := by
  decide

/-- C7 (amended): for every state whose counters are `int` values, a read
from position 0 with room for the whole text returns exactly
`IRQ count: <irq_count>`, `Bottom-half count: <bottom_half_count>` and
`Delayed work count: <delayed_work_count>`, one per line, in that order and in
decimal; the return value is the length of that text and the counters are
not changed. -/
theorem C7_read_returns_labelled_snapshot (s : State) (room count : Nat)
    (h1 : int_ok s.irq_count) (h2 : int_ok s.bottom_half_count)
    (h3 : int_ok s.delayed_work_count)
    (hroom : (snapshot s).length ≤ room) (hcount : (snapshot s).length ≤ count) :
    ∃ r, irq_demo_read s room count 0 = some r ∧
      r.data = "IRQ count: ".toList ++ fmt_d s.irq_count ++
        "\nBottom-half count: ".toList ++ fmt_d s.bottom_half_count ++
        "\nDelayed work count: ".toList ++ fmt_d s.delayed_work_count ++ "\n".toList ∧
      r.ret = (r.data.length : Int) ∧
      r.offset = (r.data.length : Int) ∧
      r.state.irq_count = s.irq_count ∧
      r.state.bottom_half_count = s.bottom_half_count ∧
      r.state.delayed_work_count = s.delayed_work_count := by
  have hamt : read_amount s room count 0 = (snapshot s).length := by
    unfold read_amount
    have : (0 : Int).toNat = 0 := rfl
    omega
  have hdata : ((snapshot s).drop (0 : Int).toNat).take (read_amount s room count 0)
      = snapshot s := by
    rw [hamt]
    simp only [Int.toNat_zero, List.drop_zero, List.take_length]
  refine ⟨_, irq_demo_read_ok s room count 0 h1 h2 h3 (le_refl 0), ?_, ?_, ?_, rfl, rfl, rfl⟩
  · rw [hdata]
    exact snapshot_eq s
  · rw [hdata, hamt]
  · rw [hdata, hamt, zero_add]

/-- Witness of C7: a 1023-byte read in a state with non-zero counters. -/
theorem C7_read_returns_labelled_snapshot_witness :
    ∃ r, irq_demo_read State.sample 1024 1023 0 = some r ∧
      r.data = "IRQ count: ".toList ++ fmt_d State.sample.irq_count ++
        "\nBottom-half count: ".toList ++ fmt_d State.sample.bottom_half_count ++
        "\nDelayed work count: ".toList ++ fmt_d State.sample.delayed_work_count ++
        "\n".toList ∧
      r.ret = (r.data.length : Int) ∧
      r.offset = (r.data.length : Int) ∧
      r.state.irq_count = State.sample.irq_count ∧
      r.state.bottom_half_count = State.sample.bottom_half_count ∧
      r.state.delayed_work_count = State.sample.delayed_work_count :=
  C7_read_returns_labelled_snapshot State.sample 1024 1023 (by decide) (by decide) (by decide)
    (by decide) (by decide)

/-- Counterexample to C7 as stated: with counters 7, 6 and 2 a read returns
`IRQ count: 7`, `Bottom-half count: 6`, `Delayed work count: 2`, which is not
the text `event=7`, `drain=6`, `maintenance=2`. -/
theorem C7_counterexample :
    (irq_demo_read State.sample 1024 1023 0).map (fun r => r.data)
      = some "IRQ count: 7\nBottom-half count: 6\nDelayed work count: 2\n".toList ∧
    spec_snapshot State.sample = "event=7\ndrain=6\nmaintenance=2\n".toList ∧
    "IRQ count: 7\nBottom-half count: 6\nDelayed work count: 2\n".toList
      ≠ spec_snapshot State.sample := by
  refine ⟨?_, by decide, by decide⟩
  rw [irq_demo_read_ok State.sample 1024 1023 0 (by decide) (by decide) (by decide) (by decide)]
  decide

/-- C8: for every state whose counters are `int` values, every non-negative
file position and every `count` the caller has room for, with `len` the
length of the snapshot: at `offset ≥ len` the read returns 0 bytes and leaves
the position unchanged; below `len` it returns the `min (len - offset) count`
bytes of the snapshot that start at `offset` and advances the position by that
amount; the counters are not changed. Hence a reader that keeps reading
`count ≥ 1` bytes from position 0 collects the whole snapshot, and the read at
position `len` reports end of file. -/
theorem C8_read_window_and_eof (s : State) (room count : Nat) (offset : Int)
    (h1 : int_ok s.irq_count) (h2 : int_ok s.bottom_half_count)
    (h3 : int_ok s.delayed_work_count) (h0 : 0 ≤ offset) (hroom : count ≤ room) :
    (∃ r, irq_demo_read s room count offset = some r ∧
      r.state.irq_count = s.irq_count ∧
      r.state.bottom_half_count = s.bottom_half_count ∧
      r.state.delayed_work_count = s.delayed_work_count ∧
      (((snapshot s).length : Int) ≤ offset → r.ret = 0 ∧ r.data = [] ∧ r.offset = offset) ∧
      (offset < ((snapshot s).length : Int) →
        r.ret = ((min ((snapshot s).length - offset.toNat) count : Nat) : Int) ∧
        r.data = ((snapshot s).drop offset.toNat).take
          (min ((snapshot s).length - offset.toNat) count) ∧
        r.offset = offset + r.ret)) ∧
    (1 ≤ count → ∀ fuel, (snapshot s).length < fuel →
      read_all fuel s room count 0 = snapshot s) ∧
    (irq_demo_read s room count ((snapshot s).length : Int)).map (fun r => (r.ret, r.data))
      = some (0, []) := by
  have hamt : ∀ o : Int, read_amount s room count o
      = min ((snapshot s).length - o.toNat) count := by
    intro o
    unfold read_amount
    omega
  refine ⟨⟨_, irq_demo_read_ok s room count offset h1 h2 h3 h0, rfl, rfl, rfl, ?_, ?_⟩, ?_, ?_⟩
  · intro hge
    have hz : (snapshot s).length - offset.toNat = 0 := by omega
    simp only [hamt, hz, Nat.zero_min, List.take_zero, Nat.cast_zero, add_zero, and_self]
  · intro _
    simp only [hamt, and_self]
  · intro hcount fuel hfuel
    have h := read_all_from fuel s room count 0 h1 h2 h3 (le_refl 0) hcount hroom
      (by simpa using hfuel)
    simpa using h
  · rw [irq_demo_read_ok s room count _ h1 h2 h3 (by omega)]
    have hz : (snapshot s).length - (((snapshot s).length : Int)).toNat = 0 := by omega
    simp only [Option.map_some', hamt, hz, Nat.zero_min, List.take_zero, Nat.cast_zero]

/-- Witness of C8: a 10-byte read at position 7. -/
theorem C8_read_window_and_eof_witness :
    (∃ r, irq_demo_read State.sample 16 10 7 = some r ∧
      r.state.irq_count = State.sample.irq_count ∧
      r.state.bottom_half_count = State.sample.bottom_half_count ∧
      r.state.delayed_work_count = State.sample.delayed_work_count ∧
      (((snapshot State.sample).length : Int) ≤ 7 → r.ret = 0 ∧ r.data = [] ∧ r.offset = 7) ∧
      ((7 : Int) < ((snapshot State.sample).length : Int) →
        r.ret = ((min ((snapshot State.sample).length - (7 : Int).toNat) 10 : Nat) : Int) ∧
        r.data = ((snapshot State.sample).drop (7 : Int).toNat).take
          (min ((snapshot State.sample).length - (7 : Int).toNat) 10) ∧
        r.offset = 7 + r.ret)) ∧
    (1 ≤ 10 → ∀ fuel, (snapshot State.sample).length < fuel →
      read_all fuel State.sample 16 10 0 = snapshot State.sample) ∧
    (irq_demo_read State.sample 16 10 ((snapshot State.sample).length : Int)).map
      (fun r => (r.ret, r.data)) = some (0, []) :=
  C8_read_window_and_eof State.sample 16 10 7 (by decide) (by decide) (by decide) (by decide)
    (by decide)

/-- C9: for every state the report of `irq_proc_show` contains the three
counters, and it contains a latency figure exactly when both `last_irq_time`
and `last_bh_time` are set (non-zero); no figure is printed when either is
unset. When present, the figure is the `s64` difference of the two, which is
`last_bh_time - last_irq_time` for timestamps that are readings of the
monotonic clock. -/
theorem C9_report_latency_iff_both_set (s : State) :
    SeqItem.printf "Top-half (IRQ) count: %d\n" [s.irq_count] ∈ (irq_proc_show s []).1 ∧
    SeqItem.printf "Bottom-half (work) count: %d\n" [s.bottom_half_count]
      ∈ (irq_proc_show s []).1 ∧
    SeqItem.printf "Delayed work count: %d\n" [s.delayed_work_count]
      ∈ (irq_proc_show s []).1 ∧
    (latency_figures (irq_proc_show s []).1 ≠ [] ↔
      (s.last_irq_time ≠ 0 ∧ s.last_bh_time ≠ 0)) ∧
    (s.last_irq_time = 0 ∨ s.last_bh_time = 0 →
      latency_figures (irq_proc_show s []).1 = []) ∧
    (s.last_irq_time ≠ 0 ∧ s.last_bh_time ≠ 0 →
      latency_figures (irq_proc_show s []).1 = [ktime_sub s.last_bh_time s.last_irq_time]) ∧
    (ktime_ok s.last_irq_time → ktime_ok s.last_bh_time →
      s.last_irq_time ≠ 0 ∧ s.last_bh_time ≠ 0 →
      latency_figures (irq_proc_show s []).1 = [s.last_bh_time - s.last_irq_time]) := by
  obtain ⟨c1, c2, c3⟩ := irq_proc_show_counters s
  refine ⟨c1, c2, c3, ?_, ?_, ?_, ?_⟩
  · rw [latency_figures_show]
    by_cases h1 : s.last_irq_time = 0 <;> by_cases h2 : s.last_bh_time = 0 <;> simp [h1, h2]
  · intro h
    rw [latency_figures_show, if_neg (by
      intro hc
      rcases h with h | h
      · exact hc.1 h
      · exact hc.2 h)]
  · intro h
    rw [latency_figures_show, if_pos h]
  · intro hirq hbh h
    rw [latency_figures_show, if_pos h, ktime_sub_of_ok _ _ hbh hirq]

/-- C10: for every state, one run of the top half at clock value `t1`
followed by the run of its queued bottom half at a clock value `t2 ≥ t1`, with
no other top half in between, leaves `last_irq_time = t1` and
`last_bh_time = t2`; every latency figure the report then shows equals
`t2 - t1` and is non-negative, and a figure is shown whenever `t1` is not 0. -/
theorem C10_uncontended_latency_nonneg (s : State) (t1 t2 : Int) (h1 : ktime_ok t1)
    (h2 : ktime_ok t2) (hmono : t1 ≤ t2) :
    (process_one_work (button_irq_handler s t1) t2).last_irq_time = t1 ∧
    (process_one_work (button_irq_handler s t1) t2).last_bh_time = t2 ∧
    (∀ v ∈ latency_figures (irq_proc_show (process_one_work (button_irq_handler s t1) t2) []).1,
      v = t2 - t1 ∧ 0 ≤ v) ∧
    (t1 ≠ 0 →
      latency_figures (irq_proc_show (process_one_work (button_irq_handler s t1) t2) []).1
        = [t2 - t1]) := by
  obtain ⟨e1, e2, _⟩ := process_after_handler_fields s t1 t2
  have hfig := latency_figures_show (process_one_work (button_irq_handler s t1) t2)
  rw [e1, e2, ktime_sub_of_ok _ _ h2 h1] at hfig
  refine ⟨e1, e2, ?_, ?_⟩
  · intro v hv
    rw [hfig] at hv
    by_cases hc : t1 ≠ 0 ∧ t2 ≠ 0
    · rw [if_pos hc] at hv
      have hv2 : v = t2 - t1 := by simpa using hv
      exact ⟨hv2, by omega⟩
    · rw [if_neg hc] at hv
      exact absurd hv (List.not_mem_nil v)
  · intro hne
    have ht2 : t2 ≠ 0 := by
      unfold ktime_ok at h1
      omega
    rw [hfig, if_pos ⟨hne, ht2⟩]

/-- Witness of C10: top half at 1000 ns, bottom half at 1800 ns. -/
theorem C10_uncontended_latency_nonneg_witness :
    (process_one_work (button_irq_handler State.sample 1000) 1800).last_irq_time = 1000 ∧
    (process_one_work (button_irq_handler State.sample 1000) 1800).last_bh_time = 1800 ∧
    (∀ v ∈ latency_figures
        (irq_proc_show (process_one_work (button_irq_handler State.sample 1000) 1800) []).1,
      v = 1800 - 1000 ∧ 0 ≤ v) ∧
    ((1000 : Int) ≠ 0 →
      latency_figures
        (irq_proc_show (process_one_work (button_irq_handler State.sample 1000) 1800) []).1
        = [1800 - 1000]) :=
  C10_uncontended_latency_nonneg State.sample 1000 1800 (by decide) (by decide) (by decide)

/-- C12 (amended): each of the three counters is a 32-bit `int` count. For
every state whose counters are `int` values, an increment of a counter that
is below `INT_MAX` yields the value plus one, and a read from position 0 with
room for the text reports it; an increment from `2^31 - 1` wraps around to
`-2^31`. -/
theorem C12_counters_are_32_bit (s : State) (m : Nat → Nat) (now : Int) (room count : Nat)
    (h1 : int_ok s.irq_count) (h2 : int_ok s.bottom_half_count)
    (h3 : int_ok s.delayed_work_count) (hroom : 86 ≤ room) (hcount : 86 ≤ count) :
    (s.irq_count < INT_MAX →
      (button_irq_handler s now).irq_count = s.irq_count + 1 ∧
      (irq_demo_read (button_irq_handler s now) room count 0).map (fun r => r.data) =
        some ("IRQ count: ".toList ++ fmt_d (s.irq_count + 1) ++
          "\nBottom-half count: ".toList ++ fmt_d s.bottom_half_count ++
          "\nDelayed work count: ".toList ++ fmt_d s.delayed_work_count ++ "\n".toList)) ∧
    (s.bottom_half_count < INT_MAX →
      (demo_work_handler s now).bottom_half_count = s.bottom_half_count + 1 ∧
      (irq_demo_read (demo_work_handler s now) room count 0).map (fun r => r.data) =
        some ("IRQ count: ".toList ++ fmt_d s.irq_count ++
          "\nBottom-half count: ".toList ++ fmt_d (s.bottom_half_count + 1) ++
          "\nDelayed work count: ".toList ++ fmt_d s.delayed_work_count ++ "\n".toList)) ∧
    (s.delayed_work_count < INT_MAX →
      (demo_delayed_work_handler m s).delayed_work_count = s.delayed_work_count + 1 ∧
      (irq_demo_read (demo_delayed_work_handler m s) room count 0).map (fun r => r.data) =
        some ("IRQ count: ".toList ++ fmt_d s.irq_count ++
          "\nBottom-half count: ".toList ++ fmt_d s.bottom_half_count ++
          "\nDelayed work count: ".toList ++ fmt_d (s.delayed_work_count + 1) ++
          "\n".toList)) ∧
    atomic_inc 2147483647 = -2147483648 := by
  have hread : ∀ s2 : State, int_ok s2.irq_count → int_ok s2.bottom_half_count →
      int_ok s2.delayed_work_count →
      (irq_demo_read s2 room count 0).map (fun r => r.data) =
        some ("IRQ count: ".toList ++ fmt_d s2.irq_count ++
          "\nBottom-half count: ".toList ++ fmt_d s2.bottom_half_count ++
          "\nDelayed work count: ".toList ++ fmt_d s2.delayed_work_count ++ "\n".toList) := by
    intro s2 k1 k2 k3
    have hlen := snapshot_length_le s2 k1 k2 k3
    have hamt : read_amount s2 room count 0 = (snapshot s2).length := by
      unfold read_amount
      have : (0 : Int).toNat = 0 := rfl
      omega
    rw [irq_demo_read_ok s2 room count 0 k1 k2 k3 (le_refl 0)]
    simp only [Option.map_some', hamt, Int.toNat_zero, List.drop_zero, List.take_length]
    rw [snapshot_eq]
  unfold INT_MAX
  unfold int_ok at h1 h2 h3
  refine ⟨?_, ?_, ?_, by decide⟩
  · intro hlt
    obtain ⟨e1, _, _, e4, e5, _, _⟩ := button_irq_handler_fields s now
    have e1b : (button_irq_handler s now).irq_count = s.irq_count + 1 := by
      rw [e1]
      exact wrap32_succ_of_lt _ h1.1 hlt
    refine ⟨e1b, ?_⟩
    rw [hread _ (by rw [e1b]; unfold int_ok; omega) (by rw [e4]; exact h2)
      (by rw [e5]; exact h3), e1b, e4, e5]
  · intro hlt
    obtain ⟨e1, _, e3, e4, _⟩ := demo_work_handler_fields s now
    have e1b : (demo_work_handler s now).bottom_half_count = s.bottom_half_count + 1 := by
      rw [e1]
      exact wrap32_succ_of_lt _ h2.1 hlt
    refine ⟨e1b, ?_⟩
    rw [hread _ (by rw [e3]; exact h1) (by rw [e1b]; unfold int_ok; omega)
      (by rw [e4]; exact h3), e1b, e3, e4]
  · intro hlt
    obtain ⟨e1, e2, e3, _⟩ := demo_delayed_work_handler_fields m s
    have e1b : (demo_delayed_work_handler m s).delayed_work_count
        = s.delayed_work_count + 1 := by
      rw [e1]
      exact wrap32_succ_of_lt _ h3.1 hlt
    refine ⟨e1b, ?_⟩
    rw [hread _ (by rw [e2]; exact h1) (by rw [e3]; exact h2)
      (by rw [e1b]; unfold int_ok; omega), e1b, e2, e3]

/-- Witness of C12: the counters 7, 6 and 2. -/
theorem C12_counters_are_32_bit_witness :
    (State.sample.irq_count < INT_MAX →
      (button_irq_handler State.sample 200).irq_count = State.sample.irq_count + 1 ∧
      (irq_demo_read (button_irq_handler State.sample 200) 1024 1023 0).map (fun r => r.data) =
        some ("IRQ count: ".toList ++ fmt_d (State.sample.irq_count + 1) ++
          "\nBottom-half count: ".toList ++ fmt_d State.sample.bottom_half_count ++
          "\nDelayed work count: ".toList ++ fmt_d State.sample.delayed_work_count ++
          "\n".toList)) ∧
    (State.sample.bottom_half_count < INT_MAX →
      (demo_work_handler State.sample 200).bottom_half_count
        = State.sample.bottom_half_count + 1 ∧
      (irq_demo_read (demo_work_handler State.sample 200) 1024 1023 0).map (fun r => r.data) =
        some ("IRQ count: ".toList ++ fmt_d State.sample.irq_count ++
          "\nBottom-half count: ".toList ++ fmt_d (State.sample.bottom_half_count + 1) ++
          "\nDelayed work count: ".toList ++ fmt_d State.sample.delayed_work_count ++
          "\n".toList)) ∧
    (State.sample.delayed_work_count < INT_MAX →
      (demo_delayed_work_handler (fun n => (n + 3) / 4) State.sample).delayed_work_count
        = State.sample.delayed_work_count + 1 ∧
      (irq_demo_read (demo_delayed_work_handler (fun n => (n + 3) / 4) State.sample)
          1024 1023 0).map (fun r => r.data) =
        some ("IRQ count: ".toList ++ fmt_d State.sample.irq_count ++
          "\nBottom-half count: ".toList ++ fmt_d State.sample.bottom_half_count ++
          "\nDelayed work count: ".toList ++ fmt_d (State.sample.delayed_work_count + 1) ++
          "\n".toList)) ∧
    atomic_inc 2147483647 = -2147483648 :=
  C12_counters_are_32_bit State.sample (fun n => (n + 3) / 4) 200 1024 1023
    (by decide) (by decide) (by decide) (by decide) (by decide)

/-- Counterexample to C12 as stated: a timer expiry with `irq_count` at
`2^31 - 1` leaves `irq_count` at `-2^31`, not at `2^31`, and the read
endpoint reports `-2147483648`. -/
theorem C12_counterexample :
    State.saturated.irq_count = 2147483647 ∧
    (demo_timer_callback 1 State.saturated 5000000000200 5000000000300).1.irq_count
      = -2147483648 ∧
    (-2147483648 : Int) ≠ 2147483648 ∧
    (irq_demo_read (demo_timer_callback 1 State.saturated 5000000000200 5000000000300).1
        1024 1023 0).map (fun r => r.data)
      = some "IRQ count: -2147483648\nBottom-half count: 2147483647\nDelayed work count: 1000\n".toList := by
  refine ⟨by decide, by decide, by decide, ?_⟩
  rw [irq_demo_read_ok _ 1024 1023 0 (by decide) (by decide) (by decide) (by decide)]
  decide

/-- C13 (amended): for every state, one execution of `demo_work_handler`
turns `bottom_half_count` into the 32-bit wrap of `bottom_half_count + 1`,
which is `bottom_half_count + 1` for every `int` value below `INT_MAX`; it
sets `last_bh_time` to the clock value and leaves `irq_count`,
`delayed_work_count` and `last_irq_time` unchanged. -/
theorem C13_drain_body_effect (s : State) (now : Int) :
    (demo_work_handler s now).bottom_half_count = wrap32 (s.bottom_half_count + 1) ∧
    (-2147483648 ≤ s.bottom_half_count → s.bottom_half_count < INT_MAX →
      (demo_work_handler s now).bottom_half_count = s.bottom_half_count + 1) ∧
    (demo_work_handler s now).last_bh_time = now ∧
    (demo_work_handler s now).irq_count = s.irq_count ∧
    (demo_work_handler s now).delayed_work_count = s.delayed_work_count ∧
    (demo_work_handler s now).last_irq_time = s.last_irq_time := by
  obtain ⟨e1, e2, e3, e4, e5, _⟩ := demo_work_handler_fields s now
  refine ⟨e1, ?_, e2, e3, e4, e5⟩
  intro hlo hhi
  rw [e1]
  exact wrap32_succ_of_lt _ hlo hhi

/-- Counterexample to C13 as stated: with `bottom_half_count` at `INT_MAX`
one execution of `demo_work_handler` leaves it at `-2147483648`, not at
`INT_MAX + 1`. -/
theorem C13_counterexample :
    State.saturated.bottom_half_count = 2147483647 ∧
    (demo_work_handler State.saturated 5000000000400).bottom_half_count = -2147483648 ∧
    (-2147483648 : Int) ≠ 2147483647 + 1 := by
  decide

/-- C14 (amended): for every state, one run of `demo_delayed_work_handler`
turns `delayed_work_count` into the 32-bit wrap of `delayed_work_count + 1`,
which is `delayed_work_count + 1` for every `int` value below `INT_MAX`, and
touches no other counter or timestamp. When the worker runs it (the item was
pending and its pending bit has been cleared) the item is queued again with
the delay `msecs_to_jiffies(5000)`, the delay `irq_demo_init` queued it with
in the first place. -/
theorem C14_periodic_task_effect (m : Nat → Nat) (s : State) :
    (demo_delayed_work_handler m s).delayed_work_count
      = wrap32 (s.delayed_work_count + 1) ∧
    (-2147483648 ≤ s.delayed_work_count → s.delayed_work_count < INT_MAX →
      (demo_delayed_work_handler m s).delayed_work_count = s.delayed_work_count + 1) ∧
    (demo_delayed_work_handler m s).irq_count = s.irq_count ∧
    (demo_delayed_work_handler m s).bottom_half_count = s.bottom_half_count ∧
    (demo_delayed_work_handler m s).last_irq_time = s.last_irq_time ∧
    (demo_delayed_work_handler m s).last_bh_time = s.last_bh_time ∧
    (s.delayed_work = none → (demo_delayed_work_handler m s).delayed_work = some (m 5000)) ∧
    (∀ d, s.delayed_work = some d →
      (process_delayed_work m s).delayed_work = some (m 5000) ∧
      (process_delayed_work m s).delayed_work_count = wrap32 (s.delayed_work_count + 1)) ∧
    (∀ (gpio timer : Bool) (env : InitEnv), env.msecs_to_jiffies = m → all_steps_ok gpio env →
      (irq_demo_init gpio timer env).state.delayed_work = some (m 5000) ∧
      (process_delayed_work m (irq_demo_init gpio timer env).state).delayed_work
        = (irq_demo_init gpio timer env).state.delayed_work) := by
  obtain ⟨e1, e2, e3, e4, e5, _, e7⟩ := demo_delayed_work_handler_fields m s
  refine ⟨e1, ?_, e2, e3, e4, e5, ?_, ?_, ?_⟩
  · intro hlo hhi
    rw [e1]
    exact wrap32_succ_of_lt _ hlo hhi
  · intro hnone
    rw [e7, hnone]
  · intro d hd
    obtain ⟨p1, _, _, _, _, _, p7⟩ := process_delayed_work_fields m s d hd
    exact ⟨p7, p1⟩
  · intro gpio timer env hm hok
    have hinit := (init_success gpio timer env hok).2.1
    rw [hm] at hinit
    refine ⟨hinit, ?_⟩
    rw [(process_delayed_work_fields m _ _ hinit).2.2.2.2.2.2, hinit]

/-- Counterexample to C14 as stated: with `delayed_work_count` at `INT_MAX`
one run of the periodic task leaves it at `-2147483648`, not at
`INT_MAX + 1`. -/
theorem C14_counterexample :
    (process_delayed_work (fun n => (n + 3) / 4)
      { State.sample with delayed_work_count := 2147483647,
                          delayed_work := some 1250 }).delayed_work_count
      = -2147483648 ∧
    (-2147483648 : Int) ≠ 2147483647 + 1 := by
  decide

/-- C17: when `irq_demo_init` succeeds with the timer in use, the first
deadline of `demo_timer` is the start time plus `TIMER_PERIOD_NS`
(1,000,000,000 ns). On an expiry whose `hrtimer_forward_now` runs less than
one period after the deadline, the next deadline is the previous deadline plus
the period, which differs from the current time plus the period whenever the
callback is late at all; the callback always returns `HRTIMER_RESTART`, so the
timer is enqueued again. -/
theorem C17_timer_deadlines (gpio : Bool) (env : InitEnv) (resolution : Int) (s : State)
    (now fwd_now : Int) (hok : all_steps_ok gpio env) (hstart : ktime_ok env.start_now)
    (hstartfit : env.start_now + TIMER_PERIOD_NS ≤ KTIME_MAX)
    (hactive : s.demo_timer_active = true) (he : 0 ≤ s.demo_timer_expires)
    (hfwd : ktime_ok fwd_now) (hdue : s.demo_timer_expires ≤ fwd_now)
    (hlat : fwd_now - s.demo_timer_expires < TIMER_PERIOD_NS)
    (hres : resolution ≤ TIMER_PERIOD_NS)
    (hfit : s.demo_timer_expires + TIMER_PERIOD_NS ≤ KTIME_MAX) :
    (irq_demo_init gpio using_timer env).state.demo_timer_expires
      = env.start_now + 1000000000 ∧
    (irq_demo_init gpio using_timer env).state.demo_timer_active = true ∧
    (run_hrtimer resolution s now fwd_now).demo_timer_expires
      = s.demo_timer_expires + 1000000000 ∧
    (s.demo_timer_expires < fwd_now →
      (run_hrtimer resolution s now fwd_now).demo_timer_expires ≠ fwd_now + 1000000000) ∧
    (run_hrtimer resolution s now fwd_now).demo_timer_active = true ∧
    (demo_timer_callback resolution s now fwd_now).2 = hrtimer_restart.HRTIMER_RESTART := by
  obtain ⟨_, _, hinit⟩ := init_success gpio using_timer env hok
  obtain ⟨i1, i2⟩ := hinit rfl
  have hP : TIMER_PERIOD_NS = 1000000000 := rfl
  have hrun : run_hrtimer resolution s now fwd_now
      = { (button_irq_handler { s with demo_timer_active := false } now) with
          demo_timer_expires := s.demo_timer_expires + TIMER_PERIOD_NS,
          demo_timer_active := true } := by
    obtain ⟨k1, k2, _⟩ := button_irq_handler_keeps_timer { s with demo_timer_active := false } now
    unfold run_hrtimer demo_timer_callback
    rw [if_pos hactive]
    simp only [ns_to_ktime]
    rw [hrtimer_forward_within_interval resolution _ fwd_now TIMER_PERIOD_NS k2
      (by rw [k1]; exact he) hfwd (by rw [k1]; exact hdue) (by rw [k1]; exact hlat) hres
      (by rw [k1]; exact hfit), k1]
    simp
  refine ⟨?_, i2, ?_, ?_, ?_, rfl⟩
  · rw [i1]
    unfold ktime_ok at hstart
    rw [ns_to_ktime, ktime_add_safe_of_fits _ _ (by decide) hstart.1 (by omega), hP]
    omega
  · rw [hrun, hP]
  · intro hlate
    rw [hrun, hP]
    simp only []
    omega
  · rw [hrun]

/-- Witness of C17: a load at 2 s and an expiry handled 300 ns late. -/
theorem C17_timer_deadlines_witness :
    (irq_demo_init false using_timer InitEnv.all_ok).state.demo_timer_expires
      = InitEnv.all_ok.start_now + 1000000000 ∧
    (irq_demo_init false using_timer InitEnv.all_ok).state.demo_timer_active = true ∧
    (run_hrtimer 1 (irq_demo_init false true InitEnv.all_ok).state 3000000200
        3000000300).demo_timer_expires
      = (irq_demo_init false true InitEnv.all_ok).state.demo_timer_expires + 1000000000 ∧
    ((irq_demo_init false true InitEnv.all_ok).state.demo_timer_expires < 3000000300 →
      (run_hrtimer 1 (irq_demo_init false true InitEnv.all_ok).state 3000000200
          3000000300).demo_timer_expires ≠ 3000000300 + 1000000000) ∧
    (run_hrtimer 1 (irq_demo_init false true InitEnv.all_ok).state 3000000200
        3000000300).demo_timer_active = true ∧
    (demo_timer_callback 1 (irq_demo_init false true InitEnv.all_ok).state 3000000200
        3000000300).2 = hrtimer_restart.HRTIMER_RESTART :=
  C17_timer_deadlines false InitEnv.all_ok 1 (irq_demo_init false true InitEnv.all_ok).state
    3000000200 3000000300 (by decide) (by decide) (by decide) (by decide) (by decide)
    (by decide) (by decide) (by decide) (by decide) (by decide)

/-- C18: for every state and clock value, one run of `demo_timer_callback`
and one readable write that starts with `trigger` leave the same counters,
the same timestamps and the same work item: both are one run of
`button_irq_handler`. -/
theorem C18_timer_and_trigger_agree (s : State) (resolution now fwd_now : Int)
    (stack user_buffer : List Char) (count : Nat) (hstack : stack.length = 16)
    (hcopy : min count 15 ≤ user_buffer.length)
    (hcmd : "trigger".toList <+: user_buffer.take count) :
    ∃ sw, irq_demo_write s now stack user_buffer count
        = some (sw, ((min count 15 : Nat) : Int)) ∧
      sw = button_irq_handler s now ∧
      (demo_timer_callback resolution s now fwd_now).1.irq_count = sw.irq_count ∧
      (demo_timer_callback resolution s now fwd_now).1.bottom_half_count
        = sw.bottom_half_count ∧
      (demo_timer_callback resolution s now fwd_now).1.delayed_work_count
        = sw.delayed_work_count ∧
      (demo_timer_callback resolution s now fwd_now).1.last_irq_time = sw.last_irq_time ∧
      (demo_timer_callback resolution s now fwd_now).1.last_bh_time = sw.last_bh_time ∧
      (demo_timer_callback resolution s now fwd_now).1.regular_work_pending
        = sw.regular_work_pending := by
  refine ⟨button_irq_handler s now, ?_, rfl, ?_⟩
  · rw [irq_demo_write_ok s now stack user_buffer count hstack hcopy, if_pos hcmd]
  · obtain ⟨f1, f2, f3, f4, f5, f6, _⟩ := hrtimer_forward_keeps_stats resolution
      (button_irq_handler s now) fwd_now (ns_to_ktime TIMER_PERIOD_NS)
    exact ⟨f1, f2, f3, f4, f5, f6⟩

/-- Witness of C18: a timer expiry and a `trigger` write at the same clock
value. -/
theorem C18_timer_and_trigger_agree_witness :
    ∃ sw, irq_demo_write State.sample 900 (List.replicate 16 'x') "trigger\n".toList 8
        = some (sw, ((min 8 15 : Nat) : Int)) ∧
      sw = button_irq_handler State.sample 900 ∧
      (demo_timer_callback 1 State.sample 900 950).1.irq_count = sw.irq_count ∧
      (demo_timer_callback 1 State.sample 900 950).1.bottom_half_count
        = sw.bottom_half_count ∧
      (demo_timer_callback 1 State.sample 900 950).1.delayed_work_count
        = sw.delayed_work_count ∧
      (demo_timer_callback 1 State.sample 900 950).1.last_irq_time = sw.last_irq_time ∧
      (demo_timer_callback 1 State.sample 900 950).1.last_bh_time = sw.last_bh_time ∧
      (demo_timer_callback 1 State.sample 900 950).1.regular_work_pending
        = sw.regular_work_pending :=
  C18_timer_and_trigger_agree State.sample 1 900 950 (List.replicate 16 'x')
    "trigger\n".toList 8 (by decide) (by decide) (by decide)

/-- C19: in `irq_demo_exit`, and in every run of `irq_demo_init` that fails
after the workqueue was created, `hrtimer_cancel`,
`cancel_delayed_work_sync`, `flush_workqueue` and `destroy_workqueue` are each
called once and in this order. -/
theorem C19_teardown_order (gpio : Bool) (s : State) (now : Int) (env : InitEnv)
    (hwq : env.create_workqueue = true)
    (hfail : (irq_demo_init gpio using_timer env).ret ≠ 0) :
    teardown_ordered (irq_demo_exit gpio using_timer s now).2 ∧
    teardown_ordered (irq_demo_init gpio using_timer env).trace := by
  refine ⟨exit_teardown_ordered gpio s now, ?_⟩
  have hnok : ¬ all_steps_ok gpio env := fun h => hfail (init_success gpio using_timer env h).1
  exact (init_failure gpio using_timer env hnok).2.2.2.2.2.2 hwq rfl

/-- Witness of C19: unload of a running module, and a load on which
`class_create` fails. -/
theorem C19_teardown_order_witness :
    teardown_ordered (irq_demo_exit false using_timer State.sample 900).2 ∧
    teardown_ordered
      (irq_demo_init false using_timer InitEnv.class_fails).trace :=
  C19_teardown_order false State.sample 900 InitEnv.class_fails
    (by decide) (by decide)

/-- C20: under the kernel's contract for the calls it makes, `irq_demo_init`
returns 0 exactly when every step it takes succeeds. When a step fails
(workqueue creation, GPIO request, GPIO direction, IRQ mapping, IRQ request,
chrdev registration, class creation, device creation, cdev add, proc entry
creation) it returns a negative code, the resources released are exactly the
resources acquired before, each once and in reverse order of acquisition, and
neither the timer nor the periodic task is left armed. -/
theorem C20_init_all_or_nothing (gpio timer : Bool) (env : InitEnv)
    (hapi : api_contract env) :
    ((irq_demo_init gpio timer env).ret = 0 ↔ all_steps_ok gpio env) ∧
    (¬ all_steps_ok gpio env →
      (irq_demo_init gpio timer env).ret < 0 ∧
      released (irq_demo_init gpio timer env).trace
        = (acquired (irq_demo_init gpio timer env).trace).reverse ∧
      (acquired (irq_demo_init gpio timer env).trace).Nodup ∧
      (irq_demo_init gpio timer env).state.demo_timer_active = false ∧
      (irq_demo_init gpio timer env).state.delayed_work = none) := by
  refine ⟨init_ret_zero_iff gpio timer env, ?_⟩
  intro hn
  obtain ⟨_, f2, f3, f4, f5, f6, _⟩ := init_failure gpio timer env hn
  exact ⟨f2 hapi, f3, f4, f5, f6⟩

/-- Witness of C20: a load with GPIO in use on which `request_irq` fails. -/
theorem C20_init_all_or_nothing_witness :
    ((irq_demo_init true true InitEnv.irq_fails).ret = 0 ↔
      all_steps_ok true InitEnv.irq_fails) ∧
    (¬ all_steps_ok true InitEnv.irq_fails →
      (irq_demo_init true true InitEnv.irq_fails).ret < 0 ∧
      released (irq_demo_init true true InitEnv.irq_fails).trace
        = (acquired (irq_demo_init true true InitEnv.irq_fails).trace).reverse ∧
      (acquired (irq_demo_init true true InitEnv.irq_fails).trace).Nodup ∧
      (irq_demo_init true true InitEnv.irq_fails).state.demo_timer_active = false ∧
      (irq_demo_init true true InitEnv.irq_fails).state.delayed_work = none) :=
  C20_init_all_or_nothing true true InitEnv.irq_fails (by decide)

/-- C11 (amended): along every sequence of operations without reset (timer
expiry, `trigger` write, other or failed write, drain, periodic task, read,
report), each of `irq_count`, `bottom_half_count` and `delayed_work_count` is
non-decreasing at every step, provided no operation of the sequence increments
a counter that is at `INT_MAX`. The counters start as `int` values. -/
theorem C11_counters_monotone_without_reset (s : State) (ops : List Op)
    (hwf : ∀ op ∈ ops, Op.well_formed op) (hnr : ∀ op ∈ ops, ¬ Op.is_reset op)
    (a : int_ok s.irq_count) (b : int_ok s.bottom_half_count)
    (c : int_ok s.delayed_work_count)
    (hno : ∀ p ∈ (trajectory s ops).zip ops, no_increment_at_max p.1 p.2) :
    List.Chain' counters_le (trajectory s ops) :=
  trajectory_monotone_below_max ops s hwf hnr a b c hno

set_option maxRecDepth 100000 in
/-- Witness of C11: after a successful load (timer armed, periodic task
queued), a timer expiry, a `trigger` write, a drain, an unknown command, a
periodic run, a read and a report; the first three and the periodic run each
increment a counter. -/
theorem C11_counters_monotone_without_reset_witness :
    List.Chain' counters_le
      (trajectory (irq_demo_init using_gpio using_timer InitEnv.all_ok).state
        [Op.timer_fire 1 3000000200 3000000300,
          Op.write 3100000000 (List.replicate 16 'x') "trigger".toList 7,
          Op.drain 3200000000, Op.write 3300000000 (List.replicate 16 'x') "ping".toList 4,
          Op.periodic (fun n => (n + 3) / 4), Op.read 1024 1023 0, Op.report]) :=
  C11_counters_monotone_without_reset (irq_demo_init using_gpio using_timer InitEnv.all_ok).state
    [Op.timer_fire 1 3000000200 3000000300,
      Op.write 3100000000 (List.replicate 16 'x') "trigger".toList 7,
      Op.drain 3200000000, Op.write 3300000000 (List.replicate 16 'x') "ping".toList 4,
      Op.periodic (fun n => (n + 3) / 4), Op.read 1024 1023 0, Op.report]
    (by
      intro op hop
      simp only [List.mem_cons, List.mem_singleton, List.not_mem_nil, or_false] at hop
      rcases hop with h | h | h | h | h | h | h <;> subst h <;>
        first
          | exact True.intro
          | exact (rfl : (List.replicate 16 'x').length = 16))
    (by
      intro op hop
      simp only [List.mem_cons, List.mem_singleton, List.not_mem_nil, or_false] at hop
      rcases hop with h | h | h | h | h | h | h <;> subst h <;>
        first
          | exact fun hf => hf
          | exact (by decide : ¬ "reset".toList <+: "trigger".toList.take 7)
          | exact (by decide : ¬ "reset".toList <+: "ping".toList.take 4))
    (by decide) (by decide) (by decide) (by decide)

/-- Counterexample to C11 as stated: from the load state, 2147483647 writes
of `trigger` bring `irq_count` to `INT_MAX`, and one more such write, which is
no reset, brings it down to `-2147483648`; the run of 2147483648 writes is not
non-decreasing. -/
theorem C11_counterexample :
    ¬ Op.is_reset (Op.write 1 (List.replicate 16 'x') "trigger".toList 7) ∧
    (run State.init (List.replicate 2147483647
      (Op.write 1 (List.replicate 16 'x') "trigger".toList 7))).irq_count = 2147483647 ∧
    (step (run State.init (List.replicate 2147483647
        (Op.write 1 (List.replicate 16 'x') "trigger".toList 7)))
      (Op.write 1 (List.replicate 16 'x') "trigger".toList 7)).irq_count = -2147483648 ∧
    ¬ List.Chain' counters_le (trajectory State.init (List.replicate 2147483648
      (Op.write 1 (List.replicate 16 'x') "trigger".toList 7))) := by
  have hrun : (run State.init (List.replicate 2147483647
      (Op.write 1 (List.replicate 16 'x') "trigger".toList 7))).irq_count = 2147483647 := by
    rw [run_trigger_writes 2147483647 1 State.init (by decide)]
    decide
  have hstep : (step (run State.init (List.replicate 2147483647
        (Op.write 1 (List.replicate 16 'x') "trigger".toList 7)))
      (Op.write 1 (List.replicate 16 'x') "trigger".toList 7)).irq_count = -2147483648 := by
    rw [step_trigger_write, (button_irq_handler_fields _ 1).1, hrun]
    decide
  refine ⟨(by decide : ¬ "reset".toList <+: "trigger".toList.take 7), hrun, hstep, ?_⟩
  intro hchain
  have hsplit : List.replicate 2147483648
      (Op.write 1 (List.replicate 16 'x') "trigger".toList 7)
      = List.replicate 2147483647 (Op.write 1 (List.replicate 16 'x') "trigger".toList 7)
        ++ [Op.write 1 (List.replicate 16 'x') "trigger".toList 7] :=
    List.replicate_succ' 2147483647 _
  rw [hsplit] at hchain
  have hle := (chain_last_step _ _ State.init hchain).1
  rw [hrun, hstep] at hle
  exact absurd hle (by decide)

/-- C15 (amended): start with an idle work item and counters that are `int`
values, let `N ≥ 1` top halves run, interleaved in any way with drains, and
then let the worker drain what is still pending. Then the work item is idle,
`irq_count` has moved by `N` and `bottom_half_count` by some `k` with
`1 ≤ k ≤ N`, both with 32-bit wrap-around: the increases are exactly `N` and
`k` whenever the counters have room for `N` increments below `INT_MAX`. -/
theorem C15_coalescing_bound (s : State) (evs : List Ev) (t : Int)
    (hidle : s.regular_work_pending = false) (hN : 1 ≤ triggers evs)
    (h1 : int_ok s.irq_count) (h2 : int_ok s.bottom_half_count) :
    (process_one_work (run_events s evs) t).regular_work_pending = false ∧
    (process_one_work (run_events s evs) t).irq_count
      = wrap32 (s.irq_count + triggers evs) ∧
    (s.irq_count + triggers evs ≤ INT_MAX →
      (process_one_work (run_events s evs) t).irq_count = s.irq_count + triggers evs) ∧
    ∃ k : Nat, 1 ≤ k ∧ k ≤ triggers evs ∧
      (process_one_work (run_events s evs) t).bottom_half_count
        = wrap32 (s.bottom_half_count + k) ∧
      (s.bottom_half_count + triggers evs ≤ INT_MAX →
        (process_one_work (run_events s evs) t).bottom_half_count
          = s.bottom_half_count + k) := by
  obtain ⟨k, k1, k2, k3, k4⟩ := run_events_bookkeeping evs s h1 h2
  have hp0 : pending_count s = 0 := by
    unfold pending_count
    rw [hidle]
    rfl
  rw [hp0] at k3 k4
  unfold INT_MAX
  unfold int_ok at h1 h2
  by_cases hpend : (run_events s evs).regular_work_pending = true
  · obtain ⟨p1, _, p3, _, _, p6⟩ := process_one_work_fields (run_events s evs) t hpend
    have hp1 : pending_count (run_events s evs) = 1 := by
      unfold pending_count
      rw [hpend]
      rfl
    rw [hp1] at k3
    have hbh : (process_one_work (run_events s evs) t).bottom_half_count
        = wrap32 (s.bottom_half_count + ((k + 1 : Nat) : Int)) := by
      rw [p1, k1, wrap32_wrap32_add]
      congr 1
      push_cast
      omega
    refine ⟨p6, by rw [p3, k2], ?_, k + 1, by omega, by omega, hbh, ?_⟩
    · intro hfit
      rw [p3, k2]
      exact wrap32_of_int _ (by omega) (by omega)
    · intro hfit
      rw [hbh]
      exact wrap32_of_int _ (by omega) (by omega)
  · have hfalse : (run_events s evs).regular_work_pending = false := by simpa using hpend
    have hidle2 := process_one_work_idle (run_events s evs) t hfalse
    have hp1 : pending_count (run_events s evs) = 0 := by
      unfold pending_count
      rw [hfalse]
      rfl
    rw [hp1] at k3 k4
    rw [hidle2]
    refine ⟨hfalse, k2, ?_, k, by omega, by omega, k1, ?_⟩
    · intro hfit
      rw [k2]
      exact wrap32_of_int _ (by omega) (by omega)
    · intro hfit
      rw [k1]
      exact wrap32_of_int _ (by omega) (by omega)

/-- Witness of C15: three top halves, one drain falling between them. -/
theorem C15_coalescing_bound_witness :
    (process_one_work (run_events State.init
        [Ev.on_event 10, Ev.on_event 20, Ev.drain 30, Ev.on_event 40]) 50).regular_work_pending
      = false ∧
    (process_one_work (run_events State.init
        [Ev.on_event 10, Ev.on_event 20, Ev.drain 30, Ev.on_event 40]) 50).irq_count
      = wrap32 (State.init.irq_count
          + triggers [Ev.on_event 10, Ev.on_event 20, Ev.drain 30, Ev.on_event 40]) ∧
    (State.init.irq_count
        + triggers [Ev.on_event 10, Ev.on_event 20, Ev.drain 30, Ev.on_event 40] ≤ INT_MAX →
      (process_one_work (run_events State.init
          [Ev.on_event 10, Ev.on_event 20, Ev.drain 30, Ev.on_event 40]) 50).irq_count
        = State.init.irq_count
          + triggers [Ev.on_event 10, Ev.on_event 20, Ev.drain 30, Ev.on_event 40]) ∧
    ∃ k : Nat, 1 ≤ k ∧
      k ≤ triggers [Ev.on_event 10, Ev.on_event 20, Ev.drain 30, Ev.on_event 40] ∧
      (process_one_work (run_events State.init
          [Ev.on_event 10, Ev.on_event 20, Ev.drain 30, Ev.on_event 40]) 50).bottom_half_count
        = wrap32 (State.init.bottom_half_count + k) ∧
      (State.init.bottom_half_count
          + triggers [Ev.on_event 10, Ev.on_event 20, Ev.drain 30, Ev.on_event 40] ≤ INT_MAX →
        (process_one_work (run_events State.init
            [Ev.on_event 10, Ev.on_event 20, Ev.drain 30, Ev.on_event 40])
          50).bottom_half_count = State.init.bottom_half_count + k) :=
  C15_coalescing_bound State.init
    [Ev.on_event 10, Ev.on_event 20, Ev.drain 30, Ev.on_event 40] 50
    (by decide) (by decide) (by decide) (by decide)

/-- Counterexample to C15 as stated: from an idle work item with both
counters at `INT_MAX`, one top half and its drain leave `irq_count` and
`bottom_half_count` at `-2147483648`: neither has increased by 1. -/
theorem C15_counterexample :
    State.saturated.regular_work_pending = false ∧
    triggers [Ev.on_event 5000000000200] = 1 ∧
    (process_one_work (run_events State.saturated [Ev.on_event 5000000000200])
      5000000000300).irq_count = -2147483648 ∧
    (process_one_work (run_events State.saturated [Ev.on_event 5000000000200])
      5000000000300).bottom_half_count = -2147483648 ∧
    (-2147483648 : Int) ≠ 2147483647 + 1 := by
  decide

/-- C16: start from a state in which `irq_count` and `bottom_half_count` are
equal (as just after a reset). Then after each round of a sequence of
well-separated rounds, a round being one top half followed by the completion
of its drain, the two counters are equal again and the work item is idle. -/
theorem C16_bounded_drain_lag (s : State) (ps : List (Int × Int))
    (heq : s.irq_count = s.bottom_half_count) :
    (rounds s ps).length = ps.length ∧
    ∀ st ∈ rounds s ps,
      st.irq_count = st.bottom_half_count ∧ st.regular_work_pending = false :=
  ⟨rounds_length ps s, rounds_balanced ps s heq⟩

/-- Witness of C16: three rounds after a reset. -/
theorem C16_bounded_drain_lag_witness :
    (rounds (counters_cleared State.sample) [(10, 20), (30, 45), (50, 51)]).length
      = [((10 : Int), (20 : Int)), (30, 45), (50, 51)].length ∧
    ∀ st ∈ rounds (counters_cleared State.sample) [(10, 20), (30, 45), (50, 51)],
      st.irq_count = st.bottom_half_count ∧ st.regular_work_pending = false :=
  C16_bounded_drain_lag (counters_cleared State.sample) [(10, 20), (30, 45), (50, 51)]
    (by decide)

/-- C21: a `trigger` write at `t1`, the completion of its drain at `t2` and a
second `trigger` write at a later time `t3` lead, from any state, to a state
in which `last_irq_time = t3` is newer than `last_bh_time = t2` while the
second drain is still pending; the report read in that state shows both
timestamps and the latency `t2 - t3`, which is negative. -/
theorem C21_newer_event_time_gives_negative_latency (s : State) (t1 t2 t3 : Int)
    (h2 : ktime_ok t2) (h3 : ktime_ok t3) (hset : t2 ≠ 0) (hnewer : t2 < t3) :
    (run s (trigger_drain_trigger t1 t2 t3)).last_irq_time = t3 ∧
    (run s (trigger_drain_trigger t1 t2 t3)).last_bh_time = t2 ∧
    (run s (trigger_drain_trigger t1 t2 t3)).regular_work_pending = true ∧
    (irq_proc_show (run s (trigger_drain_trigger t1 t2 t3)) []).1 =
      [SeqItem.puts "Interrupt Handling Demo Statistics\n",
        SeqItem.puts "==================================\n\n",
        SeqItem.printf "Top-half (IRQ) count: %d\n"
          [(run s (trigger_drain_trigger t1 t2 t3)).irq_count],
        SeqItem.printf "Bottom-half (work) count: %d\n"
          [(run s (trigger_drain_trigger t1 t2 t3)).bottom_half_count],
        SeqItem.printf "Delayed work count: %d\n"
          [(run s (trigger_drain_trigger t1 t2 t3)).delayed_work_count],
        SeqItem.printf "Using timer to simulate interrupts (period: %lld ns)\n"
          [TIMER_PERIOD_NS],
        SeqItem.printf "Last IRQ time: %lld ns\n" [t3],
        SeqItem.printf "Last bottom-half time: %lld ns\n" [t2],
        SeqItem.printf "IRQ to bottom-half latency: %lld ns\n" [t2 - t3]] ∧
    latency_figures (irq_proc_show (run s (trigger_drain_trigger t1 t2 t3)) []).1
      = [t2 - t3] ∧
    t2 - t3 < 0 := by
  have hrun : run s (trigger_drain_trigger t1 t2 t3)
      = button_irq_handler (process_one_work (button_irq_handler s t1) t2) t3 := by
    show step (step (step s (trigger_write t1)) (Op.drain t2)) (trigger_write t3) = _
    unfold trigger_write
    rw [step_trigger_write, step_trigger_write]
    rfl
  obtain ⟨_, a2, _⟩ := process_after_handler_fields s t1 t2
  obtain ⟨_, b2, b3, _, _, b6, _⟩ :=
    button_irq_handler_fields (process_one_work (button_irq_handler s t1) t2) t3
  have e1 : (run s (trigger_drain_trigger t1 t2 t3)).last_irq_time = t3 := by
    rw [hrun, b2]
  have e2 : (run s (trigger_drain_trigger t1 t2 t3)).last_bh_time = t2 := by
    rw [hrun, b6, a2]
  have e3 : (run s (trigger_drain_trigger t1 t2 t3)).regular_work_pending = true := by
    rw [hrun, b3]
  have hk2 := h2
  unfold ktime_ok at hk2
  have n1 : (run s (trigger_drain_trigger t1 t2 t3)).last_irq_time ≠ 0 := by
    rw [e1]
    omega
  have n2 : (run s (trigger_drain_trigger t1 t2 t3)).last_bh_time ≠ 0 := by
    rw [e2]
    exact hset
  have hsub : ktime_sub t2 t3 = t2 - t3 := ktime_sub_of_ok t2 t3 h2 h3
  refine ⟨e1, e2, e3, ?_, ?_, by omega⟩
  · rw [irq_proc_show_both_set _ n1 n2, e1, e2, hsub]
  · rw [latency_figures_show, if_pos ⟨n1, n2⟩, e1, e2, hsub]

/-- Witness of C21: from the load state, triggers at 100 ns and 200 ns with
the drain of the first at 150 ns; the report shows a latency of -50 ns. -/
theorem C21_newer_event_time_gives_negative_latency_witness :
    (run State.init (trigger_drain_trigger 100 150 200)).last_irq_time = 200 ∧
    (run State.init (trigger_drain_trigger 100 150 200)).last_bh_time = 150 ∧
    (run State.init (trigger_drain_trigger 100 150 200)).regular_work_pending = true ∧
    (irq_proc_show (run State.init (trigger_drain_trigger 100 150 200)) []).1 =
      [SeqItem.puts "Interrupt Handling Demo Statistics\n",
        SeqItem.puts "==================================\n\n",
        SeqItem.printf "Top-half (IRQ) count: %d\n"
          [(run State.init (trigger_drain_trigger 100 150 200)).irq_count],
        SeqItem.printf "Bottom-half (work) count: %d\n"
          [(run State.init (trigger_drain_trigger 100 150 200)).bottom_half_count],
        SeqItem.printf "Delayed work count: %d\n"
          [(run State.init (trigger_drain_trigger 100 150 200)).delayed_work_count],
        SeqItem.printf "Using timer to simulate interrupts (period: %lld ns)\n"
          [TIMER_PERIOD_NS],
        SeqItem.printf "Last IRQ time: %lld ns\n" [200],
        SeqItem.printf "Last bottom-half time: %lld ns\n" [150],
        SeqItem.printf "IRQ to bottom-half latency: %lld ns\n" [150 - 200]] ∧
    latency_figures (irq_proc_show (run State.init (trigger_drain_trigger 100 150 200)) []).1
      = [150 - 200] ∧
    (150 : Int) - 200 < 0 :=
  C21_newer_event_time_gives_negative_latency State.init 100 150 200 (by decide) (by decide)
    (by decide) (by decide)

/-- C22: for every offset `o` and every byte string `d` with `1 ≤ |d|` and
`o + |d| ≤ 1024` that the caller can supply, `simple_write` of `d` at offset
`o` returns `|d|` and moves the offset to `o + |d|`; the buffer afterwards is
the old one with `d` in place of the bytes `o .. o + |d|`, every other byte
unchanged; and a `simple_read` of `|d|` bytes at offset `o` returns exactly
`d`. -/
theorem C22_simple_char_round_trip (device_buffer d : List Char) (o room : Nat)
    (hlen : device_buffer.length = 1024) (hd : 1 ≤ d.length) (hfit : o + d.length ≤ 1024)
    (hroom : d.length ≤ room) :
    ∃ w, SimpleChar.simple_write device_buffer d d.length o = some w ∧
      w.ret = d.length ∧ w.offset = o + d.length ∧
      w.device_buffer = device_buffer.take o ++ d ++ device_buffer.drop (o + d.length) ∧
      w.device_buffer.length = 1024 ∧
      (∀ i, i < o ∨ o + d.length ≤ i → w.device_buffer[i]? = device_buffer[i]?) ∧
      SimpleChar.simple_read w.device_buffer room d.length o =
        some { data := d, offset := o + d.length, ret := d.length } := by
  have hmin : min (1024 - (o : Int)).toNat d.length = d.length := by omega
  have hw := SimpleChar.simple_write_ok device_buffer d d.length o hlen (by omega) (by omega)
    hd (by omega)
  rw [hmin, Int.toNat_ofNat, List.take_length] at hw
  have hlen2 : (device_buffer.take o ++ d ++ device_buffer.drop (o + d.length)).length
      = 1024 := by
    simp only [List.length_append, List.length_take, List.length_drop]
    omega
  refine ⟨_, hw, rfl, rfl, rfl, hlen2, ?_, ?_⟩
  · intro i hi
    show (device_buffer.take o ++ d ++ device_buffer.drop (o + d.length))[i]?
      = device_buffer[i]?
    rcases hi with hi | hi
    · rw [List.append_assoc, List.getElem?_append_left (by rw [List.length_take]; omega),
        List.getElem?_take_of_lt hi]
    · have hl : (device_buffer.take o ++ d).length = o + d.length := by
        simp only [List.length_append, List.length_take]
        omega
      rw [List.getElem?_append_right (by rw [hl]; exact hi), List.getElem?_drop, hl,
        Nat.add_sub_cancel' hi]
  · have hr := SimpleChar.simple_read_ok
      (device_buffer.take o ++ d ++ device_buffer.drop (o + d.length)) room d.length o hlen2
      (by omega) (by omega) hd (by omega)
    rw [hmin, Int.toNat_ofNat] at hr
    rw [hr]
    have hdata : ((device_buffer.take o ++ d ++ device_buffer.drop (o + d.length)).drop o).take
        d.length = d := by
      rw [List.append_assoc, List.drop_append_of_le_length (by rw [List.length_take]; omega)]
      have h1 : (device_buffer.take o).drop o = [] := by
        apply List.drop_eq_nil_of_le
        rw [List.length_take]
        omega
      rw [h1, List.nil_append, List.take_left']
      rfl
    show some _ = some _
    rw [hdata]

/-- Witness of C22: three bytes, one of them not printable, written at offset
1021 of a zeroed buffer. -/
theorem C22_simple_char_round_trip_witness :
    ∃ w, SimpleChar.simple_write SimpleChar.device_buffer_init ['o', 'k', Char.ofNat 7]
        ['o', 'k', Char.ofNat 7].length (1021 : Nat) = some w ∧
      w.ret = ['o', 'k', Char.ofNat 7].length ∧
      w.offset = (1021 : Nat) + ['o', 'k', Char.ofNat 7].length ∧
      w.device_buffer = SimpleChar.device_buffer_init.take 1021 ++ ['o', 'k', Char.ofNat 7] ++
        SimpleChar.device_buffer_init.drop (1021 + ['o', 'k', Char.ofNat 7].length) ∧
      w.device_buffer.length = 1024 ∧
      (∀ i, i < 1021 ∨ 1021 + ['o', 'k', Char.ofNat 7].length ≤ i →
        w.device_buffer[i]? = SimpleChar.device_buffer_init[i]?) ∧
      SimpleChar.simple_read w.device_buffer 3 ['o', 'k', Char.ofNat 7].length (1021 : Nat) =
        some { data := ['o', 'k', Char.ofNat 7],
               offset := (1021 : Nat) + ['o', 'k', Char.ofNat 7].length,
               ret := ['o', 'k', Char.ofNat 7].length } :=
  C22_simple_char_round_trip SimpleChar.device_buffer_init ['o', 'k', Char.ofNat 7] 1021 3
    (List.length_replicate 1024 _) (by decide) (by decide) (by decide)

/-- C23 (amended): start from a state with `irq_count = 0`,
`bottom_half_count = 0` and an idle work item, as module load leaves it. After
every sequence of operations without reset (timer expiries, `trigger` writes,
drains, periodic runs, and also other writes, reads and reports) in which the
top half runs at most `INT_MAX` times, `bottom_half_count`, plus one if the
drain work is pending, is at most `irq_count`. -/
theorem C23_drains_never_exceed_events (s : State) (ops : List Op)
    (hirq : s.irq_count = 0) (hbh : s.bottom_half_count = 0)
    (hidle : s.regular_work_pending = false)
    (hwf : ∀ op ∈ ops, Op.well_formed op) (hnr : ∀ op ∈ ops, ¬ Op.is_reset op)
    (hroom : on_events ops ≤ 2147483647) :
    (run s ops).bottom_half_count + pending_count (run s ops) ≤ (run s ops).irq_count := by
  have hp : pending_count s = 0 := by
    unfold pending_count
    rw [hidle]
    rfl
  exact (run_pipeline_invariant ops s hwf hnr (by rw [hbh]) (by rw [hbh, hp, hirq]; rfl)
    (by rw [hirq]; unfold INT_MAX; omega)).2.1

/-- Witness of C23: after a successful load, two timer expiries, a drain, a
`trigger` write, a periodic run and another drain. -/
theorem C23_drains_never_exceed_events_witness :
    (run (irq_demo_init using_gpio using_timer InitEnv.all_ok).state
        [Op.timer_fire 1 3000000200 3000000300, Op.timer_fire 1 4000000200 4000000300,
          Op.drain 4000000400, trigger_write 4000000500,
          Op.periodic (fun n => (n + 3) / 4), Op.drain 4000000600]).bottom_half_count
      + pending_count (run (irq_demo_init using_gpio using_timer InitEnv.all_ok).state
        [Op.timer_fire 1 3000000200 3000000300, Op.timer_fire 1 4000000200 4000000300,
          Op.drain 4000000400, trigger_write 4000000500,
          Op.periodic (fun n => (n + 3) / 4), Op.drain 4000000600])
      ≤ (run (irq_demo_init using_gpio using_timer InitEnv.all_ok).state
        [Op.timer_fire 1 3000000200 3000000300, Op.timer_fire 1 4000000200 4000000300,
          Op.drain 4000000400, trigger_write 4000000500,
          Op.periodic (fun n => (n + 3) / 4), Op.drain 4000000600]).irq_count :=
  C23_drains_never_exceed_events (irq_demo_init using_gpio using_timer InitEnv.all_ok).state
    [Op.timer_fire 1 3000000200 3000000300, Op.timer_fire 1 4000000200 4000000300,
      Op.drain 4000000400, trigger_write 4000000500,
      Op.periodic (fun n => (n + 3) / 4), Op.drain 4000000600]
    (by decide) (by decide) (by decide)
    (by
      intro op hop
      simp only [List.mem_cons, List.mem_singleton, List.not_mem_nil, or_false] at hop
      rcases hop with h | h | h | h | h | h <;> subst h <;>
        first
          | exact True.intro
          | exact (rfl : (List.replicate 16 'x').length = 16))
    (by
      intro op hop
      simp only [List.mem_cons, List.mem_singleton, List.not_mem_nil, or_false] at hop
      rcases hop with h | h | h | h | h | h <;> subst h <;>
        first
          | exact fun hf => hf
          | exact (by decide : ¬ "reset".toList <+: "trigger".toList.take 7))
    (by decide)

/-- Counterexample to C23 as stated: from the load state, 2147483648 writes
of `trigger`, none of them a reset, with no drain in between leave
`irq_count` at `-2147483648`, `bottom_half_count` at 0 and the drain pending:
`0 + 1` is not at most `-2147483648`. -/
theorem C23_counterexample :
    ¬ Op.is_reset (Op.write 1 (List.replicate 16 'x') "trigger".toList 7) ∧
    (run State.init (List.replicate 2147483648
      (Op.write 1 (List.replicate 16 'x') "trigger".toList 7))).irq_count = -2147483648 ∧
    (run State.init (List.replicate 2147483648
      (Op.write 1 (List.replicate 16 'x') "trigger".toList 7))).bottom_half_count = 0 ∧
    (run State.init (List.replicate 2147483648
      (Op.write 1 (List.replicate 16 'x') "trigger".toList 7))).regular_work_pending = true ∧
    ¬ ((run State.init (List.replicate 2147483648
        (Op.write 1 (List.replicate 16 'x') "trigger".toList 7))).bottom_half_count
      + pending_count (run State.init (List.replicate 2147483648
        (Op.write 1 (List.replicate 16 'x') "trigger".toList 7)))
      ≤ (run State.init (List.replicate 2147483648
        (Op.write 1 (List.replicate 16 'x') "trigger".toList 7))).irq_count) := by
  have hirq : (run State.init (List.replicate 2147483648
      (Op.write 1 (List.replicate 16 'x') "trigger".toList 7))).irq_count = -2147483648 := by
    rw [run_trigger_writes 2147483648 1 State.init (by decide)]
    decide
  obtain ⟨hbh, hpend, _⟩ := run_trigger_writes_rest 2147483648 1 State.init
  have hbh0 : (run State.init (List.replicate 2147483648
      (Op.write 1 (List.replicate 16 'x') "trigger".toList 7))).bottom_half_count = 0 :=
    hbh
  have hp := hpend (by decide)
  refine ⟨(by decide : ¬ "reset".toList <+: "trigger".toList.take 7), hirq, hbh0, hp, ?_⟩
  unfold pending_count
  rw [hirq, hbh0, hp]
  decide

/-- C24: a write that starts with `reset`, made while the drain work is
pending, leaves the work item pending and the counters at 0; once the worker
has run that drain, `bottom_half_count` is 1 and `irq_count` is 0, so the
bottom-half count exceeds the top-half count. -/
theorem C24_reset_keeps_pending_drain (s : State) (now t : Int) (stack user_buffer : List Char)
    (count : Nat) (hstack : stack.length = 16) (hcopy : min count 15 ≤ user_buffer.length)
    (hcmd : "reset".toList <+: user_buffer.take count)
    (hpend : s.regular_work_pending = true) :
    ∃ s2, irq_demo_write s now stack user_buffer count
        = some (s2, ((min count 15 : Nat) : Int)) ∧
      s2.regular_work_pending = true ∧
      s2.irq_count = 0 ∧ s2.bottom_half_count = 0 ∧
      (process_one_work s2 t).regular_work_pending = false ∧
      (process_one_work s2 t).bottom_half_count = 1 ∧
      (process_one_work s2 t).irq_count = 0 ∧
      (process_one_work s2 t).irq_count < (process_one_work s2 t).bottom_half_count := by
  have hw := irq_demo_write_ok s now stack user_buffer count hstack hcopy
  rw [if_neg (reset_excludes_trigger _ hcmd), if_pos hcmd] at hw
  have hp2 : (counters_cleared s).regular_work_pending = true := hpend
  obtain ⟨p1, _, p3, _, _, p6⟩ := process_one_work_fields (counters_cleared s) t hp2
  have q1 : (process_one_work (counters_cleared s) t).bottom_half_count = 1 := by
    rw [p1]
    rfl
  have q3 : (process_one_work (counters_cleared s) t).irq_count = 0 := by
    rw [p3]
    rfl
  refine ⟨counters_cleared s, hw, hp2, rfl, rfl, p6, q1, q3, ?_⟩
  rw [q1, q3]
  decide

/-- Witness of C24: a `reset` written to a module with seven interrupts
taken, six drained and the seventh drain pending. -/
theorem C24_reset_keeps_pending_drain_witness :
    ∃ s2, irq_demo_write State.sample 700 (List.replicate 16 'x') "reset\n".toList 6
        = some (s2, ((min 6 15 : Nat) : Int)) ∧
      s2.regular_work_pending = true ∧
      s2.irq_count = 0 ∧ s2.bottom_half_count = 0 ∧
      (process_one_work s2 800).regular_work_pending = false ∧
      (process_one_work s2 800).bottom_half_count = 1 ∧
      (process_one_work s2 800).irq_count = 0 ∧
      (process_one_work s2 800).irq_count < (process_one_work s2 800).bottom_half_count :=
  C24_reset_keeps_pending_drain State.sample 700 800 (List.replicate 16 'x') "reset\n".toList 6
    (by decide) (by decide) (by decide) (by decide)

/-- C25: whenever the copy of the command from the caller fails (fewer
bytes are readable at the user pointer than `irq_demo_write` asks for), the
call returns `-EFAULT` (-14) and the state is the one before the call: the
counters, both timestamps and the work item are unchanged, whatever the
readable bytes spell. -/
theorem C25_failed_write_changes_nothing (s : State) (now : Int)
    (stack user_buffer : List Char) (count : Nat) (hstack : stack.length = 16)
    (hfault : user_buffer.length < min count 15) :
    irq_demo_write s now stack user_buffer count = some (s, -14) ∧
    ∀ r ∈ irq_demo_write s now stack user_buffer count,
      r.2 = -14 ∧ r.1.irq_count = s.irq_count ∧
      r.1.bottom_half_count = s.bottom_half_count ∧
      r.1.delayed_work_count = s.delayed_work_count ∧
      r.1.last_irq_time = s.last_irq_time ∧ r.1.last_bh_time = s.last_bh_time ∧
      r.1.regular_work_pending = s.regular_work_pending := by
  have hw : irq_demo_write s now stack user_buffer count = some (s, -14) :=
    irq_demo_write_fault s now stack user_buffer count hstack hfault
  refine ⟨hw, ?_⟩
  intro r hr
  rw [hw] at hr
  have hrs : r = (s, -14) := (Option.mem_some_iff.mp hr).symm
  subst hrs
  exact ⟨rfl, rfl, rfl, rfl, rfl, rfl, rfl⟩

/-- Witness of C25: the caller asks for 8 bytes where only the 7 bytes
`trigger` are readable; no interrupt is taken. -/
theorem C25_failed_write_changes_nothing_witness :
    irq_demo_write State.sample 900 (List.replicate 16 'x') "trigger".toList 8
      = some (State.sample, -14) ∧
    ∀ r ∈ irq_demo_write State.sample 900 (List.replicate 16 'x') "trigger".toList 8,
      r.2 = -14 ∧ r.1.irq_count = State.sample.irq_count ∧
      r.1.bottom_half_count = State.sample.bottom_half_count ∧
      r.1.delayed_work_count = State.sample.delayed_work_count ∧
      r.1.last_irq_time = State.sample.last_irq_time ∧
      r.1.last_bh_time = State.sample.last_bh_time ∧
      r.1.regular_work_pending = State.sample.regular_work_pending :=
  C25_failed_write_changes_nothing State.sample 900 (List.replicate 16 'x') "trigger".toList 8
    (by decide) (by decide)

/-- C26 (amended): in `irq_demo_exit` the timer is cancelled before the
workqueue is destroyed and is idle afterwards, so an expiry can no longer run
the top half once the queue is gone. `free_irq` (when GPIO is in use) and the
calls that remove the character device (`cdev_del`, `device_destroy`,
`unregister_chrdev`) come after `destroy_workqueue`. -/
theorem C26_exit_stops_timer_before_destroy (gpio : Bool) (s : State) (now : Int) :
    (irq_demo_exit gpio using_timer s now).2.count Call.hrtimer_cancel = 1 ∧
    (irq_demo_exit gpio using_timer s now).2.count Call.destroy_workqueue = 1 ∧
    (irq_demo_exit gpio using_timer s now).2.indexOf Call.hrtimer_cancel
      < (irq_demo_exit gpio using_timer s now).2.indexOf Call.destroy_workqueue ∧
    (irq_demo_exit gpio using_timer s now).1.demo_timer_active = false ∧
    (∀ resolution t fwd_now : Int,
      run_hrtimer resolution (irq_demo_exit gpio using_timer s now).1 t fwd_now
        = (irq_demo_exit gpio using_timer s now).1) ∧
    (irq_demo_exit gpio using_timer s now).2.count Call.cdev_del = 1 ∧
    (irq_demo_exit gpio using_timer s now).2.indexOf Call.destroy_workqueue
      < (irq_demo_exit gpio using_timer s now).2.indexOf Call.cdev_del ∧
    (irq_demo_exit gpio using_timer s now).2.indexOf Call.cdev_del
      < (irq_demo_exit gpio using_timer s now).2.indexOf Call.device_destroy ∧
    (irq_demo_exit gpio using_timer s now).2.indexOf Call.device_destroy
      < (irq_demo_exit gpio using_timer s now).2.indexOf Call.unregister_chrdev ∧
    (irq_demo_exit gpio using_timer s now).2.count Call.free_irq = (if gpio then 1 else 0) ∧
    (gpio = true →
      (irq_demo_exit gpio using_timer s now).2.indexOf Call.destroy_workqueue
        < (irq_demo_exit gpio using_timer s now).2.indexOf Call.free_irq) := by
  have ht : (irq_demo_exit gpio using_timer s now).2 =
      [Call.hrtimer_cancel, Call.cancel_delayed_work_sync, Call.flush_workqueue,
        Call.destroy_workqueue] ++
      (if gpio then [Call.free_irq, Call.gpio_free] else []) ++
      [Call.remove_proc_entry, Call.cdev_del, Call.device_destroy, Call.class_destroy,
        Call.unregister_chrdev] := exit_trace gpio s now
  obtain ⟨hidle, hrun⟩ := exit_timer_idle gpio s now
  rw [ht]
  refine ⟨?_, ?_, ?_, hidle, hrun, ?_, ?_, ?_, ?_, ?_, ?_⟩ <;> cases gpio <;> decide

/-- Counterexample to C26 as stated: at the unload of the module as built,
`destroy_workqueue` is the fourth call of `irq_demo_exit` and `cdev_del`,
which removes the character device, the sixth: the character device is not
removed before the workqueue is destroyed. With GPIO in use, `free_irq` is the
fifth call. -/
theorem C26_counterexample :
    (irq_demo_exit using_gpio using_timer State.sample 900).2 =
      [Call.hrtimer_cancel, Call.cancel_delayed_work_sync, Call.flush_workqueue,
        Call.destroy_workqueue, Call.remove_proc_entry, Call.cdev_del, Call.device_destroy,
        Call.class_destroy, Call.unregister_chrdev] ∧
    ¬ ((irq_demo_exit using_gpio using_timer State.sample 900).2.indexOf Call.cdev_del
      < (irq_demo_exit using_gpio using_timer State.sample 900).2.indexOf
          Call.destroy_workqueue) ∧
    (irq_demo_exit true using_timer State.sample 900).2 =
      [Call.hrtimer_cancel, Call.cancel_delayed_work_sync, Call.flush_workqueue,
        Call.destroy_workqueue, Call.free_irq, Call.gpio_free, Call.remove_proc_entry,
        Call.cdev_del, Call.device_destroy, Call.class_destroy, Call.unregister_chrdev] ∧
    ¬ ((irq_demo_exit true using_timer State.sample 900).2.indexOf Call.free_irq
      < (irq_demo_exit true using_timer State.sample 900).2.indexOf
          Call.destroy_workqueue) := by
  decide

set_option maxRecDepth 20000 in
/-- C27, evaluated where it fails: a `pread` of one byte at file offset 1025.
`bytes_to_read` comes out as 1, not as a value `≤ 0`, so the call does not
return 0: it copies from `device_buffer + 1025`, outside the array (`none`).
At offset 1024 the call returns 0 and at offset 1023 it returns the last
byte. -/
theorem C27_read_past_end_leaves_buffer :
    SimpleChar.bytes_to_copy 1 1025 = 1 ∧
    SimpleChar.simple_read SimpleChar.device_buffer_init 1 1 1025 = none ∧
    SimpleChar.simple_read SimpleChar.device_buffer_init 1 1 1024
      = some { data := [], offset := 1024, ret := 0 } ∧
    SimpleChar.simple_read SimpleChar.device_buffer_init 1 1 1023
      = some { data := [IrqDemo.NUL], offset := 1024, ret := 1 } := by
  refine ⟨by decide, ?_, ?_, by decide⟩
  · exact SimpleChar.simple_read_past_end SimpleChar.device_buffer_init 1 1 1025
      (List.length_replicate 1024 _) (by decide) (by decide) (by decide) (by decide)
  · exact SimpleChar.simple_read_eof SimpleChar.device_buffer_init 1 1 1024 (by decide)

/-- C28, evaluated where it fails. A `write` of no bytes at offset 0, where
the whole buffer is free, returns `-ENOSPC` (-28) instead of 0. A `pwrite` of
one byte at file offset 1025 finds `bytes_to_write` to be 1, so it does not
return `-ENOSPC`: it copies to `device_buffer + 1025`, outside the array
(`none`). -/
theorem C28_write_enospc_misplaced :
    SimpleChar.simple_write SimpleChar.device_buffer_init [] 0 0
      = some { device_buffer := SimpleChar.device_buffer_init, offset := 0, ret := -28 } ∧
    SimpleChar.bytes_to_copy 1 1025 = 1 ∧
    SimpleChar.simple_write SimpleChar.device_buffer_init ['A'] 1 1025 = none ∧
    SimpleChar.simple_write SimpleChar.device_buffer_init ['A'] 1 1024
      = some { device_buffer := SimpleChar.device_buffer_init, offset := 1024, ret := -28 } := by
  refine ⟨?_, by decide, ?_, ?_⟩
  · exact SimpleChar.simple_write_nospace SimpleChar.device_buffer_init [] 0 0 (by decide)
  · exact SimpleChar.simple_write_past_end SimpleChar.device_buffer_init ['A'] 1 1025
      (List.length_replicate 1024 _) (by decide) (by decide) (by decide) (by decide)
  · exact SimpleChar.simple_write_nospace SimpleChar.device_buffer_init ['A'] 1 1024
      (by decide)

/-- C29: for every current position `p` in `[0, 1024]`, every `loff_t` offset
and every `whence`, `simple_llseek` sets the file position to the target
(`offset`, `p + offset` or `1024 + offset`, as unbounded integers) and returns
it when `whence` is `SEEK_SET`, `SEEK_CUR` or `SEEK_END` and the target lies in
`[0, 1024]`; in every other case it returns `-EINVAL` (-22) and leaves the
position as it was. The position is in `[0, 1024]` after the call. -/
theorem C29_llseek_keeps_position_in_range (p offset whence : Int) (hp0 : 0 ≤ p)
    (hp1 : p ≤ 1024) (hoff : SimpleChar.loff_ok offset) :
    SimpleChar.simple_llseek p offset whence =
      (match SimpleChar.seek_target p offset whence with
       | some t => if 0 ≤ t ∧ t ≤ 1024 then { f_pos := t, ret := t } else { f_pos := p, ret := -22 }
       | none => { f_pos := p, ret := -22 }) ∧
    0 ≤ (SimpleChar.simple_llseek p offset whence).f_pos ∧
    (SimpleChar.simple_llseek p offset whence).f_pos ≤ 1024 := by
  unfold SimpleChar.loff_ok at hoff
  have key : ∀ x : Int, -9223372036854775808 ≤ x → x < 9223372036854775808 + 1025 →
      SimpleChar.seek_to p (IrqDemo.wrap64 x)
        = if 0 ≤ x ∧ x ≤ 1024 then { f_pos := x, ret := x } else { f_pos := p, ret := -22 } := by
    intro x hlo hhi
    have hiff := SimpleChar.wrap64_in_buffer_iff x hlo hhi
    by_cases hx : 0 ≤ x ∧ x ≤ 1024
    · rw [if_pos hx, IrqDemo.wrap64_of_s64 x (by omega) (by omega)]
      exact SimpleChar.seek_to_in_range p x hx.1 hx.2
    · rw [if_neg hx]
      have hn : ¬ (0 ≤ IrqDemo.wrap64 x ∧ IrqDemo.wrap64 x ≤ 1024) := fun h => hx (hiff.mp h)
      exact SimpleChar.seek_to_out_of_range p _ (by omega)
  have heq : SimpleChar.simple_llseek p offset whence =
      (match SimpleChar.seek_target p offset whence with
       | some t => if 0 ≤ t ∧ t ≤ 1024 then { f_pos := t, ret := t } else { f_pos := p, ret := -22 }
       | none => { f_pos := p, ret := -22 }) := by
    unfold SimpleChar.simple_llseek SimpleChar.seek_target
    by_cases h0 : whence = SimpleChar.SEEK_SET
    · rw [if_pos h0, if_pos h0]
      have := key offset hoff.1 (by omega)
      rw [IrqDemo.wrap64_of_s64 offset hoff.1 hoff.2] at this
      exact this
    · rw [if_neg h0, if_neg h0]
      by_cases h1 : whence = SimpleChar.SEEK_CUR
      · rw [if_pos h1, if_pos h1]
        exact key (p + offset) (by omega) (by omega)
      · rw [if_neg h1, if_neg h1]
        by_cases h2 : whence = SimpleChar.SEEK_END
        · rw [if_pos h2, if_pos h2]
          exact key (1024 + offset) (by omega) (by omega)
        · rw [if_neg h2, if_neg h2]
          rfl
  refine ⟨heq, ?_⟩
  rw [heq]
  cases SimpleChar.seek_target p offset whence with
  | none => exact ⟨hp0, hp1⟩
  | some t =>
    show 0 ≤ (if 0 ≤ t ∧ t ≤ 1024 then
        ({ f_pos := t, ret := t } : SimpleChar.SeekResult) else { f_pos := p, ret := -22 }).f_pos ∧
      (if 0 ≤ t ∧ t ≤ 1024 then
        ({ f_pos := t, ret := t } : SimpleChar.SeekResult) else { f_pos := p, ret := -22 }).f_pos
        ≤ 1024
    split
    · rename_i ht
      exact ht
    · exact ⟨hp0, hp1⟩

/-- Witness of C29: a `SEEK_CUR` by the largest `loff_t` from position 10,
which overflows the addition and is refused. -/
theorem C29_llseek_keeps_position_in_range_witness :
    SimpleChar.simple_llseek 10 9223372036854775807 1 =
      (match SimpleChar.seek_target 10 9223372036854775807 1 with
       | some t =>
         if 0 ≤ t ∧ t ≤ 1024 then { f_pos := t, ret := t } else { f_pos := 10, ret := -22 }
       | none => { f_pos := 10, ret := -22 }) ∧
    0 ≤ (SimpleChar.simple_llseek 10 9223372036854775807 1).f_pos ∧
    (SimpleChar.simple_llseek 10 9223372036854775807 1).f_pos ≤ 1024 :=
  C29_llseek_keeps_position_in_range 10 9223372036854775807 1 (by decide) (by decide)
    (by decide)

/-- C30 (amended): in `sync_demo`, in every state reached from module load
by complete passes of the background thread and by writes (taken as atomic
steps), the atomic counter and the four entries of `counter_values` (the
rw-semaphore copy, the spinlock, mutex and semaphore counters) are all equal.
A pass moves each of them to the same value, the old one plus 1 reduced to a
signed 32-bit `int`: exactly 1 more whenever the counters are below
`INT_MAX`. A write that starts with `reset` sets each of them to 0. -/
theorem C30_sync_counters_stay_equal (steps : List SyncDemo.Step)
    (hwf : ∀ st ∈ steps, SyncDemo.Step.well_formed st) :
    SyncDemo.counters_agree (SyncDemo.run SyncDemo.State.init steps) ∧
    SyncDemo.loop_body (SyncDemo.run SyncDemo.State.init steps) =
      { atomic_counter :=
          wrap32 ((SyncDemo.run SyncDemo.State.init steps).atomic_counter + 1),
        counter_values :=
          List.replicate 4
            (wrap32 ((SyncDemo.run SyncDemo.State.init steps).atomic_counter + 1)) } ∧
    ((SyncDemo.run SyncDemo.State.init steps).atomic_counter < INT_MAX →
      SyncDemo.loop_body (SyncDemo.run SyncDemo.State.init steps) =
        { atomic_counter := (SyncDemo.run SyncDemo.State.init steps).atomic_counter + 1,
          counter_values :=
            List.replicate 4
              ((SyncDemo.run SyncDemo.State.init steps).atomic_counter + 1) }) ∧
    (∀ (stack user_buffer : List Char) (count : Nat), stack.length = 16 →
      min count 15 ≤ user_buffer.length → "reset".toList <+: user_buffer.take count →
      SyncDemo.sync_demo_write (SyncDemo.run SyncDemo.State.init steps) stack user_buffer count
        = some ({ atomic_counter := 0, counter_values := List.replicate 4 0 },
            ((min count 15 : Nat) : Int))) := by
  obtain ⟨hagree, hint⟩ := SyncDemo.run_agree steps SyncDemo.State.init hwf (by decide)
    (by decide)
  have hbody := SyncDemo.loop_body_of_agree _ hagree
  refine ⟨hagree, hbody, ?_, ?_⟩
  · intro hlt
    unfold int_ok at hint
    unfold INT_MAX at hlt
    rw [hbody, wrap32_of_int _ (by omega) (by omega)]
    rfl
  · intro stack user_buffer count hstack hcopy hcmd
    rw [SyncDemo.sync_demo_write_ok _ stack user_buffer count hstack hcopy, if_pos hcmd,
      SyncDemo.reset_counters_of_agree _ hagree]
    rfl

/-- Witness of C30: two passes, a `reset` write and one more pass. -/
theorem C30_sync_counters_stay_equal_witness :
    SyncDemo.counters_agree (SyncDemo.run SyncDemo.State.init
      [SyncDemo.Step.iteration, SyncDemo.Step.iteration,
        SyncDemo.Step.write (List.replicate 16 'x') "reset".toList 5,
        SyncDemo.Step.iteration]) ∧
    SyncDemo.loop_body (SyncDemo.run SyncDemo.State.init
        [SyncDemo.Step.iteration, SyncDemo.Step.iteration,
          SyncDemo.Step.write (List.replicate 16 'x') "reset".toList 5,
          SyncDemo.Step.iteration]) =
      { atomic_counter :=
          wrap32 ((SyncDemo.run SyncDemo.State.init
            [SyncDemo.Step.iteration, SyncDemo.Step.iteration,
              SyncDemo.Step.write (List.replicate 16 'x') "reset".toList 5,
              SyncDemo.Step.iteration]).atomic_counter + 1),
        counter_values :=
          List.replicate 4
            (wrap32 ((SyncDemo.run SyncDemo.State.init
              [SyncDemo.Step.iteration, SyncDemo.Step.iteration,
                SyncDemo.Step.write (List.replicate 16 'x') "reset".toList 5,
                SyncDemo.Step.iteration]).atomic_counter + 1)) } ∧
    ((SyncDemo.run SyncDemo.State.init
        [SyncDemo.Step.iteration, SyncDemo.Step.iteration,
          SyncDemo.Step.write (List.replicate 16 'x') "reset".toList 5,
          SyncDemo.Step.iteration]).atomic_counter < INT_MAX →
      SyncDemo.loop_body (SyncDemo.run SyncDemo.State.init
          [SyncDemo.Step.iteration, SyncDemo.Step.iteration,
            SyncDemo.Step.write (List.replicate 16 'x') "reset".toList 5,
            SyncDemo.Step.iteration]) =
        { atomic_counter := (SyncDemo.run SyncDemo.State.init
            [SyncDemo.Step.iteration, SyncDemo.Step.iteration,
              SyncDemo.Step.write (List.replicate 16 'x') "reset".toList 5,
              SyncDemo.Step.iteration]).atomic_counter + 1,
          counter_values :=
            List.replicate 4
              ((SyncDemo.run SyncDemo.State.init
                [SyncDemo.Step.iteration, SyncDemo.Step.iteration,
                  SyncDemo.Step.write (List.replicate 16 'x') "reset".toList 5,
                  SyncDemo.Step.iteration]).atomic_counter + 1) }) ∧
    (∀ (stack user_buffer : List Char) (count : Nat), stack.length = 16 →
      min count 15 ≤ user_buffer.length → "reset".toList <+: user_buffer.take count →
      SyncDemo.sync_demo_write (SyncDemo.run SyncDemo.State.init
          [SyncDemo.Step.iteration, SyncDemo.Step.iteration,
            SyncDemo.Step.write (List.replicate 16 'x') "reset".toList 5,
            SyncDemo.Step.iteration]) stack user_buffer count
        = some ({ atomic_counter := 0, counter_values := List.replicate 4 0 },
            ((min count 15 : Nat) : Int))) :=
  C30_sync_counters_stay_equal
    [SyncDemo.Step.iteration, SyncDemo.Step.iteration,
      SyncDemo.Step.write (List.replicate 16 'x') "reset".toList 5, SyncDemo.Step.iteration]
    (by
      intro st hst
      simp only [List.mem_cons, List.mem_singleton, List.not_mem_nil, or_false] at hst
      rcases hst with h | h | h | h <;> subst h <;>
        first
          | exact True.intro
          | exact (rfl : (List.replicate 16 'x').length = 16))

/-- Counterexample to C30 as stated: after 2147483647 passes of the thread
from module load every counter is at `INT_MAX`, and the next pass leaves
every counter at `-2147483648`: it has not added 1. -/
theorem C30_counterexample :
    SyncDemo.demo_thread_fn 2147483647 SyncDemo.State.init =
      { atomic_counter := 2147483647,
        counter_values := [2147483647, 2147483647, 2147483647, 2147483647] } ∧
    SyncDemo.loop_body (SyncDemo.demo_thread_fn 2147483647 SyncDemo.State.init) =
      { atomic_counter := -2147483648,
        counter_values := [-2147483648, -2147483648, -2147483648, -2147483648] } ∧
    (-2147483648 : Int) ≠ 2147483647 + 1 := by
  have h := SyncDemo.demo_thread_fn_closed 2147483647 SyncDemo.State.init (by decide)
    (by decide)
  have h1 : SyncDemo.demo_thread_fn 2147483647 SyncDemo.State.init =
      { atomic_counter := 2147483647,
        counter_values := [2147483647, 2147483647, 2147483647, 2147483647] } := by
    rw [h]
    decide
  refine ⟨h1, ?_, by decide⟩
  rw [h1]
  decide
